import Mathlib

/-!
# RuntimeTransformer: selection, gizmo, picking, transforms, replication and cloning of
`ATransformerPawn`

A shallow embedding of `Source/RuntimeTransformer/Private/TransformerPawn.cpp`.

* Object pointers are handles (`Nat`); a nullable pointer is an `Option`.
* The pawn's member variables are the fields of `ATransformerPawn`; every member function
  is a function `World → ATransformerPawn → … → ATransformerPawn`.
* Calls that leave the pawn (focus hooks, selection-change notification, actor spawning and
  destruction, remote procedure calls) are recorded, in call order, in the field `Log`.
* The engine facts the code queries (owners, root components, ray casts, roles) are the
  fields of `World`; the virtual functions of the gizmo classes whose bodies are not in
  `TransformerPawn.cpp` are fields of `World` as well.
* Scalars are exact rationals; the world transform and the mobility of every component are
  kept in the field `SceneState` of the pawn, each component on its own.
* A function that can dereference an invalid pointer, or whose loop is bounded by fuel,
  returns an `Option`.
-/

namespace RuntimeTransformer

/-! ## Engine value types -/

/-- Handle of a `USceneComponent` object. -/
abbrev USceneComponent := Nat

/-- Handle of an `AActor` object. -/
abbrev AActor := Nat

/-- Handle of a `UClass` object. -/
abbrev UClass := Nat

/-- Collision channel identifier (`ECollisionChannel`). -/
abbrev ECollisionChannel := Nat

/-- Collision profile name (`FName`). -/
abbrev FName := Nat

/-- Modelled from the spec: the enum `ETransformationType` of `RuntimeTransformer.h`
(transformation kind: translate, rotate, scale, none). -/
inductive ETransformationType where
  | TT_NoTransform
  | TT_Translation
  | TT_Rotation
  | TT_Scale
  deriving DecidableEq, Repr

/-- Modelled from the spec: the enum `ETransformationDomain` of `RuntimeTransformer.h`
(axis or plane constraint; `TD_None` means no transform in progress). -/
inductive ETransformationDomain where
  | TD_None
  | TD_X_Axis
  | TD_Y_Axis
  | TD_Z_Axis
  | TD_XY_Plane
  | TD_YZ_Plane
  | TD_XZ_Plane
  | TD_XYZ
  deriving DecidableEq, Repr

/-- Modelled from the spec: the enum `ESpaceType` of `RuntimeTransformer.h`
(coordinate space: world or local). -/
inductive ESpaceType where
  | ST_Local
  | ST_World
  deriving DecidableEq, Repr

/-- Modelled from the spec: the enum `EGizmoPlacement` of `RuntimeTransformer.h`
(gizmo placement policy: on the first or on the last selected target). -/
inductive EGizmoPlacement where
  | GP_OnFirstSelection
  | GP_OnLastSelection
  deriving DecidableEq, Repr

/-- Three-component vector with exact rational coordinates. -/
structure FVector where
  X : ℚ
  Y : ℚ
  Z : ℚ
  deriving DecidableEq, Repr

/-- Quaternion with exact rational coordinates. -/
structure FQuat where
  X : ℚ
  Y : ℚ
  Z : ℚ
  W : ℚ
  deriving DecidableEq, Repr

/-- Transform made of a rotation, a translation and a scale (`FTransform`). -/
structure FTransform where
  Rotation : FQuat
  Translation : FVector
  Scale3D : FVector
  deriving DecidableEq, Repr

/-- `FVector::ZeroVector`. -/
def FVector.ZeroVector : FVector := ⟨0, 0, 0⟩

/-- `FVector::OneVector`. -/
def FVector.OneVector : FVector := ⟨1, 1, 1⟩

/-- `FQuat::Identity`. -/
def FQuat.Identity : FQuat := ⟨0, 0, 0, 1⟩

/-- The default constructor `FTransform()`: identity rotation, zero translation, unit scale. -/
def FTransform.Default : FTransform := ⟨FQuat.Identity, FVector.ZeroVector, FVector.OneVector⟩

/-- `FTransform::SetScale3D`. -/
def FTransform.SetScale3D (T : FTransform) (S : FVector) : FTransform :=
  { T with Scale3D := S }

/-- `FVector` addition. -/
def FVector.add (a b : FVector) : FVector := ⟨a.X + b.X, a.Y + b.Y, a.Z + b.Z⟩

/-- `FVector` multiplied by a scalar. -/
def FVector.smul (k : ℚ) (a : FVector) : FVector := ⟨k * a.X, k * a.Y, k * a.Z⟩

/-- `FVector` subtraction. -/
def FVector.sub (a b : FVector) : FVector := ⟨a.X - b.X, a.Y - b.Y, a.Z - b.Z⟩

/-- `FVector::CrossProduct`. -/
def FVector.CrossProduct (a b : FVector) : FVector :=
  ⟨a.Y * b.Z - a.Z * b.Y, a.Z * b.X - a.X * b.Z, a.X * b.Y - a.Y * b.X⟩

/-- `FQuat::operator*`: the Hamilton product, `a.mul b` applies `b` first and then `a`. -/
def FQuat.mul (a b : FQuat) : FQuat :=
  ⟨a.W * b.X + a.X * b.W + a.Y * b.Z - a.Z * b.Y,
   a.W * b.Y - a.X * b.Z + a.Y * b.W + a.Z * b.X,
   a.W * b.Z + a.X * b.Y - a.Y * b.X + a.Z * b.W,
   a.W * b.W - a.X * b.X - a.Y * b.Y - a.Z * b.Z⟩

/-- `FQuat::RotateVector`: with `Q = (X, Y, Z)` and `T = 2 (Q × V)`, the result is
`V + W T + Q × T`. -/
def FQuat.RotateVector (q : FQuat) (V : FVector) : FVector :=
  let Q : FVector := ⟨q.X, q.Y, q.Z⟩
  let T := FVector.smul 2 (FVector.CrossProduct Q V)
  (V.add (FVector.smul q.W T)).add (FVector.CrossProduct Q T)

/-- `FQuat::UnrotateVector`: `RotateVector` of the inverse `(-X, -Y, -Z, W)`. -/
def FQuat.UnrotateVector (q : FQuat) (V : FVector) : FVector :=
  let Q : FVector := ⟨-q.X, -q.Y, -q.Z⟩
  let T := FVector.smul 2 (FVector.CrossProduct Q V)
  (V.add (FVector.smul q.W T)).add (FVector.CrossProduct Q T)

/-- `EComponentMobility::Type`. -/
inductive EComponentMobility where
  | Static
  | Stationary
  | Movable
  deriving DecidableEq, Repr

/-- One entry of a ray-cast result (`FHitResult`): the actor hit and the component hit. -/
structure FHitResult where
  Actor : Option AActor
  Component : Option USceneComponent
  deriving DecidableEq, Repr

/-- An object that can receive the `IFocusableObject` calls: a component (part-based mode)
or an actor (whole-object mode). -/
inductive UObject where
  | Component (c : USceneComponent)
  | Actor (a : AActor)
  deriving DecidableEq, Repr

/-! ## `TArray` primitives -/

/-- `TArray::Find`: index of the first element equal to `a`, `none` for `INDEX_NONE`. -/
def TArray.Find {α : Type} [DecidableEq α] : List α → α → Option Nat
  | [], _ => none
  | x :: xs, a => if x = a then some 0 else (TArray.Find xs a).map (· + 1)

/-- `TArray::Last`, for an array of nullable pointers (`none` also stands for the
out-of-range read on an empty array). -/
def TArray.Last {α : Type} (l : List (Option α)) : Option α := l.getLast?.join

/-- `TArray::operator[](0)`, for an array of nullable pointers. -/
def TArray.First {α : Type} (l : List (Option α)) : Option α := l.head?.join

/-- `TArray::RemoveAtSwap(0, Count)`: the first `Count` elements are removed and the hole is
filled with as many elements from the end of the array as fit. -/
def TArray.RemoveAtSwap0 {α : Type} (l : List α) (Count : Nat) : List α :=
  let NumElementsAfterHole := l.length - Count
  let NumElementsToMoveIntoHole := min Count NumElementsAfterHole
  l.drop (l.length - NumElementsToMoveIntoHole) ++
    (l.drop Count).take (NumElementsAfterHole - NumElementsToMoveIntoHole)

/-- `TMap::Find`: the value stored for the key, `none` for a null result. -/
def TMap.Find {κ ν : Type} [DecidableEq κ] : List (κ × ν) → κ → Option ν
  | [], _ => none
  | (k, v) :: rest, key => if k = key then some v else TMap.Find rest key

/-- `TMap::Add`: the value of an existing key is replaced, a new key is added at the end. -/
def TMap.Add {κ ν : Type} [DecidableEq κ] : List (κ × ν) → κ → ν → List (κ × ν)
  | [], key, val => [(key, val)]
  | (k, v) :: rest, key, val =>
    if k = key then (k, val) :: rest else (k, v) :: TMap.Add rest key val

/-! ## The gizmo -/

/-- The state of a gizmo actor that the pawn reads or writes (`ABaseGizmo`). -/
structure ABaseGizmo where
  /-- the actor handle of the gizmo itself -/
  Self : AActor
  /-- the value of the virtual `GetGizmoType()` -/
  GizmoType : ETransformationType
  /-- the private `DomainMap`: hit-region component to domain -/
  DomainMap : List (USceneComponent × ETransformationDomain)
  bTransformInProgress : Bool
  /-- the component the gizmo was last attached to -/
  AttachParent : Option USceneComponent
  /-- the space passed to the last `UpdateGizmoSpace` -/
  SpaceType : ESpaceType
  deriving DecidableEq

/-- Modelled from the spec: `ABaseGizmo::GetTransformationDomain` (defined in `BaseGizmo.cpp`):
the domain registered for the hit region, `TD_None` if the region is unregistered. -/
def ABaseGizmo.GetTransformationDomain (g : ABaseGizmo) (ComponentHit : USceneComponent) :
    ETransformationDomain :=
  match g.DomainMap.find? (fun p => p.1 == ComponentHit) with
  | some p => p.2
  | none => ETransformationDomain.TD_None

/-- Modelled from the spec: `ABaseGizmo::SetTransformProgressState` (defined in
`BaseGizmo.cpp`): the gizmo tracks whether a transform is currently in progress. -/
def ABaseGizmo.SetTransformProgressState (g : ABaseGizmo) (bInProgress : Bool)
    (_CurrentDomain : ETransformationDomain) : ABaseGizmo :=
  { g with bTransformInProgress := bInProgress }

/-- Modelled from the spec: `ABaseGizmo::UpdateGizmoSpace` (defined in `BaseGizmo.cpp`):
the gizmo is told the coordinate space to display. -/
def ABaseGizmo.UpdateGizmoSpace (g : ABaseGizmo) (SpaceType : ESpaceType) : ABaseGizmo :=
  { g with SpaceType := SpaceType }

/-- `AActor::AttachToComponent` on the gizmo. -/
def ABaseGizmo.AttachToComponent (g : ABaseGizmo) (c : USceneComponent) : ABaseGizmo :=
  { g with AttachParent := some c }

/-! ## Calls that leave the pawn -/

/-- Remote procedure calls a pawn can issue towards the authority. -/
inductive ServerCall where
  | ServerDeselectAll (bDestroySelected : Bool)
  | ServerClearDomain
  | ServerSetDomain (Domain : ETransformationDomain)
  | ServerApplyTransform (DeltaTransform : FTransform)
  | ServerSyncSelectedComponents
  | ServerCloneSelected (bSelectNewClones : Bool) (bAppendToList : Bool)
  | ServerTraceByObjectTypes (StartLocation EndLocation : FVector)
      (CollisionChannels : List ECollisionChannel) (bAppendToList : Bool)
  | ServerTraceByChannel (StartLocation EndLocation : FVector)
      (TraceChannel : ECollisionChannel) (bAppendToList : Bool)
  | ServerTraceByProfile (StartLocation EndLocation : FVector) (ProfileName : FName)
      (bAppendToList : Bool)
  deriving DecidableEq, Repr

/-- Broadcasts the authority can issue towards every peer. -/
inductive MulticastCall where
  | MulticastDeselectAll (bDestroySelected : Bool)
  | MulticastSetSelectedComponents (Components : List (Option USceneComponent))
  | MulticastSetDomain (Domain : ETransformationDomain)
  | MulticastClearDomain
  | MulticastApplyTransform (DeltaTransform : FTransform)
  deriving DecidableEq, Repr

/-- The observable calls made by the pawn, recorded in call order. -/
inductive Event where
  /-- `ATransformerPawn::Select(Component)`; `focusable` is the object that received
  `IFocusableObject::Execute_Focus`, if any -/
  | Select (Component : Option USceneComponent) (focusable : Option UObject)
  /-- `ATransformerPawn::Deselect(Component)`; `focusable` is the object that received
  `IFocusableObject::Execute_Unfocus`, if any -/
  | Deselect (Component : Option USceneComponent) (focusable : Option UObject)
  /-- `OnComponentSelectionChange(Component, bSelected, bImplementsUFocusable)` -/
  | OnComponentSelectionChange (Component : Option USceneComponent) (bSelected : Bool)
      (bImplementsUFocusable : Bool)
  /-- `world->SpawnActor(GizmoClass)` returned the gizmo actor `Gizmo` -/
  | SpawnGizmo (GizmoClass : UClass) (Gizmo : AActor)
  /-- `Gizmo->Destroy()` -/
  | DestroyGizmo (Gizmo : AActor)
  /-- `c->DestroyComponent(true)` on a deselected target -/
  | DestroyComponent (c : USceneComponent)
  /-- `actor->Destroy()` on the owner of a deselected target -/
  | DestroyActor (a : AActor)
  /-- a `Server…` function was called -/
  | Server (call : ServerCall)
  /-- a `Multicast…` function was called -/
  | Multicast (call : MulticastCall)
  /-- `ATransformerPawn::SetTransform(Component, Transform)`; `focusable` is the object that
  received `IFocusableObject::Execute_OnNewTransformation`, if any, and `bSetWorldTransform`
  tells whether `Component->SetWorldTransform(Transform)` was called -/
  | SetTransform (Component : USceneComponent) (Transform : FTransform)
      (focusable : Option UObject) (bSetWorldTransform : Bool)
  /-- `StaticDuplicateObject(templateComponent, owner)` returned the component `clone` -/
  | DuplicateObject (templateComponent : USceneComponent) (clone : USceneComponent)
  /-- `clone->AttachToComponent(parent, attachmentRule)` -/
  | AttachToComponent (clone : USceneComponent) (parent : USceneComponent)
  /-- `world->SpawnActor(templateActor->GetClass(), …)` with `templateActor` as template
  returned the actor `clone` -/
  | SpawnClone (templateActor : AActor) (clone : AActor)
  deriving DecidableEq, Repr

/-! ## The world and the pawn -/

/-- The engine facts queried by the pawn. -/
structure World where
  /-- `ShouldSelect(OwnerActor, Component)`, declared in `TransformerPawn.h` -/
  ShouldSelect : Option AActor → Option USceneComponent → Bool
  /-- `USceneComponent::GetOwner` -/
  GetOwner : USceneComponent → Option AActor
  /-- `AActor::GetRootComponent` -/
  GetRootComponent : AActor → Option USceneComponent
  /-- `AActor::GetComponents`, before any destruction -/
  GetComponents : AActor → List USceneComponent
  /-- `Component->Implements<UFocusableObject>()` -/
  ComponentImplementsUFocusable : USceneComponent → Bool
  /-- `Actor->Implements<UFocusableObject>()` -/
  ActorImplementsUFocusable : AActor → Bool
  /-- `Cast<ABaseGizmo>(Actor)` succeeds -/
  IsABaseGizmo : AActor → Bool
  /-- `GetWorld()` is not null -/
  HasWorld : Bool
  /-- `Cast<ABaseGizmo>(world->SpawnActor(GizmoClass))`, `none` for a null result -/
  SpawnActor : UClass → Option ABaseGizmo
  /-- `GetLocalRole() == ROLE_Authority` -/
  IsAuthority : Bool
  /-- the pointer ray of `DeprojectMousePositionToWorld` (location, direction) of the
  pawn's player controller; `none` when the controller is not a player controller or the
  deprojection fails -/
  DeprojectMousePositionToWorld : Option (FVector × FVector)
  /-- `AActor::IsSupportedForNetworking` of a valid actor; `false` for an invalid actor -/
  ActorSupportedForNetworking : AActor → Bool
  /-- `UActorComponent::IsSupportedForNetworking` of a valid component -/
  ComponentSupportedForNetworking : USceneComponent → Bool
  /-- `UWorld::LineTraceMultiByObjectType`: the return value and `OutHits` -/
  LineTraceMultiByObjectType :
    FVector → FVector → List ECollisionChannel → List AActor → Bool × List FHitResult
  /-- `UWorld::LineTraceMultiByChannel`: the return value and `OutHits` -/
  LineTraceMultiByChannel :
    FVector → FVector → ECollisionChannel → List AActor → Bool × List FHitResult
  /-- `UWorld::LineTraceMultiByProfile`: the return value and `OutHits` -/
  LineTraceMultiByProfile :
    FVector → FVector → FName → List AActor → Bool × List FHitResult
  /-- `Controller` is not null -/
  HasController : Bool
  /-- `Controller->IsLocalController()` -/
  IsLocalController : Bool
  /-- `PlayerController->PlayerCameraManager` is not null -/
  HasPlayerCameraManager : Bool
  /-- `PlayerCameraManager->GetActorForwardVector()` -/
  CameraForwardVector : FVector
  /-- `USceneComponent::GetAttachParent` -/
  GetAttachParent : USceneComponent → Option USceneComponent
  /-- the virtual `ABaseGizmo::GetDeltaTransform(LookingVector, RayStartPoint, RayEndPoint,
  Domain)` of the gizmo classes (not in the sources at hand): the delta and the gizmo with
  its ray bookkeeping updated -/
  GetDeltaTransform :
    ABaseGizmo → FVector → FVector → FVector → ETransformationDomain → FTransform × ABaseGizmo
  /-- the virtual `ABaseGizmo::GetSnappedTransform(outCurrentAccumulatedTransform,
  DeltaTransform, Domain, SnappingValue)` of the gizmo classes (not in the sources at hand):
  the snapped delta and the accumulated transform written through the reference -/
  GetSnappedTransform :
    ABaseGizmo → FTransform → FTransform → ETransformationDomain → ℚ → FTransform × FTransform
  /-- the virtual `ABaseGizmo::GetSnappedTransformPerComponent(OldComponentTransform,
  NewComponentTransform, Domain, SnappingValue)` of the gizmo classes (the base class returns
  `NewComponentTransform`, the scale gizmo overrides it) -/
  GetSnappedTransformPerComponent :
    ABaseGizmo → FTransform → FTransform → ETransformationDomain → ℚ → FTransform
  /-- `Cast<USceneComponent>(StaticDuplicateObject(templateComponent, owner))` is not null -/
  DuplicateSucceeds : USceneComponent → Bool
  /-- `world->SpawnActor(templateActor->GetClass(), …)` with the actor as template is not
  null -/
  SpawnCloneSucceeds : AActor → Bool

/-- The part of the scene that the pawn writes: world transforms and mobility of the
components (each component's world transform is kept on its own; the engine's propagation to
attached children is not part of the model) and the handle of the next object created. -/
structure Scene where
  /-- `USceneComponent::GetComponentTransform` -/
  ComponentTransform : USceneComponent → FTransform
  /-- `USceneComponent::Mobility` -/
  Mobility : USceneComponent → EComponentMobility
  /-- the handle that the next duplicated component or spawned actor receives -/
  NextObject : Nat

/-- The member variables of `ATransformerPawn` together with the record of its calls and the
scene it acts on. -/
structure ATransformerPawn where
  SelectedComponents : List (Option USceneComponent)
  Gizmo : Option ABaseGizmo
  GizmoPlacement : EGizmoPlacement
  CurrentTransformation : ETransformationType
  CurrentDomain : ETransformationDomain
  CurrentSpaceType : ESpaceType
  TranslationGizmoClass : Option UClass
  RotationGizmoClass : Option UClass
  ScaleGizmoClass : Option UClass
  AccumulatedDeltaTransform : FTransform
  NetworkDeltaTransform : FTransform
  bToggleSelectedInMultiSelection : Bool
  bComponentBased : Bool
  bIgnoreNonReplicatedObjects : Bool
  bResyncSelection : Bool
  /-- `ResyncSelectionTimerHandle.IsValid()` -/
  ResyncSelectionTimerActive : Bool
  /-- components destroyed by `DestroyComponent` so far -/
  DestroyedComponents : List USceneComponent
  /-- actors destroyed by `Destroy` so far -/
  DestroyedActors : List AActor
  /-- the calls made so far, oldest first -/
  Log : List Event
  bForceMobility : Bool
  bRotateOnLocalAxis : Bool
  bTransformUFocusableObjects : Bool
  /-- `TMap<ETransformationType, bool> SnappingEnabled` -/
  SnappingEnabled : List (ETransformationType × Bool)
  /-- `TMap<ETransformationType, float> SnappingValues` -/
  SnappingValues : List (ETransformationType × ℚ)
  UnreplicatedComponentClones : List (Option USceneComponent)
  /-- `CheckUnrepTimerHandle.IsValid()` -/
  CheckUnrepTimerActive : Bool
  CloneReplicationCheckFrequency : ℚ
  MinimumCloneReplicationTime : ℚ
  /-- the scene the pawn acts on -/
  SceneState : Scene

/-- Record a call. -/
def ATransformerPawn.emit (s : ATransformerPawn) (e : Event) : ATransformerPawn :=
  { s with Log := s.Log ++ [e] }

/-! ## Focus hooks -/

/-- `ATransformerPawn::GetUFocusable`. -/
def GetUFocusable (w : World) (s : ATransformerPawn) (Component : Option USceneComponent) :
    Option UObject :=
  match Component with
  | none => none
  | some c =>
    if s.bComponentBased then
      if w.ComponentImplementsUFocusable c then some (UObject.Component c) else none
    else
      match w.GetOwner c with
      | some ComponentOwner =>
        if w.ActorImplementsUFocusable ComponentOwner then some (UObject.Actor ComponentOwner)
        else none
      | none => none

/-- `ATransformerPawn::Select`: the focus hook; returns `*bImplementsUFocusable`. -/
def Select (w : World) (s : ATransformerPawn) (Component : Option USceneComponent) :
    ATransformerPawn × Bool :=
  let focusableObject := GetUFocusable w s Component
  (s.emit (Event.Select Component focusableObject), focusableObject.isSome)

/-- `ATransformerPawn::Deselect`: the unfocus hook; returns `*bImplementsUFocusable`. -/
def Deselect (w : World) (s : ATransformerPawn) (Component : Option USceneComponent) :
    ATransformerPawn × Bool :=
  let focusableObject := GetUFocusable w s Component
  (s.emit (Event.Deselect Component focusableObject), focusableObject.isSome)

/-! ## Domain and accumulators -/

/-- `ATransformerPawn::ResetDeltaTransform`: the value written through the reference. -/
def ResetDeltaTransform (_Transform : FTransform) : FTransform :=
  FTransform.Default.SetScale3D FVector.ZeroVector

/-- `ATransformerPawn::SetDomain`. -/
def SetDomain (s : ATransformerPawn) (Domain : ETransformationDomain) : ATransformerPawn :=
  let s1 := { s with CurrentDomain := Domain }
  match s1.Gizmo with
  | some g =>
    { s1 with Gizmo := some (g.SetTransformProgressState
        (decide (s1.CurrentDomain ≠ ETransformationDomain.TD_None)) s1.CurrentDomain) }
  | none => s1

/-- `ATransformerPawn::GetCurrentDomain`: the returned domain and `TransformInProgress`. -/
def GetCurrentDomain (s : ATransformerPawn) : ETransformationDomain × Bool :=
  (s.CurrentDomain, decide (s.CurrentDomain ≠ ETransformationDomain.TD_None))

/-- `ATransformerPawn::ClearDomain`. -/
def ClearDomain (s : ATransformerPawn) : ATransformerPawn :=
  let s1 := { s with AccumulatedDeltaTransform := ResetDeltaTransform s.AccumulatedDeltaTransform }
  SetDomain s1 ETransformationDomain.TD_None

/-! ## Gizmo lifecycle -/

/-- `ATransformerPawn::GetGizmoClass`: the switch is on the member `CurrentTransformation`,
the argument is not read. -/
def GetGizmoClass (s : ATransformerPawn) (_TransformationType : ETransformationType) :
    Option UClass :=
  match s.CurrentTransformation with
  | ETransformationType.TT_Translation => s.TranslationGizmoClass
  | ETransformationType.TT_Rotation => s.RotationGizmoClass
  | ETransformationType.TT_Scale => s.ScaleGizmoClass
  | ETransformationType.TT_NoTransform => none

/-- `ATransformerPawn::SetGizmo`. A null result of `SpawnActor` (dereferenced by the source)
leaves the pawn without gizmo. -/
def SetGizmo (w : World) (s : ATransformerPawn) : ATransformerPawn :=
  if s.SelectedComponents.length > 0 then
    let r : ATransformerPawn × Bool :=
      match s.Gizmo with
      | some g =>
        if s.CurrentTransformation = g.GizmoType then (s, false)
        else (({ s with Gizmo := none }).emit (Event.DestroyGizmo g.Self), true)
      | none => (s, true)
    let s1 := r.1
    let bCreateGizmo := r.2
    if bCreateGizmo then
      if w.HasWorld then
        match GetGizmoClass s1 s1.CurrentTransformation with
        | some GizmoClass =>
          match w.SpawnActor GizmoClass with
          | some g => ({ s1 with Gizmo := some g }).emit (Event.SpawnGizmo GizmoClass g.Self)
          | none => { s1 with Gizmo := none }
        | none => s1
      else s1
    else s1
  else
    match s.Gizmo with
    | some g => ({ s with Gizmo := none }).emit (Event.DestroyGizmo g.Self)
    | none => s

/-- `ATransformerPawn::UpdateGizmoPlacement`. -/
def UpdateGizmoPlacement (w : World) (s : ATransformerPawn) : ATransformerPawn :=
  let s1 := SetGizmo w s
  match s1.Gizmo with
  | none => s1
  | some g =>
    let ComponentToAttachTo : Option USceneComponent :=
      match s1.GizmoPlacement with
      | EGizmoPlacement.GP_OnFirstSelection => TArray.First s1.SelectedComponents
      | EGizmoPlacement.GP_OnLastSelection => TArray.Last s1.SelectedComponents
    let g1 :=
      match ComponentToAttachTo with
      | some c => g.AttachToComponent c
      | none => g
    { s1 with Gizmo := some (g1.UpdateGizmoSpace s1.CurrentSpaceType) }

/-- `ATransformerPawn::SetSpaceType`. -/
def SetSpaceType (w : World) (s : ATransformerPawn) (Type_ : ESpaceType) : ATransformerPawn :=
  SetGizmo w { s with CurrentSpaceType := Type_ }

/-- `ATransformerPawn::SetTransformationType`. -/
def SetTransformationType (w : World) (s : ATransformerPawn)
    (TransformationType : ETransformationType) : ATransformerPawn :=
  if s.CurrentTransformation = TransformationType then s
  else
    let s1 := { s with CurrentTransformation := TransformationType }
    let s2 :=
      { s1 with AccumulatedDeltaTransform := ResetDeltaTransform s1.AccumulatedDeltaTransform }
    UpdateGizmoPlacement w s2

/-! ## Selection manager -/

/-- `ATransformerPawn::DeselectComponentAtIndex_Internal`, on `SelectedComponents` (the list
every caller passes). -/
def DeselectComponentAtIndex_Internal (w : World) (s : ATransformerPawn) (Index : Nat) :
    ATransformerPawn :=
  match s.SelectedComponents[Index]? with
  | some Component =>
    let r := Deselect w s Component
    let s1 := { r.1 with SelectedComponents := r.1.SelectedComponents.eraseIdx Index }
    s1.emit (Event.OnComponentSelectionChange Component false r.2)
  | none => s

/-- `ATransformerPawn::AddComponent_Internal`, on `SelectedComponents` (the list every caller
passes). `OutComponentList.Last()` is the element just emplaced. -/
def AddComponent_Internal (w : World) (s : ATransformerPawn)
    (Component : Option USceneComponent) : ATransformerPawn :=
  match TArray.Find s.SelectedComponents Component with
  | none =>
    let s1 := { s with SelectedComponents := s.SelectedComponents ++ [Component] }
    let r := Select w s1 (TArray.Last s1.SelectedComponents)
    r.1.emit (Event.OnComponentSelectionChange Component true r.2)
  | some Index =>
    if s.bToggleSelectedInMultiSelection then DeselectComponentAtIndex_Internal w s Index
    else s

/-- `ATransformerPawn::DeselectComponent_Internal`, on `SelectedComponents`. -/
def DeselectComponent_Internal (w : World) (s : ATransformerPawn)
    (Component : Option USceneComponent) : ATransformerPawn :=
  match TArray.Find s.SelectedComponents Component with
  | some Index => DeselectComponentAtIndex_Internal w s Index
  | none => s

/-- `ATransformerPawn::DeselectComponent`. -/
def DeselectComponent (w : World) (s : ATransformerPawn)
    (Component : Option USceneComponent) : ATransformerPawn :=
  match Component with
  | none => s
  | some _ => UpdateGizmoPlacement w (DeselectComponent_Internal w s Component)

/-- `ATransformerPawn::DeselectActor`. -/
def DeselectActor (w : World) (s : ATransformerPawn) (Actor : Option AActor) :
    ATransformerPawn :=
  match Actor with
  | some a => DeselectComponent w s (w.GetRootComponent a)
  | none => s

/-- `IsValid(c)` for a deselected target: not null, not destroyed, owner not destroyed. -/
def IsValidComponent (w : World) (s : ATransformerPawn) (c : Option USceneComponent) : Bool :=
  match c with
  | none => false
  | some c =>
    !(s.DestroyedComponents.contains c) &&
      (match w.GetOwner c with
        | some a => !(s.DestroyedActors.contains a)
        | none => true)

/-- One iteration of the destroy loop of `DeselectAll`. -/
def DestroyDeselected (w : World) (s : ATransformerPawn) (c : Option USceneComponent) :
    ATransformerPawn :=
  if IsValidComponent w s c then
    match c with
    | none => s
    | some c =>
      match w.GetOwner c with
      | some actor =>
        if s.bComponentBased &&
            decide (((w.GetComponents actor).filter
              (fun x => !(s.DestroyedComponents.contains x))).length > 1) then
          ({ s with DestroyedComponents := s.DestroyedComponents ++ [c] }).emit
            (Event.DestroyComponent c)
        else
          ({ s with DestroyedActors := s.DestroyedActors ++ [actor] }).emit
            (Event.DestroyActor actor)
      | none => s
  else s

/-- `ATransformerPawn::DeselectAll`: the new state and the returned list. -/
def DeselectAll (w : World) (s : ATransformerPawn) (bDestroyDeselected : Bool) :
    ATransformerPawn × List (Option USceneComponent) :=
  let componentsToDeselect := s.SelectedComponents
  let s1 := componentsToDeselect.foldl (fun st i => DeselectComponent w st i) s
  let s2 := { s1 with SelectedComponents := [] }
  let s3 := UpdateGizmoPlacement w s2
  let s4 :=
    if bDestroyDeselected then componentsToDeselect.foldl (fun st c => DestroyDeselected w st c) s3
    else s3
  (s4, componentsToDeselect)

/-- `ATransformerPawn::SelectComponent`. A call of `DeselectAll()` without argument uses the
default `bDestroyDeselected = false` of the declaration. -/
def SelectComponent (w : World) (s : ATransformerPawn) (Component : Option USceneComponent)
    (bAppendToList : Bool) : ATransformerPawn :=
  match Component with
  | none => s
  | some c =>
    if w.ShouldSelect (w.GetOwner c) (some c) then
      let s1 := if bAppendToList = false then (DeselectAll w s false).1 else s
      UpdateGizmoPlacement w (AddComponent_Internal w s1 (some c))
    else s

/-- `ATransformerPawn::SelectActor`. -/
def SelectActor (w : World) (s : ATransformerPawn) (Actor : Option AActor)
    (bAppendToList : Bool) : ATransformerPawn :=
  match Actor with
  | none => s
  | some a =>
    if w.ShouldSelect (some a) (w.GetRootComponent a) then
      let s1 := if bAppendToList = false then (DeselectAll w s false).1 else s
      UpdateGizmoPlacement w (AddComponent_Internal w s1 (w.GetRootComponent a))
    else s

/-- The loop of `SelectMultipleComponents`, carrying the locals `bAppendToList` and
`bValidList`. -/
def SelectMultipleComponents.Loop (w : World) :
    ATransformerPawn → Bool → Bool → List (Option USceneComponent) → ATransformerPawn × Bool
  | s, _, bValidList, [] => (s, bValidList)
  | s, bAppendToList, bValidList, none :: rest =>
    SelectMultipleComponents.Loop w s bAppendToList bValidList rest
  | s, bAppendToList, bValidList, some c :: rest =>
    if w.ShouldSelect (w.GetOwner c) (some c) then
      let s1 := if bAppendToList = false then (DeselectAll w s false).1 else s
      SelectMultipleComponents.Loop w (AddComponent_Internal w s1 (some c)) true true rest
    else SelectMultipleComponents.Loop w s bAppendToList bValidList rest

/-- `ATransformerPawn::SelectMultipleComponents`. -/
def SelectMultipleComponents (w : World) (s : ATransformerPawn)
    (Components : List (Option USceneComponent)) (bAppendToList : Bool) : ATransformerPawn :=
  let r := SelectMultipleComponents.Loop w s bAppendToList false Components
  if r.2 then UpdateGizmoPlacement w r.1 else r.1

/-- The loop of `SelectMultipleActors`, carrying the locals `bAppendToList` and
`bValidList`. -/
def SelectMultipleActors.Loop (w : World) :
    ATransformerPawn → Bool → Bool → List (Option AActor) → ATransformerPawn × Bool
  | s, _, bValidList, [] => (s, bValidList)
  | s, bAppendToList, bValidList, none :: rest =>
    SelectMultipleActors.Loop w s bAppendToList bValidList rest
  | s, bAppendToList, bValidList, some a :: rest =>
    if w.ShouldSelect (some a) (w.GetRootComponent a) then
      let s1 := if bAppendToList = false then (DeselectAll w s false).1 else s
      SelectMultipleActors.Loop w (AddComponent_Internal w s1 (w.GetRootComponent a))
        true true rest
    else SelectMultipleActors.Loop w s bAppendToList bValidList rest

/-- `ATransformerPawn::SelectMultipleActors`. -/
def SelectMultipleActors (w : World) (s : ATransformerPawn) (Actors : List (Option AActor))
    (bAppendToList : Bool) : ATransformerPawn :=
  let r := SelectMultipleActors.Loop w s bAppendToList false Actors
  if r.2 then UpdateGizmoPlacement w r.1 else r.1

/-! ## Replication of the selection -/

/-- `ATransformerPawn::MulticastSetSelectedComponents_Implementation`. -/
def MulticastSetSelectedComponents_Implementation (w : World) (s : ATransformerPawn)
    (Components : List (Option USceneComponent)) : ATransformerPawn :=
  let s1 := (DeselectAll w s false).1
  let s2 := SelectMultipleComponents w s1 Components true
  let s3 :=
    { s2 with bResyncSelection := decide (Components.length ≠ s2.SelectedComponents.length) }
  if s3.bResyncSelection then
    if w.HasWorld then
      if !s3.ResyncSelectionTimerActive then { s3 with ResyncSelectionTimerActive := true }
      else s3
    else s3
  else s3

/-- Modelled from the spec: the broadcast `MulticastSetSelectedComponents` declared in
`TransformerPawn.h`: the call is sent to every peer (recorded here) and its implementation
runs on the calling peer. -/
def MulticastSetSelectedComponents (w : World) (s : ATransformerPawn)
    (Components : List (Option USceneComponent)) : ATransformerPawn :=
  MulticastSetSelectedComponents_Implementation w
    (s.emit (Event.Multicast (MulticastCall.MulticastSetSelectedComponents Components)))
    Components

/-- `ATransformerPawn::MulticastDeselectAll_Implementation`. -/
def MulticastDeselectAll_Implementation (w : World) (s : ATransformerPawn)
    (bDestroySelected : Bool) : ATransformerPawn :=
  (DeselectAll w s bDestroySelected).1

/-- Modelled from the spec: the broadcast `MulticastDeselectAll` declared in
`TransformerPawn.h`: the call is sent to every peer (recorded here) and its implementation
runs on the calling peer. -/
def MulticastDeselectAll (w : World) (s : ATransformerPawn) (bDestroySelected : Bool) :
    ATransformerPawn :=
  MulticastDeselectAll_Implementation w
    (s.emit (Event.Multicast (MulticastCall.MulticastDeselectAll bDestroySelected)))
    bDestroySelected

/-- `ATransformerPawn::ServerDeselectAll_Validate`. -/
def ServerDeselectAll_Validate (_bDestroySelected : Bool) : Bool := true

/-- `ATransformerPawn::ServerDeselectAll_Implementation`. -/
def ServerDeselectAll_Implementation (w : World) (s : ATransformerPawn)
    (bDestroySelected : Bool) : ATransformerPawn :=
  MulticastDeselectAll w s bDestroySelected

/-- Modelled from the spec: the request `ServerDeselectAll` declared in `TransformerPawn.h`:
the call is issued to the authority (recorded here); on the authority itself the validated
implementation runs at once, on a remote peer nothing else happens locally. -/
def ServerDeselectAll (w : World) (s : ATransformerPawn) (bDestroySelected : Bool) :
    ATransformerPawn :=
  let s1 := s.emit (Event.Server (ServerCall.ServerDeselectAll bDestroySelected))
  if w.IsAuthority && ServerDeselectAll_Validate bDestroySelected then
    ServerDeselectAll_Implementation w s1 bDestroySelected
  else s1

/-! ## Picking -/

/-- `ATransformerPawn::GetMouseStartEndPoints`: `none` for the return value `false`, else
the two out-parameters. -/
def GetMouseStartEndPoints (w : World) (TraceDistance : ℚ) : Option (FVector × FVector) :=
  match w.DeprojectMousePositionToWorld with
  | some (worldLocation, worldDirection) =>
    some (worldLocation, worldLocation.add (FVector.smul TraceDistance worldDirection))
  | none => none

/-- `ATransformerPawn::FilterHits`: the hits that stay in `outHits`. -/
def FilterHits (w : World) (s : ATransformerPawn) (outHits : List FHitResult) :
    List FHitResult :=
  if s.bIgnoreNonReplicatedObjects then
    outHits.filter (fun Iter =>
      if (match Iter.Actor with
          | some a => w.IsABaseGizmo a
          | none => false) then true
      else if (match Iter.Actor with
          | some a => w.ActorSupportedForNetworking a
          | none => false) then
        if s.bComponentBased then
          match Iter.Component with
          | some c => w.ComponentSupportedForNetworking c
          | none => false
        else true
      else false)
  else outHits

/-- The first loop of `HandleTracedObjects`: look for a hit on the pawn's own gizmo whose
component has a domain. Returns `true` when the function returns from inside the loop. -/
def HandleTracedObjects.GizmoLoop : ATransformerPawn → List FHitResult → ATransformerPawn × Bool
  | s, [] => (s, false)
  | s, hitResult :: rest =>
    match s.Gizmo with
    | none => (s, false)
    | some g =>
      if hitResult.Actor = some g.Self then
        match hitResult.Component with
        | some componentHit =>
          let s1 := SetDomain s (g.GetTransformationDomain componentHit)
          if s1.CurrentDomain ≠ ETransformationDomain.TD_None then
            let g2 := s1.Gizmo.map (fun g1 => g1.SetTransformProgressState true s1.CurrentDomain)
            ({ s1 with Gizmo := g2 }, true)
          else HandleTracedObjects.GizmoLoop s1 rest
        | none => HandleTracedObjects.GizmoLoop s rest
      else HandleTracedObjects.GizmoLoop s rest

/-- The second loop of `HandleTracedObjects`: select the first hit that is not a gizmo. -/
def HandleTracedObjects.SelectLoop (w : World) (s : ATransformerPawn) (bAppendToList : Bool) :
    List FHitResult → ATransformerPawn × Bool
  | [] => (s, false)
  | hits :: rest =>
    if (match hits.Actor with
        | some a => w.IsABaseGizmo a
        | none => false) then HandleTracedObjects.SelectLoop w s bAppendToList rest
    else if s.bComponentBased then (SelectComponent w s hits.Component bAppendToList, true)
    else (SelectActor w s hits.Actor bAppendToList, true)

/-- `ATransformerPawn::HandleTracedObjects`: the new state and the return value. -/
def HandleTracedObjects (w : World) (s : ATransformerPawn) (HitResults : List FHitResult)
    (bAppendToList : Bool) : ATransformerPawn × Bool :=
  let s1 := ClearDomain s
  let r : ATransformerPawn × Bool :=
    if s1.Gizmo.isSome then HandleTracedObjects.GizmoLoop s1 HitResults else (s1, false)
  if r.2 then (r.1, true)
  else HandleTracedObjects.SelectLoop w r.1 bAppendToList HitResults

/-- `ATransformerPawn::TraceByObjectTypes`: the new state and the return value. -/
def TraceByObjectTypes (w : World) (s : ATransformerPawn) (StartLocation EndLocation : FVector)
    (CollisionChannels : List ECollisionChannel) (IgnoredActors : List AActor)
    (bAppendToList : Bool) : ATransformerPawn × Bool :=
  if w.HasWorld then
    let r := w.LineTraceMultiByObjectType StartLocation EndLocation CollisionChannels
      IgnoredActors
    if r.1 then HandleTracedObjects w s (FilterHits w s r.2) bAppendToList
    else (s, false)
  else (s, false)

/-- `ATransformerPawn::TraceByChannel`: the new state and the return value. -/
def TraceByChannel (w : World) (s : ATransformerPawn) (StartLocation EndLocation : FVector)
    (TraceChannel : ECollisionChannel) (IgnoredActors : List AActor)
    (bAppendToList : Bool) : ATransformerPawn × Bool :=
  if w.HasWorld then
    let r := w.LineTraceMultiByChannel StartLocation EndLocation TraceChannel IgnoredActors
    if r.1 then HandleTracedObjects w s (FilterHits w s r.2) bAppendToList
    else (s, false)
  else (s, false)

/-- `ATransformerPawn::TraceByProfile`: the new state and the return value. -/
def TraceByProfile (w : World) (s : ATransformerPawn) (StartLocation EndLocation : FVector)
    (ProfileName : FName) (IgnoredActors : List AActor)
    (bAppendToList : Bool) : ATransformerPawn × Bool :=
  if w.HasWorld then
    let r := w.LineTraceMultiByProfile StartLocation EndLocation ProfileName IgnoredActors
    if r.1 then HandleTracedObjects w s (FilterHits w s r.2) bAppendToList
    else (s, false)
  else (s, false)

/-- `ATransformerPawn::MouseTraceByObjectTypes`: the new state and the return value. -/
def MouseTraceByObjectTypes (w : World) (s : ATransformerPawn) (TraceDistance : ℚ)
    (CollisionChannels : List ECollisionChannel) (IgnoredActors : List AActor)
    (bAppendToList : Bool) : ATransformerPawn × Bool :=
  match GetMouseStartEndPoints w TraceDistance with
  | some (start, end_) =>
    let r := TraceByObjectTypes w s start end_ CollisionChannels IgnoredActors bAppendToList
    let bTraceSuccessful := r.2
    if !bTraceSuccessful && !bAppendToList then (ServerDeselectAll w r.1 false, bTraceSuccessful)
    else (r.1, bTraceSuccessful)
  | none => (s, false)

/-- `ATransformerPawn::MouseTraceByChannel`: the new state and the return value (the
constant `false` of the source's last line). -/
def MouseTraceByChannel (w : World) (s : ATransformerPawn) (TraceDistance : ℚ)
    (TraceChannel : ECollisionChannel) (IgnoredActors : List AActor)
    (bAppendToList : Bool) : ATransformerPawn × Bool :=
  match GetMouseStartEndPoints w TraceDistance with
  | some (start, end_) =>
    let r := TraceByChannel w s start end_ TraceChannel IgnoredActors bAppendToList
    let bTraceSuccessful := r.2
    if !bTraceSuccessful && !bAppendToList then (ServerDeselectAll w r.1 false, false)
    else (r.1, false)
  | none => (s, false)

/-- `ATransformerPawn::MouseTraceByProfile`: the new state and the return value. -/
def MouseTraceByProfile (w : World) (s : ATransformerPawn) (TraceDistance : ℚ)
    (ProfileName : FName) (IgnoredActors : List AActor)
    (bAppendToList : Bool) : ATransformerPawn × Bool :=
  match GetMouseStartEndPoints w TraceDistance with
  | some (start, end_) =>
    let r := TraceByProfile w s start end_ ProfileName IgnoredActors bAppendToList
    let bTraceSuccessful := r.2
    if !bTraceSuccessful && !bAppendToList then (ServerDeselectAll w r.1 false, bTraceSuccessful)
    else (r.1, bTraceSuccessful)
  | none => (s, false)

/-! ## Applying a delta transform -/

/-- `ATransformerPawn::SetSnappingEnabled`. -/
def SetSnappingEnabled (s : ATransformerPawn) (TransformationType : ETransformationType)
    (bSnappingEnabled : Bool) : ATransformerPawn :=
  { s with SnappingEnabled := TMap.Add s.SnappingEnabled TransformationType bSnappingEnabled }

/-- `ATransformerPawn::SetSnappingValue`. -/
def SetSnappingValue (s : ATransformerPawn) (TransformationType : ETransformationType)
    (SnappingValue : ℚ) : ATransformerPawn :=
  { s with SnappingValues := TMap.Add s.SnappingValues TransformationType SnappingValue }

/-- `ATransformerPawn::SetRotateOnLocalAxis`. -/
def SetRotateOnLocalAxis (s : ATransformerPawn) (bRotateLocalAxis : Bool) : ATransformerPawn :=
  { s with bRotateOnLocalAxis := bRotateLocalAxis }

/-- The test `snappingEnabled && *snappingEnabled && snappingValue` of `UpdateTransform` and
`ApplyDeltaTransform` on the two `Find` results for `CurrentTransformation`: the snapping
value when the test succeeds. -/
def CurrentSnapping (s : ATransformerPawn) : Option ℚ :=
  match TMap.Find s.SnappingEnabled s.CurrentTransformation,
      TMap.Find s.SnappingValues s.CurrentTransformation with
  | some true, some snappingValue => some snappingValue
  | _, _ => none

/-- `Gizmo->GetActorLocation()`: the gizmo is attached with `SnapToTargetIncludingScale` and
so sits on the component it is attached to; a gizmo that was never attached is where it was
spawned, at the origin. -/
def GizmoActorLocation (s : ATransformerPawn) (g : ABaseGizmo) : FVector :=
  match g.AttachParent with
  | some c => (s.SceneState.ComponentTransform c).Translation
  | none => FVector.ZeroVector

/-- `Component->SetWorldTransform(Transform)`. -/
def SetWorldTransform (s : ATransformerPawn) (c : USceneComponent) (Transform : FTransform) :
    ATransformerPawn :=
  { s with SceneState :=
      { s.SceneState with
        ComponentTransform := fun x =>
          if x = c then Transform else s.SceneState.ComponentTransform x } }

/-- `sc->SetMobility(NewMobility)`. -/
def SetMobility (s : ATransformerPawn) (c : USceneComponent)
    (NewMobility : EComponentMobility) : ATransformerPawn :=
  { s with SceneState :=
      { s.SceneState with
        Mobility := fun x => if x = c then NewMobility else s.SceneState.Mobility x } }

/-- `ATransformerPawn::SetTransform`. -/
def SetTransform (w : World) (s : ATransformerPawn) (Component : Option USceneComponent)
    (Transform : FTransform) : ATransformerPawn :=
  match Component with
  | none => s
  | some c =>
    match GetUFocusable w s (some c) with
    | some focusableObject =>
      if s.bTransformUFocusableObjects then
        SetWorldTransform (s.emit (Event.SetTransform c Transform (some focusableObject) true))
          c Transform
      else s.emit (Event.SetTransform c Transform (some focusableObject) false)
    | none => SetWorldTransform (s.emit (Event.SetTransform c Transform none true)) c Transform

/-- The transform that one iteration of `ApplyDeltaTransform` computes for a component with
world transform `componentTransform`, before the per-component snapping. -/
def ApplyDeltaTransform.NewTransform (s : ATransformerPawn) (g : ABaseGizmo)
    (DeltaTransform componentTransform : FTransform) : FTransform :=
  let deltaRotation := DeltaTransform.Rotation
  let deltaLocation := componentTransform.Translation.sub (GizmoActorLocation s g)
  let deltaScale := componentTransform.Rotation.UnrotateVector DeltaTransform.Scale3D
  let deltaLocation1 :=
    if s.bRotateOnLocalAxis = false then deltaRotation.RotateVector deltaLocation
    else deltaLocation
  ⟨deltaRotation.mul componentTransform.Rotation,
    (deltaLocation1.add (GizmoActorLocation s g)).add DeltaTransform.Translation,
    deltaScale.add componentTransform.Scale3D⟩

/-- One iteration of the loop of `ApplyDeltaTransform`, for the selected entry `sc`;
`snapping` is the result of the snapping test made before the loop. `none` stands for the
dereference of an invalid `Gizmo`. -/
def ApplyDeltaTransform.Step (w : World) (DeltaTransform : FTransform) (snapping : Option ℚ)
    (s : ATransformerPawn) (sc : Option USceneComponent) : Option ATransformerPawn :=
  match sc with
  | none => some s
  | some c =>
    if s.bForceMobility ||
        decide (s.SceneState.Mobility c = EComponentMobility.Movable) then
      match s.Gizmo with
      | none => none
      | some g =>
        let componentTransform := s.SceneState.ComponentTransform c
        let newTransform := ApplyDeltaTransform.NewTransform s g DeltaTransform componentTransform
        let newTransform1 :=
          match snapping with
          | some snappingValue =>
            w.GetSnappedTransformPerComponent g componentTransform newTransform s.CurrentDomain
              snappingValue
          | none => newTransform
        some (SetTransform w (SetMobility s c EComponentMobility.Movable) (some c) newTransform1)
    else some s

/-- The loop of `ApplyDeltaTransform` over the selected entries. -/
def ApplyDeltaTransform.Loop (w : World) (DeltaTransform : FTransform) (snapping : Option ℚ) :
    ATransformerPawn → List (Option USceneComponent) → Option ATransformerPawn
  | s, [] => some s
  | s, sc :: rest =>
    match ApplyDeltaTransform.Step w DeltaTransform snapping s sc with
    | some s1 => ApplyDeltaTransform.Loop w DeltaTransform snapping s1 rest
    | none => none

/-- `ATransformerPawn::ApplyDeltaTransform`; `none` when the source dereferences an invalid
`Gizmo`. -/
def ApplyDeltaTransform (w : World) (s : ATransformerPawn) (DeltaTransform : FTransform) :
    Option ATransformerPawn :=
  ApplyDeltaTransform.Loop w DeltaTransform (CurrentSnapping s) s s.SelectedComponents

/-! ## Snapping -/

/-- The three coordinate axes. -/
inductive EAxis where
  | X
  | Y
  | Z
  deriving DecidableEq, Repr

/-- The coordinate of a vector on an axis. -/
def FVector.Component (a : FVector) : EAxis → ℚ
  | EAxis.X => a.X
  | EAxis.Y => a.Y
  | EAxis.Z => a.Z

/-- Modelled from the spec: the axes along which a domain lets the gizmo move ("axis or plane
constraint"). -/
def ETransformationDomain.HasAxis : ETransformationDomain → EAxis → Bool
  | ETransformationDomain.TD_X_Axis, EAxis.X => true
  | ETransformationDomain.TD_Y_Axis, EAxis.Y => true
  | ETransformationDomain.TD_Z_Axis, EAxis.Z => true
  | ETransformationDomain.TD_XY_Plane, EAxis.X => true
  | ETransformationDomain.TD_XY_Plane, EAxis.Y => true
  | ETransformationDomain.TD_YZ_Plane, EAxis.Y => true
  | ETransformationDomain.TD_YZ_Plane, EAxis.Z => true
  | ETransformationDomain.TD_XZ_Plane, EAxis.X => true
  | ETransformationDomain.TD_XZ_Plane, EAxis.Z => true
  | ETransformationDomain.TD_XYZ, _ => true
  | _, _ => false

/-- Modelled from the spec: "the largest multiple of snapValue that fits within accumulated",
counted from zero on the side of `accumulated`. -/
def SnapMultiple (snapValue accumulated : ℚ) : ℚ :=
  if 0 ≤ accumulated then snapValue * ⌊accumulated / snapValue⌋
  else -(snapValue * ⌊-accumulated / snapValue⌋)

/-- Modelled from the spec: one coordinate of `GetSnappedTransform`, the pair of the returned
delta and the new accumulated value. The delta is added to the accumulated value; on an axis
of the active domain the largest multiple of the snapping value that fits is returned and
subtracted back out, elsewhere nothing is returned. -/
def SnapCoordinate (active : Bool) (snapValue accumulated delta : ℚ) : ℚ × ℚ :=
  if active then
    (SnapMultiple snapValue (accumulated + delta),
      accumulated + delta - SnapMultiple snapValue (accumulated + delta))
  else (0, accumulated + delta)

/-- Modelled from the spec: `ABaseGizmo::GetSnappedTransform` for the translation of the
delta, "adds delta to accumulated; for the translation component along the active domain,
emits the largest multiple of snapValue that fits within accumulated, subtracts it back out
of accumulated and returns that multiple as the delta to actually apply". The result is the
pair of the returned delta and the accumulated transform written through the reference. The
rotation and the scale of the delta are returned as they are and are not accumulated. -/
def ABaseGizmo.GetSnappedTransform (_g : ABaseGizmo) (CurrentAccumulatedTransform : FTransform)
    (DeltaTransform : FTransform) (Domain : ETransformationDomain) (SnappingValue : ℚ) :
    FTransform × FTransform :=
  let x := SnapCoordinate (Domain.HasAxis EAxis.X) SnappingValue
    CurrentAccumulatedTransform.Translation.X DeltaTransform.Translation.X
  let y := SnapCoordinate (Domain.HasAxis EAxis.Y) SnappingValue
    CurrentAccumulatedTransform.Translation.Y DeltaTransform.Translation.Y
  let z := SnapCoordinate (Domain.HasAxis EAxis.Z) SnappingValue
    CurrentAccumulatedTransform.Translation.Z DeltaTransform.Translation.Z
  (⟨DeltaTransform.Rotation, ⟨x.1, y.1, z.1⟩, DeltaTransform.Scale3D⟩,
    { CurrentAccumulatedTransform with Translation := ⟨x.2, y.2, z.2⟩ })

/-- Repeated calls of `GetSnappedTransform` during one gesture, each on the accumulated
transform left by the call before: the returned deltas and the final accumulated
transform. -/
def SnapGesture (g : ABaseGizmo) (Domain : ETransformationDomain) (SnappingValue : ℚ) :
    FTransform → List FTransform → List FTransform × FTransform
  | accumulated, [] => ([], accumulated)
  | accumulated, DeltaTransform :: rest =>
    let r := g.GetSnappedTransform accumulated DeltaTransform Domain SnappingValue
    let rr := SnapGesture g Domain SnappingValue r.2 rest
    (r.1 :: rr.1, rr.2)

/-! ## The tick -/

/-- `ATransformerPawn::UpdateTransform`: the pawn after the call and the returned delta;
`none` when `ApplyDeltaTransform` dereferences an invalid `Gizmo`. -/
def UpdateTransform (w : World) (s : ATransformerPawn)
    (LookingVector RayOrigin RayDirection : FVector) : Option (ATransformerPawn × FTransform) :=
  let deltaTransform := FTransform.Default.SetScale3D FVector.ZeroVector
  match s.Gizmo with
  | none => some (s, deltaTransform)
  | some g =>
    if s.CurrentDomain = ETransformationDomain.TD_None then some (s, deltaTransform)
    else
      let rayEnd := RayOrigin.add (FVector.smul 100000000 RayDirection)
      let r := w.GetDeltaTransform g LookingVector RayOrigin rayEnd s.CurrentDomain
      let calcDeltaTransform := r.1
      let s1 := { s with Gizmo := some r.2 }
      match CurrentSnapping s1 with
      | some snappingValue =>
        let snapped := w.GetSnappedTransform r.2 s1.AccumulatedDeltaTransform
          calcDeltaTransform s1.CurrentDomain snappingValue
        let s2 := { s1 with AccumulatedDeltaTransform := snapped.2 }
        (ApplyDeltaTransform w s2 snapped.1).map (fun s3 => (s3, snapped.1))
      | none =>
        (ApplyDeltaTransform w s1 calcDeltaTransform).map (fun s3 => (s3, calcDeltaTransform))

/-- The update of `NetworkDeltaTransform` in `Tick`: the rotation of the delta composed with
the accumulated one, translations and scales added. -/
def AccumulateNetworkDelta (deltaTransform NetworkDeltaTransform : FTransform) : FTransform :=
  ⟨deltaTransform.Rotation.mul NetworkDeltaTransform.Rotation,
    deltaTransform.Translation.add NetworkDeltaTransform.Translation,
    deltaTransform.Scale3D.add NetworkDeltaTransform.Scale3D⟩

/-- `ATransformerPawn::Tick`. The rescaling of the gizmo for the local view
(`ScaleGizmoScene`) has no effect on the state of the model. -/
def Tick (w : World) (s : ATransformerPawn) (_DeltaSeconds : ℚ) : Option ATransformerPawn :=
  match s.Gizmo with
  | none => some s
  | some _ =>
    let afterUpdate : Option ATransformerPawn :=
      if w.HasController && (w.IsLocalController && w.HasPlayerCameraManager) then
        match w.DeprojectMousePositionToWorld with
        | some (worldLocation, worldDirection) =>
          (UpdateTransform w s w.CameraForwardVector worldLocation worldDirection).map
            (fun r =>
              { r.1 with
                NetworkDeltaTransform := AccumulateNetworkDelta r.2 r.1.NetworkDeltaTransform })
        | none => some s
      else some s
    afterUpdate.bind (fun s1 =>
      match s1.Gizmo with
      | none => none
      | some g => some { s1 with Gizmo := some (g.UpdateGizmoSpace s1.CurrentSpaceType) })

/-! ## Resynchronisation of the selection -/

/-- `ATransformerPawn::ServerSyncSelectedComponents_Validate`. -/
def ServerSyncSelectedComponents_Validate : Bool := true

/-- `ATransformerPawn::ServerSyncSelectedComponents_Implementation`. -/
def ServerSyncSelectedComponents_Implementation (w : World) (s : ATransformerPawn) :
    ATransformerPawn :=
  MulticastSetSelectedComponents w s s.SelectedComponents

/-- Modelled from the spec: the request `ServerSyncSelectedComponents` declared in
`TransformerPawn.h`: the call is issued to the authority (recorded here); on the authority
itself the validated implementation runs at once, on a remote peer nothing else happens
locally. -/
def ServerSyncSelectedComponents (w : World) (s : ATransformerPawn) : ATransformerPawn :=
  let s1 := s.emit (Event.Server ServerCall.ServerSyncSelectedComponents)
  if w.IsAuthority && ServerSyncSelectedComponents_Validate then
    ServerSyncSelectedComponents_Implementation w s1
  else s1

/-- `ATransformerPawn::ResyncSelection`, the callback of the retry timer. -/
def ResyncSelection (w : World) (s : ATransformerPawn) : ATransformerPawn :=
  if s.bResyncSelection then ServerSyncSelectedComponents w s
  else { s with ResyncSelectionTimerActive := false }

/-! ## Replication of the domain and of the transform -/

/-- `ATransformerPawn::MulticastClearDomain_Implementation`. -/
def MulticastClearDomain_Implementation (s : ATransformerPawn) : ATransformerPawn :=
  ClearDomain s

/-- Modelled from the spec: the broadcast `MulticastClearDomain` declared in
`TransformerPawn.h`: the call is sent to every peer (recorded here) and its implementation
runs on the calling peer. -/
def MulticastClearDomain (s : ATransformerPawn) : ATransformerPawn :=
  MulticastClearDomain_Implementation (s.emit (Event.Multicast MulticastCall.MulticastClearDomain))

/-- `ATransformerPawn::ServerClearDomain_Validate`. -/
def ServerClearDomain_Validate : Bool := true

/-- `ATransformerPawn::ServerClearDomain_Implementation`. -/
def ServerClearDomain_Implementation (s : ATransformerPawn) : ATransformerPawn :=
  MulticastClearDomain s

/-- Modelled from the spec: the request `ServerClearDomain` declared in `TransformerPawn.h`:
the call is issued to the authority (recorded here); on the authority itself the validated
implementation runs at once, on a remote peer nothing else happens locally. -/
def ServerClearDomain (w : World) (s : ATransformerPawn) : ATransformerPawn :=
  let s1 := s.emit (Event.Server ServerCall.ServerClearDomain)
  if w.IsAuthority && ServerClearDomain_Validate then ServerClearDomain_Implementation s1
  else s1

/-- `ATransformerPawn::MulticastApplyTransform_Implementation`; `none` when
`ApplyDeltaTransform` dereferences an invalid `Gizmo`. -/
def MulticastApplyTransform_Implementation (w : World) (s : ATransformerPawn)
    (DeltaTransform : FTransform) : Option ATransformerPawn :=
  if w.HasController && !w.IsLocalController then ApplyDeltaTransform w s DeltaTransform
  else some s

/-- Modelled from the spec: the broadcast `MulticastApplyTransform` declared in
`TransformerPawn.h`: the call is sent to every peer (recorded here) and its implementation
runs on the calling peer. -/
def MulticastApplyTransform (w : World) (s : ATransformerPawn) (DeltaTransform : FTransform) :
    Option ATransformerPawn :=
  MulticastApplyTransform_Implementation w
    (s.emit (Event.Multicast (MulticastCall.MulticastApplyTransform DeltaTransform)))
    DeltaTransform

/-- `ATransformerPawn::ServerApplyTransform_Validate`. -/
def ServerApplyTransform_Validate (_DeltaTransform : FTransform) : Bool := true

/-- `ATransformerPawn::ServerApplyTransform_Implementation`. -/
def ServerApplyTransform_Implementation (w : World) (s : ATransformerPawn)
    (DeltaTransform : FTransform) : Option ATransformerPawn :=
  MulticastApplyTransform w s DeltaTransform

/-- Modelled from the spec: the request `ServerApplyTransform` declared in
`TransformerPawn.h`: the call is issued to the authority (recorded here); on the authority
itself the validated implementation runs at once, on a remote peer nothing else happens
locally. -/
def ServerApplyTransform (w : World) (s : ATransformerPawn) (DeltaTransform : FTransform) :
    Option ATransformerPawn :=
  let s1 := s.emit (Event.Server (ServerCall.ServerApplyTransform DeltaTransform))
  if w.IsAuthority && ServerApplyTransform_Validate DeltaTransform then
    ServerApplyTransform_Implementation w s1 DeltaTransform
  else some s1

/-- `ATransformerPawn::ReplicateFinishTransform`. -/
def ReplicateFinishTransform (w : World) (s : ATransformerPawn) : Option ATransformerPawn :=
  let s1 := ServerClearDomain w s
  (ServerApplyTransform w s1 s1.NetworkDeltaTransform).map (fun s2 =>
    { s2 with NetworkDeltaTransform := ResetDeltaTransform s2.NetworkDeltaTransform })

/-! ## Replicated picking -/

/-- `ATransformerPawn::MulticastSetDomain_Implementation`. -/
def MulticastSetDomain_Implementation (s : ATransformerPawn) (Domain : ETransformationDomain) :
    ATransformerPawn :=
  SetDomain s Domain

/-- Modelled from the spec: the broadcast `MulticastSetDomain` declared in
`TransformerPawn.h`: the call is sent to every peer (recorded here) and its implementation
runs on the calling peer. -/
def MulticastSetDomain (s : ATransformerPawn) (Domain : ETransformationDomain) :
    ATransformerPawn :=
  MulticastSetDomain_Implementation
    (s.emit (Event.Multicast (MulticastCall.MulticastSetDomain Domain))) Domain

/-- `ATransformerPawn::ServerSetDomain_Validate`. -/
def ServerSetDomain_Validate (_Domain : ETransformationDomain) : Bool := true

/-- `ATransformerPawn::ServerSetDomain_Implementation`. -/
def ServerSetDomain_Implementation (s : ATransformerPawn) (Domain : ETransformationDomain) :
    ATransformerPawn :=
  MulticastSetDomain s Domain

/-- Modelled from the spec: the request `ServerSetDomain` declared in `TransformerPawn.h`:
the call is issued to the authority (recorded here); on the authority itself the validated
implementation runs at once, on a remote peer nothing else happens locally. -/
def ServerSetDomain (w : World) (s : ATransformerPawn) (Domain : ETransformationDomain) :
    ATransformerPawn :=
  let s1 := s.emit (Event.Server (ServerCall.ServerSetDomain Domain))
  if w.IsAuthority && ServerSetDomain_Validate Domain then ServerSetDomain_Implementation s1 Domain
  else s1

/-- `APawn::IsLocallyControlled` of the engine: the pawn has a controller and that controller
is local. -/
def IsLocallyControlled (w : World) : Bool := w.HasController && w.IsLocalController

/-- `ATransformerPawn::GetIgnoredActorsForServerTrace`. -/
def GetIgnoredActorsForServerTrace (w : World) (s : ATransformerPawn) : List AActor :=
  if !IsLocallyControlled w then
    match s.Gizmo with
    | some g => [g.Self]
    | none => []
  else []

/-- `ATransformerPawn::ReplicateServerTraceResults`; `HasAuthority()` is
`GetLocalRole() == ROLE_Authority`. -/
def ReplicateServerTraceResults (w : World) (s : ATransformerPawn)
    (bTraceSuccessful bAppendToList : Bool) : ATransformerPawn :=
  if !w.IsAuthority then
    let s1 := if !bTraceSuccessful && !bAppendToList then (DeselectAll w s false).1 else s
    let s2 := MulticastSetDomain s1 s1.CurrentDomain
    MulticastSetSelectedComponents w s2 s2.SelectedComponents
  else s

/-- The three lines that end every `ServerTraceBy…_Implementation`, after the trace returned
`bTraceSuccessful`. -/
def ServerTraceBroadcast (w : World) (s : ATransformerPawn)
    (bTraceSuccessful bAppendToList : Bool) : ATransformerPawn :=
  let s1 := if !bTraceSuccessful && !bAppendToList then (DeselectAll w s false).1 else s
  let s2 := MulticastSetDomain s1 s1.CurrentDomain
  MulticastSetSelectedComponents w s2 s2.SelectedComponents

/-- `ATransformerPawn::ServerTraceByObjectTypes_Validate`. -/
def ServerTraceByObjectTypes_Validate (_StartLocation _EndLocation : FVector)
    (_CollisionChannels : List ECollisionChannel) (_bAppendToList : Bool) : Bool := true

/-- `ATransformerPawn::ServerTraceByObjectTypes_Implementation`. -/
def ServerTraceByObjectTypes_Implementation (w : World) (s : ATransformerPawn)
    (StartLocation EndLocation : FVector) (CollisionChannels : List ECollisionChannel)
    (bAppendToList : Bool) : ATransformerPawn :=
  let r := TraceByObjectTypes w s StartLocation EndLocation CollisionChannels
    (GetIgnoredActorsForServerTrace w s) bAppendToList
  ServerTraceBroadcast w r.1 r.2 bAppendToList

/-- Modelled from the spec: the request `ServerTraceByObjectTypes` declared in
`TransformerPawn.h`: the call is issued to the authority (recorded here); on the authority
itself the validated implementation runs at once, on a remote peer nothing else happens
locally. -/
def ServerTraceByObjectTypes (w : World) (s : ATransformerPawn)
    (StartLocation EndLocation : FVector) (CollisionChannels : List ECollisionChannel)
    (bAppendToList : Bool) : ATransformerPawn :=
  let s1 := s.emit (Event.Server
    (ServerCall.ServerTraceByObjectTypes StartLocation EndLocation CollisionChannels
      bAppendToList))
  if w.IsAuthority &&
      ServerTraceByObjectTypes_Validate StartLocation EndLocation CollisionChannels
        bAppendToList then
    ServerTraceByObjectTypes_Implementation w s1 StartLocation EndLocation CollisionChannels
      bAppendToList
  else s1

/-- `ATransformerPawn::ServerTraceByChannel_Validate`. -/
def ServerTraceByChannel_Validate (_StartLocation _EndLocation : FVector)
    (_TraceChannel : ECollisionChannel) (_bAppendToList : Bool) : Bool := true

/-- `ATransformerPawn::ServerTraceByChannel_Implementation`. -/
def ServerTraceByChannel_Implementation (w : World) (s : ATransformerPawn)
    (StartLocation EndLocation : FVector) (TraceChannel : ECollisionChannel)
    (bAppendToList : Bool) : ATransformerPawn :=
  let r := TraceByChannel w s StartLocation EndLocation TraceChannel
    (GetIgnoredActorsForServerTrace w s) bAppendToList
  ServerTraceBroadcast w r.1 r.2 bAppendToList

/-- Modelled from the spec: the request `ServerTraceByChannel` declared in
`TransformerPawn.h`, issued like `ServerTraceByObjectTypes`. -/
def ServerTraceByChannel (w : World) (s : ATransformerPawn)
    (StartLocation EndLocation : FVector) (TraceChannel : ECollisionChannel)
    (bAppendToList : Bool) : ATransformerPawn :=
  let s1 := s.emit (Event.Server
    (ServerCall.ServerTraceByChannel StartLocation EndLocation TraceChannel bAppendToList))
  if w.IsAuthority &&
      ServerTraceByChannel_Validate StartLocation EndLocation TraceChannel bAppendToList then
    ServerTraceByChannel_Implementation w s1 StartLocation EndLocation TraceChannel
      bAppendToList
  else s1

/-- `ATransformerPawn::ServerTraceByProfile_Validate`. -/
def ServerTraceByProfile_Validate (_StartLocation _EndLocation : FVector)
    (_ProfileName : FName) (_bAppendToList : Bool) : Bool := true

/-- `ATransformerPawn::ServerTraceByProfile_Implementation`. -/
def ServerTraceByProfile_Implementation (w : World) (s : ATransformerPawn)
    (StartLocation EndLocation : FVector) (ProfileName : FName)
    (bAppendToList : Bool) : ATransformerPawn :=
  let r := TraceByProfile w s StartLocation EndLocation ProfileName
    (GetIgnoredActorsForServerTrace w s) bAppendToList
  ServerTraceBroadcast w r.1 r.2 bAppendToList

/-- Modelled from the spec: the request `ServerTraceByProfile` declared in
`TransformerPawn.h`, issued like `ServerTraceByObjectTypes`. -/
def ServerTraceByProfile (w : World) (s : ATransformerPawn)
    (StartLocation EndLocation : FVector) (ProfileName : FName)
    (bAppendToList : Bool) : ATransformerPawn :=
  let s1 := s.emit (Event.Server
    (ServerCall.ServerTraceByProfile StartLocation EndLocation ProfileName bAppendToList))
  if w.IsAuthority &&
      ServerTraceByProfile_Validate StartLocation EndLocation ProfileName bAppendToList then
    ServerTraceByProfile_Implementation w s1 StartLocation EndLocation ProfileName
      bAppendToList
  else s1

/-- `ATransformerPawn::ReplicatedMouseTraceByObjectTypes`. -/
def ReplicatedMouseTraceByObjectTypes (w : World) (s : ATransformerPawn) (TraceDistance : ℚ)
    (CollisionChannels : List ECollisionChannel) (bAppendToList : Bool) : ATransformerPawn :=
  match GetMouseStartEndPoints w TraceDistance with
  | some (start, end_) =>
    let r := TraceByObjectTypes w s start end_ CollisionChannels [] bAppendToList
    let bTraceSuccessful := r.2
    if w.IsAuthority then ReplicateServerTraceResults w r.1 bTraceSuccessful bAppendToList
    else if !bTraceSuccessful && !bAppendToList then ServerDeselectAll w r.1 false
    else if r.1.CurrentDomain = ETransformationDomain.TD_None then
      ServerTraceByObjectTypes w r.1 start end_ CollisionChannels bAppendToList
    else ServerSetDomain w r.1 r.1.CurrentDomain
  | none => s

/-- `ATransformerPawn::ReplicatedMouseTraceByChannel`. -/
def ReplicatedMouseTraceByChannel (w : World) (s : ATransformerPawn) (TraceDistance : ℚ)
    (CollisionChannel : ECollisionChannel) (bAppendToList : Bool) : ATransformerPawn :=
  match GetMouseStartEndPoints w TraceDistance with
  | some (start, end_) =>
    let r := TraceByChannel w s start end_ CollisionChannel [] bAppendToList
    let bTraceSuccessful := r.2
    if w.IsAuthority then ReplicateServerTraceResults w r.1 bTraceSuccessful bAppendToList
    else
      let s1 :=
        if !bTraceSuccessful && !bAppendToList then ServerDeselectAll w r.1 false else r.1
      if s1.CurrentDomain = ETransformationDomain.TD_None then
        ServerTraceByChannel w s1 start end_ CollisionChannel bAppendToList
      else ServerSetDomain w s1 s1.CurrentDomain
  | none => s

/-- `ATransformerPawn::ReplicatedMouseTraceByProfile`. -/
def ReplicatedMouseTraceByProfile (w : World) (s : ATransformerPawn) (TraceDistance : ℚ)
    (ProfileName : FName) (bAppendToList : Bool) : ATransformerPawn :=
  match GetMouseStartEndPoints w TraceDistance with
  | some (start, end_) =>
    let r := TraceByProfile w s start end_ ProfileName [] bAppendToList
    let bTraceSuccessful := r.2
    if w.IsAuthority then ReplicateServerTraceResults w r.1 bTraceSuccessful bAppendToList
    else
      let s1 :=
        if !bTraceSuccessful && !bAppendToList then ServerDeselectAll w r.1 false else r.1
      if s1.CurrentDomain = ETransformationDomain.TD_None then
        ServerTraceByProfile w s1 start end_ ProfileName bAppendToList
      else ServerSetDomain w s1 s1.CurrentDomain
  | none => s

/-! ## Cloning -/

/-- `ATransformerPawn::CloneActors`, the loop: `actorsProcessed` is the `TSet` of the source
and `outClones` the array under construction. A spawned actor takes the next free handle. -/
def CloneActors.Loop (w : World) :
    ATransformerPawn → List AActor → List (Option USceneComponent) → List (Option AActor) →
      ATransformerPawn × List (Option USceneComponent)
  | s, _, outClones, [] => (s, outClones)
  | s, actorsProcessed, outClones, none :: rest =>
    CloneActors.Loop w s actorsProcessed outClones rest
  | s, actorsProcessed, outClones, some templateActor :: rest =>
    if templateActor ∈ actorsProcessed then CloneActors.Loop w s actorsProcessed outClones rest
    else if w.SpawnCloneSucceeds templateActor then
      let actor := s.SceneState.NextObject
      let s1 :=
        ({ s with SceneState := { s.SceneState with NextObject := actor + 1 } }).emit
          (Event.SpawnClone templateActor actor)
      CloneActors.Loop w s1 (actorsProcessed ++ [templateActor])
        (outClones ++ [w.GetRootComponent actor]) rest
    else CloneActors.Loop w s (actorsProcessed ++ [templateActor]) outClones rest

/-- `ATransformerPawn::CloneActors`: the new state and `outClones`. -/
def CloneActors (w : World) (s : ATransformerPawn) (Actors : List (Option AActor)) :
    ATransformerPawn × List (Option USceneComponent) :=
  if !w.HasWorld then (s, []) else CloneActors.Loop w s [] [] Actors

/-- The locals `outClones`, `OcCc` (original component to clone component) and `CcOp` (clone
component to original parent) of `CloneComponents`. -/
structure CloneComponents.Locals where
  outClones : List (Option USceneComponent)
  OcCc : List (USceneComponent × USceneComponent)
  CcOp : List (USceneComponent × Option USceneComponent)

/-- The clone phase of `CloneComponents`. A duplicated component takes the next free
handle. -/
def CloneComponents.ClonePhase (w : World) :
    ATransformerPawn → CloneComponents.Locals → List (Option USceneComponent) →
      ATransformerPawn × CloneComponents.Locals
  | s, m, [] => (s, m)
  | s, m, none :: rest => CloneComponents.ClonePhase w s m rest
  | s, m, some templateComponent :: rest =>
    match w.GetOwner templateComponent with
    | none => CloneComponents.ClonePhase w s m rest
    | some owner =>
      if w.DuplicateSucceeds templateComponent then
        let clone := s.SceneState.NextObject
        let s1 :=
          ({ s with SceneState := { s.SceneState with NextObject := clone + 1 } }).emit
            (Event.DuplicateObject templateComponent clone)
        let originalParent :=
          if some templateComponent = w.GetRootComponent owner then w.GetRootComponent owner
          else w.GetAttachParent templateComponent
        CloneComponents.ClonePhase w s1
          { outClones := m.outClones ++ [some clone]
            OcCc := TMap.Add m.OcCc templateComponent clone
            CcOp := TMap.Add m.CcOp clone originalParent } rest
      else CloneComponents.ClonePhase w s m rest

/-- The `while (1)` loop of the reparenting phase, entered with `parent`; `cpValue` is
`cp.Value`. The result is the value of `parent` after the loop; `none` stands for the
dereference of a null pointer (`actorOwner` or `parent`) and for a walk that is not over
after `fuel` iterations. -/
def CloneComponents.FindParent (w : World) (OcCc : List (USceneComponent × USceneComponent))
    (cpValue : USceneComponent) (actorOwner : Option AActor) :
    Nat → Option USceneComponent → Option USceneComponent
  | 0, _ => none
  | fuel + 1, parent =>
    match actorOwner with
    | none => none
    | some a =>
      if parent = w.GetRootComponent a then some cpValue
      else
        match parent with
        | none => none
        | some p =>
          match (w.GetAttachParent p).bind (TMap.Find OcCc) with
          | some cloneParent => some cloneParent
          | none => CloneComponents.FindParent w OcCc cpValue actorOwner fuel (w.GetAttachParent p)

/-- One iteration of the reparenting phase of `CloneComponents`, for the entry `cp` of
`CcOp`; `none` as for `FindParent`, and for a null `cp.Value`. -/
def CloneComponents.Reparent (w : World) (OcCc : List (USceneComponent × USceneComponent))
    (fuel : Nat) (s : ATransformerPawn) (cp : USceneComponent × Option USceneComponent) :
    Option ATransformerPawn :=
  match cp.2 with
  | none => none
  | some cpValue =>
    let actorOwner := w.GetOwner cpValue
    let parent : Option USceneComponent :=
      match TMap.Find OcCc cpValue with
      | some cloneParent => if cloneParent ≠ cp.1 then some cloneParent else some cpValue
      | none => CloneComponents.FindParent w OcCc cpValue actorOwner fuel (some cpValue)
    parent.map (fun p => s.emit (Event.AttachToComponent cp.1 p))

/-- The reparenting phase of `CloneComponents`. -/
def CloneComponents.ReparentPhase (w : World) (OcCc : List (USceneComponent × USceneComponent))
    (fuel : Nat) :
    ATransformerPawn → List (USceneComponent × Option USceneComponent) → Option ATransformerPawn
  | s, [] => some s
  | s, cp :: rest =>
    match CloneComponents.Reparent w OcCc fuel s cp with
    | some s1 => CloneComponents.ReparentPhase w OcCc fuel s1 rest
    | none => none

/-- `ATransformerPawn::CloneComponents`: the new state and `outClones`; `fuel` bounds the
number of iterations of each parent walk. -/
def CloneComponents (w : World) (s : ATransformerPawn)
    (Components : List (Option USceneComponent)) (fuel : Nat) :
    Option (ATransformerPawn × List (Option USceneComponent)) :=
  if !w.HasWorld then some (s, [])
  else
    let r := CloneComponents.ClonePhase w s ⟨[], [], []⟩ Components
    (CloneComponents.ReparentPhase w r.2.OcCc fuel r.1 r.2.CcOp).map
      (fun s1 => (s1, r.2.outClones))

/-- `ATransformerPawn::CloneFromList`: the new state and `outClones`. -/
def CloneFromList (w : World) (s : ATransformerPawn)
    (ComponentList : List (Option USceneComponent)) (fuel : Nat) :
    Option (ATransformerPawn × List (Option USceneComponent)) :=
  let r :=
    if s.bComponentBased then
      CloneComponents w s (ComponentList.filter (fun i => i.isSome)) fuel
    else some (CloneActors w s (ComponentList.filterMap (fun i => i.map w.GetOwner)))
  r.map (fun r1 =>
    if r1.1.CurrentDomain ≠ ETransformationDomain.TD_None then
      match r1.1.Gizmo with
      | some g =>
        ({ r1.1 with Gizmo := some (g.SetTransformProgressState true r1.1.CurrentDomain) }, r1.2)
      | none => r1
    else r1)

/-- `ATransformerPawn::CloneSelected`. -/
def CloneSelected (w : World) (s : ATransformerPawn) (bSelectNewClones bAppendToList : Bool)
    (fuel : Nat) : Option ATransformerPawn :=
  (CloneFromList w s s.SelectedComponents fuel).map (fun r =>
    if bSelectNewClones then SelectMultipleComponents w r.1 r.2 bAppendToList else r.1)

/-- `ATransformerPawn::ServerCloneSelected_Validate`. -/
def ServerCloneSelected_Validate (_bSelectNewClones _bAppendToList : Bool) : Bool := true

/-- `ATransformerPawn::ServerCloneSelected_Implementation`. -/
def ServerCloneSelected_Implementation (w : World) (s : ATransformerPawn)
    (bSelectNewClones bAppendToList : Bool) (fuel : Nat) : Option ATransformerPawn :=
  if s.bComponentBased then some s
  else
    (CloneFromList w s s.SelectedComponents fuel).map (fun r =>
      if bSelectNewClones then
        let s1 := SelectMultipleComponents w r.1 r.2 bAppendToList
        let s2 := { s1 with UnreplicatedComponentClones := r.2 }
        if w.HasWorld then
          if !s2.CheckUnrepTimerActive then { s2 with CheckUnrepTimerActive := true } else s2
        else s2
      else r.1)

/-- Modelled from the spec: the request `ServerCloneSelected` declared in
`TransformerPawn.h`: the call is issued to the authority (recorded here); on the authority
itself the validated implementation runs at once, on a remote peer nothing else happens
locally. -/
def ServerCloneSelected (w : World) (s : ATransformerPawn)
    (bSelectNewClones bAppendToList : Bool) (fuel : Nat) : Option ATransformerPawn :=
  let s1 := s.emit (Event.Server (ServerCall.ServerCloneSelected bSelectNewClones bAppendToList))
  if w.IsAuthority && ServerCloneSelected_Validate bSelectNewClones bAppendToList then
    ServerCloneSelected_Implementation w s1 bSelectNewClones bAppendToList fuel
  else some s1

/-- `ATransformerPawn::CheckUnreplicatedActors`, the callback of the poll timer.
`HasBegunPlay` and `timeElapsed` are what `c->HasBegunPlay()` and
`GetTimerElapsed(CheckUnrepTimerHandle)` return during this poll. -/
def CheckUnreplicatedActors (w : World) (s : ATransformerPawn)
    (HasBegunPlay : USceneComponent → Bool) (timeElapsed : ℚ) : ATransformerPawn :=
  let RemoveCount :=
    (s.UnreplicatedComponentClones.filter (fun c =>
      match c with
      | some c =>
        HasBegunPlay c && w.ComponentSupportedForNetworking c &&
          decide (timeElapsed > s.MinimumCloneReplicationTime)
      | none => false)).length
  let s1 :=
    { s with
      UnreplicatedComponentClones :=
        TArray.RemoveAtSwap0 s.UnreplicatedComponentClones RemoveCount }
  if s1.UnreplicatedComponentClones.length = 0 then
    MulticastSetSelectedComponents w { s1 with CheckUnrepTimerActive := false }
      s1.SelectedComponents
  else s1

/-! ## Switching the selection mode -/

/-- The loop `for (auto& c : selectedComponents) actors.Add(c->GetOwner());` of
`SetComponentBased`: the array `actors`, `none` for the dereference of a null entry. -/
def SetComponentBased.Actors (w : World) :
    List (Option USceneComponent) → Option (List (Option AActor))
  | [] => some []
  | none :: _ => none
  | some c :: rest => (SetComponentBased.Actors w rest).map (fun actors => w.GetOwner c :: actors)

/-- `ATransformerPawn::SetComponentBased`; `none` when the source dereferences a null entry
of the selection. The call `DeselectAll()` uses the default `bDestroyDeselected = false` of
the declaration. -/
def SetComponentBased (w : World) (s : ATransformerPawn) (bIsComponentBased : Bool) :
    Option ATransformerPawn :=
  let r := DeselectAll w s false
  let selectedComponents := r.2
  let s1 := { r.1 with bComponentBased := bIsComponentBased }
  if s1.bComponentBased then some (SelectMultipleComponents w s1 selectedComponents false)
  else
    (SetComponentBased.Actors w selectedComponents).map (fun actors =>
      SelectMultipleActors w s1 actors false)

/-! ## Construction -/

/-- The constructor `ATransformerPawn::ATransformerPawn()`; the first three arguments are the
`StaticClass()` objects of the translation, rotation and scale gizmo classes, the fourth is
the scene the pawn is placed in. The two calls `SetTransformationType(CurrentTransformation)`
and `SetSpaceType(CurrentSpaceType)` at its end change nothing (same kind; no selection and
no gizmo). -/
def ATransformerPawn.Construct (ATranslationGizmo ARotationGizmo AScaleGizmo : UClass)
    (scene : Scene) : ATransformerPawn where
  SelectedComponents := []
  Gizmo := none
  GizmoPlacement := EGizmoPlacement.GP_OnLastSelection
  CurrentTransformation := ETransformationType.TT_Translation
  CurrentDomain := ETransformationDomain.TD_None
  CurrentSpaceType := ESpaceType.ST_World
  TranslationGizmoClass := some ATranslationGizmo
  RotationGizmoClass := some ARotationGizmo
  ScaleGizmoClass := some AScaleGizmo
  AccumulatedDeltaTransform := ResetDeltaTransform FTransform.Default
  NetworkDeltaTransform := ResetDeltaTransform FTransform.Default
  bToggleSelectedInMultiSelection := true
  bComponentBased := false
  bIgnoreNonReplicatedObjects := false
  bResyncSelection := false
  ResyncSelectionTimerActive := false
  DestroyedComponents := []
  DestroyedActors := []
  Log := []
  bForceMobility := false
  bRotateOnLocalAxis := false
  bTransformUFocusableObjects := true
  SnappingEnabled := []
  SnappingValues := []
  UnreplicatedComponentClones := []
  CheckUnrepTimerActive := false
  CloneReplicationCheckFrequency := 1 / 20
  MinimumCloneReplicationTime := 1 / 100
  SceneState := scene

/-! ## Reading the record of calls -/

/-- Spawning or destroying the gizmo. -/
def Event.IsGizmoEvent : Event → Bool
  | Event.SpawnGizmo _ _ => true
  | Event.DestroyGizmo _ => true
  | _ => false

/-- A call of the focus hook `Select` or of the unfocus hook `Deselect`. -/
def Event.IsHookCall : Event → Bool
  | Event.Select _ _ => true
  | Event.Deselect _ _ => true
  | _ => false

/-- The destruction of a target: `DestroyComponent` or `Destroy` on its owner. -/
def Event.IsDestroyTarget : Event → Bool
  | Event.DestroyComponent _ => true
  | Event.DestroyActor _ => true
  | _ => false

/-- A call that stays on this peer and destroys no target: a hook call, a selection-change
notification, the spawning or the destruction of the gizmo. -/
def Event.IsLocal : Event → Bool
  | Event.Select _ _ => true
  | Event.Deselect _ _ => true
  | Event.OnComponentSelectionChange _ _ _ => true
  | Event.SpawnGizmo _ _ => true
  | Event.DestroyGizmo _ => true
  | _ => false

/-- The hook calls of a record, in call order. -/
def hookCalls (Log : List Event) : List Event := Log.filter Event.IsHookCall

/-- `s2` is `s1` with another selection and gizmo and with local calls appended: what a
selection operation without destruction may change. -/
def LocalStep (s1 s2 : ATransformerPawn) : Prop :=
  ∃ sel g l, s2 = { s1 with SelectedComponents := sel, Gizmo := g, Log := s1.Log ++ l } ∧
    ∀ e ∈ l, Event.IsLocal e = true

/-- The content of `SelectedComponents` after `AddComponent_Internal`: a target that is
absent is appended; a target that is present is removed when the toggle flag is on and the
list is left alone when the flag is off. -/
def toggleList {α : Type} [DecidableEq α] (bToggle : Bool) (L : List α) (c : α) : List α :=
  if c ∈ L then (if bToggle then L.erase c else L) else L ++ [c]

/-- The list without the first occurrence of `c`. -/
def eraseFirst {α : Type} [DecidableEq α] (L : List α) (c : α) : List α := L.erase c

/-- The distinct elements of a sequence, in the order of their last occurrence. -/
def lastOccurrenceOrder {α : Type} [DecidableEq α] : List α → List α
  | [] => []
  | x :: xs => if x ∈ xs then lastOccurrenceOrder xs else x :: lastOccurrenceOrder xs

/-- The distinct elements of a sequence, in the order of their first occurrence. -/
def firstOccurrenceOrder {α : Type} [DecidableEq α] : List α → List α
  | [] => []
  | x :: xs => x :: (firstOccurrenceOrder xs).filter (fun y => decide (y ≠ x))

/-! ## Vocabulary of the statements -/

/-- The assumption of the gizmo lifecycle: the world exists, each of the three gizmo classes
is configured, spawning it succeeds and the spawned gizmo reports the kind it is configured
for. -/
def GizmoClassesConfigured (w : World) (s : ATransformerPawn) : Prop :=
  w.HasWorld = true ∧
  (∃ cls g, s.TranslationGizmoClass = some cls ∧ w.SpawnActor cls = some g ∧
    g.GizmoType = ETransformationType.TT_Translation) ∧
  (∃ cls g, s.RotationGizmoClass = some cls ∧ w.SpawnActor cls = some g ∧
    g.GizmoType = ETransformationType.TT_Rotation) ∧
  (∃ cls g, s.ScaleGizmoClass = some cls ∧ w.SpawnActor cls = some g ∧
    g.GizmoType = ETransformationType.TT_Scale)

/-- The gizmo lifecycle property of a state: a gizmo exists if and only if the selection is
not empty and the transformation kind is translate, rotate or scale, and the kind of an
existing gizmo is `CurrentTransformation`. -/
def GizmoLifecycle (s : ATransformerPawn) : Prop :=
  (s.Gizmo.isSome = true ↔
    s.SelectedComponents ≠ [] ∧
      s.CurrentTransformation ≠ ETransformationType.TT_NoTransform) ∧
  ∀ g, s.Gizmo = some g → g.GizmoType = s.CurrentTransformation

/-- A hit on the gizmo `g` itself, on a hit region whose registered domain is not `TD_None`. -/
def IsGizmoDomainHit (g : ABaseGizmo) (hit : FHitResult) : Bool :=
  decide (hit.Actor = some g.Self) &&
    (match hit.Component with
      | some c => decide (g.GetTransformationDomain c ≠ ETransformationDomain.TD_None)
      | none => false)

/-- The domain that gizmo `g` registers for the component of a hit. -/
def HitDomain (g : ABaseGizmo) (hit : FHitResult) : ETransformationDomain :=
  match hit.Component with
  | some c => g.GetTransformationDomain c
  | none => ETransformationDomain.TD_None

/-- A hit on a gizmo actor (`Cast<ABaseGizmo>` of the hit actor succeeds). -/
def IsGizmoHit (w : World) (hit : FHitResult) : Bool :=
  match hit.Actor with
  | some a => w.IsABaseGizmo a
  | none => false

/-- `s2` is `s1` with another domain, gizmo state and accumulated delta: what the domain
resolution of a trace may change before any selection is made. -/
def DomainStep (s1 s2 : ATransformerPawn) : Prop :=
  ∃ d g a, s2 = { s1 with CurrentDomain := d, Gizmo := g, AccumulatedDeltaTransform := a }

/-- The requests to the authority of a record, in call order. -/
def serverCalls (Log : List Event) : List ServerCall :=
  Log.filterMap (fun e =>
    match e with
    | Event.Server call => some call
    | _ => none)

/-- Between `s` and `s2` exactly one request `ServerDeselectAll(false)` was issued and no
target was destroyed; on the authority, where the request is carried out at once, the
selection of `s2` is empty. -/
def DeselectAllIssued (w : World) (s s2 : ATransformerPawn) : Prop :=
  ∃ l, s2.Log = s.Log ++ l ∧
    serverCalls l = [ServerCall.ServerDeselectAll false] ∧
    (∀ e ∈ l, Event.IsDestroyTarget e = false) ∧
    (w.IsAuthority = true → s2.SelectedComponents = [])

/-- The components passed to `SetTransform`, in call order. -/
def setTransformTargets (Log : List Event) : List USceneComponent :=
  Log.filterMap (fun e =>
    match e with
    | Event.SetTransform c _ _ _ => some c
    | _ => none)

/-- `s2` is `s1` with other component transforms and mobilities and with calls appended: what
the application of a delta transform may change. -/
def TransformStep (s1 s2 : ATransformerPawn) : Prop :=
  ∃ ct mob l, s2 =
    { s1 with
      SceneState := { s1.SceneState with ComponentTransform := ct, Mobility := mob }
      Log := s1.Log ++ l }

/-- The test of `ApplyDeltaTransform` that lets a target be transformed: the mobility
override is on or the target is movable. -/
def MayTransform (s : ATransformerPawn) (c : USceneComponent) : Bool :=
  s.bForceMobility || decide (s.SceneState.Mobility c = EComponentMobility.Movable)

/-- The transform of the delta application formula: rotation `q` composed with `r`, position
`G + q·(p − G) + t` in world-axis mode and `p + t` in local-axis mode, scale `s + r⁻¹·d`,
for the component transform `(r, p, s)`, the delta `(q, t, d)` and the gizmo origin `G`. -/
def DeltaFormula (bRotateOnLocalAxis : Bool) (G : FVector) (Delta T : FTransform) :
    FTransform :=
  ⟨Delta.Rotation.mul T.Rotation,
    if bRotateOnLocalAxis = false then
      (G.add (Delta.Rotation.RotateVector (T.Translation.sub G))).add Delta.Translation
    else T.Translation.add Delta.Translation,
    T.Scale3D.add (T.Rotation.UnrotateVector Delta.Scale3D)⟩

/-- The raw delta of a tick: what the gizmo's `GetDeltaTransform` returns for the pointer ray
`(RayOrigin, RayDirection)` and the current domain. -/
def RawDelta (w : World) (s : ATransformerPawn) (g : ABaseGizmo)
    (RayOrigin RayDirection : FVector) : FTransform :=
  (w.GetDeltaTransform g w.CameraForwardVector RayOrigin
    (RayOrigin.add (FVector.smul 100000000 RayDirection)) s.CurrentDomain).1

/-- The delta that a tick applies to the selection: the raw delta, or the delta that the
gizmo's `GetSnappedTransform` returns for it when snapping is enabled for the current
transformation kind. -/
def AppliedDelta (w : World) (s : ATransformerPawn) (g : ABaseGizmo)
    (RayOrigin RayDirection : FVector) : FTransform :=
  match CurrentSnapping s with
  | some snappingValue =>
    (w.GetSnappedTransform
      (w.GetDeltaTransform g w.CameraForwardVector RayOrigin
        (RayOrigin.add (FVector.smul 100000000 RayDirection)) s.CurrentDomain).2
      s.AccumulatedDeltaTransform (RawDelta w s g RayOrigin RayDirection) s.CurrentDomain
      snappingValue).1
  | none => RawDelta w s g RayOrigin RayDirection

/-- The broadcasts of a record, in call order. -/
def multicastCalls (Log : List Event) : List MulticastCall :=
  Log.filterMap (fun e =>
    match e with
    | Event.Multicast call => some call
    | _ => none)

/-- The record of `s2` is the record of `s1` with local calls appended. -/
def LocalLog (s1 s2 : ATransformerPawn) : Prop :=
  ∃ l, s2.Log = s1.Log ++ l ∧ ∀ e ∈ l, Event.IsLocal e = true

/-- From `s` a trace led to the state `st` without any broadcast, and then exactly the two
broadcasts `MulticastSetDomain(CurrentDomain)` and
`MulticastSetSelectedComponents(SelectedComponents)` were issued, in this order, with the
domain and the selection of `st`, ending in `s2`. -/
def BroadcastsTraceResult (s st s2 : ATransformerPawn) : Prop :=
  ∃ l1 l2, st.Log = s.Log ++ l1 ∧ multicastCalls l1 = [] ∧ s2.Log = st.Log ++ l2 ∧
    multicastCalls l2 = [MulticastCall.MulticastSetDomain st.CurrentDomain,
      MulticastCall.MulticastSetSelectedComponents st.SelectedComponents]

/-- The calls `clone->AttachToComponent(parent, …)` of a record, as pairs `(clone, parent)`,
in call order. -/
def attachCalls (Log : List Event) : List (USceneComponent × USceneComponent) :=
  Log.filterMap (fun e =>
    match e with
    | Event.AttachToComponent clone parent => some (clone, parent)
    | _ => none)

/-- The value of `RemoveCount` in a poll of `CheckUnreplicatedActors`: the number of recorded
clones that are valid, have begun play, are supported for networking and have had the minimum
time. -/
def ReadyCount (w : World) (s : ATransformerPawn) (HasBegunPlay : USceneComponent → Bool)
    (timeElapsed : ℚ) : Nat :=
  (s.UnreplicatedComponentClones.filter (fun c =>
    match c with
    | some c =>
      HasBegunPlay c && w.ComponentSupportedForNetworking c &&
        decide (timeElapsed > s.MinimumCloneReplicationTime)
    | none => false)).length

/-- The components of a list that `CloneComponents` duplicates, in order: the entries that
are valid, have an owner and whose duplication succeeds. -/
def CloneTemplates (w : World) (Components : List (Option USceneComponent)) :
    List USceneComponent :=
  (Components.filterMap id).filter (fun c => (w.GetOwner c).isSome && w.DuplicateSucceeds c)

/-- The pairs (original, clone) for the originals `T`, the clones taking the handles from `N`
on. -/
def ClonePairs : Nat → List USceneComponent → List (USceneComponent × USceneComponent)
  | _, [] => []
  | N, c :: rest => (c, N) :: ClonePairs (N + 1) rest

/-- The value stored in `CcOp` for the clone of `c`: the root component of the owner when `c`
is that root, else the attach parent of `c`. -/
def OriginalParent (w : World) (c : USceneComponent) : Option USceneComponent :=
  match w.GetOwner c with
  | some owner =>
    if some c = w.GetRootComponent owner then w.GetRootComponent owner
    else w.GetAttachParent c
  | none => none

/-- The component `c` is the root component of its owner. -/
def IsRootComponent (w : World) (c : USceneComponent) : Prop :=
  ∃ owner, w.GetOwner c = some owner ∧ w.GetRootComponent owner = some c

/-- A well-formed component hierarchy: every component that is not the root component of its
owner is attached to a component of the same owner that lies higher up (`depth` measures the
distance to the root). -/
def WellFormedHierarchy (w : World) (depth : USceneComponent → Nat) : Prop :=
  ∀ c a, w.GetOwner c = some a → w.GetRootComponent a ≠ some c →
    ∃ p, w.GetAttachParent c = some p ∧ w.GetOwner p = some a ∧ depth p < depth c

/-- Going up from the component `a` through the attach parents until a cloned component or
the root is met: `NearestClonedAncestor w P originalParent root a target` says that the first
cloned component met has the clone `target`, or that the root was reached without meeting a
cloned component and `target` is the original parent. `P` lists the pairs (original,
clone). -/
inductive NearestClonedAncestor (w : World) (P : List (USceneComponent × USceneComponent))
    (originalParent : USceneComponent) (root : Option USceneComponent) :
    USceneComponent → USceneComponent → Prop where
  | cloned (a cl : USceneComponent) : (a, cl) ∈ P →
      NearestClonedAncestor w P originalParent root a cl
  | atRoot (a : USceneComponent) : (∀ cl, (a, cl) ∉ P) → some a = root →
      NearestClonedAncestor w P originalParent root a originalParent
  | up (a q t : USceneComponent) : (∀ cl, (a, cl) ∉ P) → some a ≠ root →
      w.GetAttachParent a = some q → NearestClonedAncestor w P originalParent root q t →
      NearestClonedAncestor w P originalParent root a t

/-- The component that the clone of `c` is to be attached to: the original root for a cloned
root; else the clone of the nearest proper ancestor of `c` that was cloned, or the original
parent of `c` when no ancestor was cloned. -/
def AttachTarget (w : World) (P : List (USceneComponent × USceneComponent))
    (c target : USceneComponent) : Prop :=
  (IsRootComponent w c ∧ target = c) ∨
  (¬ IsRootComponent w c ∧ ∃ p a, w.GetAttachParent c = some p ∧ w.GetOwner p = some a ∧
    NearestClonedAncestor w P p (w.GetRootComponent a) p target)

/-- The root components that `SelectMultipleActors` passes to `AddComponent_Internal` for a
list of actors, in order: the roots of the valid actors accepted by `ShouldSelect`. -/
def AcceptedRoots (w : World) (Actors : List (Option AActor)) :
    List (Option USceneComponent) :=
  ((Actors.filterMap id).filter (fun a => w.ShouldSelect (some a) (w.GetRootComponent a))).map
    w.GetRootComponent

/-- The owners of the valid entries of a selection, in order. -/
def SelectionOwners (w : World) (Components : List (Option USceneComponent)) :
    List (Option AActor) :=
  Components.filterMap (fun c => c.map w.GetOwner)

/-- A request to the authority with the kind of trace forgotten: the three `ServerTraceBy…`
requests with the same ray end points and append flag are taken for the same request. -/
def ServerCall.ForgetTraceKind : ServerCall → ServerCall
  | ServerCall.ServerTraceByObjectTypes StartLocation EndLocation _ bAppendToList =>
    ServerCall.ServerTraceByObjectTypes StartLocation EndLocation [] bAppendToList
  | ServerCall.ServerTraceByChannel StartLocation EndLocation _ bAppendToList =>
    ServerCall.ServerTraceByObjectTypes StartLocation EndLocation [] bAppendToList
  | ServerCall.ServerTraceByProfile StartLocation EndLocation _ bAppendToList =>
    ServerCall.ServerTraceByObjectTypes StartLocation EndLocation [] bAppendToList
  | call => call

/-- The requests to the authority recorded by `s2` after the record of `s`, in call order. -/
def requestsSince (s s2 : ATransformerPawn) : List ServerCall :=
  serverCalls (s2.Log.drop s.Log.length)

/-- The transform that one iteration of `ApplyDeltaTransform` hands to `SetTransform` for the
component `c` when the loop reaches it in the state `s`: the transform of
`ApplyDeltaTransform.NewTransform`, passed through the gizmo's
`GetSnappedTransformPerComponent` when `snapping` holds a snapping value. -/
def ApplyDeltaTransform.HandedTransform (w : World) (DeltaTransform : FTransform)
    (snapping : Option ℚ) (s : ATransformerPawn) (g : ABaseGizmo) (c : USceneComponent) :
    FTransform :=
  match snapping with
  | some snappingValue =>
    w.GetSnappedTransformPerComponent g (s.SceneState.ComponentTransform c)
      (ApplyDeltaTransform.NewTransform s g DeltaTransform (s.SceneState.ComponentTransform c))
      s.CurrentDomain snappingValue
  | none => ApplyDeltaTransform.NewTransform s g DeltaTransform (s.SceneState.ComponentTransform c)

/-! ## A small scene -/

/-- A world for evaluating the operations: actor `a` owns the components `10 * a` (its root)
and `10 * a + 1`, the second attached to the first; the actors from `100` on are gizmos; gizmo class `1` is the translation
gizmo, `2` the rotation gizmo and `3` the scale gizmo, the gizmo spawned from class `k` is the
actor `100 + k` and registers the hit regions `1000` (X axis) and `1001` (XY plane); actor `7`
is refused by `ShouldSelect`; every ray cast reports a hit on the gizmo region `1000` of the
translation gizmo and then on the component `20` of actor `2`. -/
def exampleWorld : World where
  ShouldSelect := fun a _ => decide (a ≠ some 7)
  GetOwner := fun c => some (c / 10)
  GetRootComponent := fun a => some (10 * a)
  GetComponents := fun a => [10 * a, 10 * a + 1]
  ComponentImplementsUFocusable := fun c => decide (c % 2 = 0)
  ActorImplementsUFocusable := fun a => decide (a % 2 = 0)
  IsABaseGizmo := fun a => decide (100 ≤ a)
  HasWorld := true
  SpawnActor := fun cls =>
    some {
      Self := 100 + cls
      GizmoType :=
        match cls with
        | 1 => ETransformationType.TT_Translation
        | 2 => ETransformationType.TT_Rotation
        | _ => ETransformationType.TT_Scale
      DomainMap := [(1000, ETransformationDomain.TD_X_Axis),
        (1001, ETransformationDomain.TD_XY_Plane)]
      bTransformInProgress := false
      AttachParent := none
      SpaceType := ESpaceType.ST_World }
  IsAuthority := true
  DeprojectMousePositionToWorld := some (⟨0, 0, 0⟩, ⟨1, 0, 0⟩)
  ActorSupportedForNetworking := fun _ => true
  ComponentSupportedForNetworking := fun _ => true
  LineTraceMultiByObjectType := fun _ _ _ _ => (true, [⟨some 101, some 1000⟩, ⟨some 2, some 20⟩])
  LineTraceMultiByChannel := fun _ _ _ _ => (true, [⟨some 101, some 1000⟩, ⟨some 2, some 20⟩])
  LineTraceMultiByProfile := fun _ _ _ _ => (true, [⟨some 101, some 1000⟩, ⟨some 2, some 20⟩])
  HasController := true
  IsLocalController := true
  HasPlayerCameraManager := true
  CameraForwardVector := ⟨1, 0, 0⟩
  GetAttachParent := fun c => if c % 10 = 0 then none else some (c - 1)
  GetDeltaTransform := fun g _ _ _ _ => (⟨FQuat.Identity, ⟨2, 0, 0⟩, FVector.ZeroVector⟩, g)
  GetSnappedTransform := ABaseGizmo.GetSnappedTransform
  GetSnappedTransformPerComponent := fun _ _ NewComponentTransform _ _ => NewComponentTransform
  DuplicateSucceeds := fun _ => true
  SpawnCloneSucceeds := fun _ => true

/-- The scene of the examples: component `c` sits at `(c, 0, 0)` with identity rotation and
unit scale; the components `10 * a + 1` are static, all others are movable; new objects get
the handles from `5000` on. -/
def exampleScene : Scene where
  ComponentTransform := fun c => ⟨FQuat.Identity, ⟨c, 0, 0⟩, FVector.OneVector⟩
  Mobility := fun c =>
    if c % 10 = 1 then EComponentMobility.Static else EComponentMobility.Movable
  NextObject := 5000

/-- The same scene in which no ray cast hits anything. -/
def emptyTraceWorld : World :=
  { exampleWorld with
    LineTraceMultiByObjectType := fun _ _ _ _ => (false, [])
    LineTraceMultiByChannel := fun _ _ _ _ => (false, [])
    LineTraceMultiByProfile := fun _ _ _ _ => (false, []) }

/-- The pawn as constructed, with the gizmo classes `1`, `2` and `3`. -/
def examplePawn : ATransformerPawn := ATransformerPawn.Construct 1 2 3 exampleScene

/-- The example pawn with the given toggle flag after `SelectMultipleComponents` of the
components `10` and `20`. -/
def selectedPawn (bToggle : Bool) : ATransformerPawn :=
  SelectMultipleComponents exampleWorld
    { examplePawn with bToggleSelectedInMultiSelection := bToggle } [some 10, some 20] false

/-- The gizmo of `selectedPawn`: the translation gizmo, attached to component `20`. -/
def exampleGizmo : ABaseGizmo where
  Self := 101
  GizmoType := ETransformationType.TT_Translation
  DomainMap := [(1000, ETransformationDomain.TD_X_Axis),
    (1001, ETransformationDomain.TD_XY_Plane)]
  bTransformInProgress := false
  AttachParent := some 20
  SpaceType := ESpaceType.ST_World

/-- The selected example pawn in the middle of a gesture: X-axis domain active and a
non-trivial accumulated delta. -/
def driftedPawn : ATransformerPawn :=
  { selectedPawn true with
    CurrentDomain := ETransformationDomain.TD_X_Axis
    AccumulatedDeltaTransform := ⟨⟨0, 0, 1, 0⟩, ⟨2, 0, 0⟩, ⟨3, 3, 3⟩⟩ }

/-- The example pawn with the movable components `10` and `20` and the static component `11`
selected; the gizmo is attached to the last of them, `20`. -/
def mixedPawn : ATransformerPawn :=
  SelectMultipleComponents exampleWorld examplePawn [some 10, some 11, some 20] false

/-- A delta that translates by `(1, 2, 3)`: identity rotation, zero scale. -/
def exampleTranslation : FTransform := ⟨FQuat.Identity, ⟨1, 2, 3⟩, FVector.ZeroVector⟩

/-- A delta that turns by half a turn about the Z axis, translates by `(1, 2, 3)` and adds
`(1, 0, 0)` to the scale. -/
def exampleDelta : FTransform := ⟨⟨0, 0, 1, 0⟩, ⟨1, 2, 3⟩, ⟨1, 0, 0⟩⟩

/-- Raw deltas of a gesture along the X axis: `3`, `6` and `8`, which sum to `17`. -/
def exampleRawDeltas : List FTransform :=
  [⟨FQuat.Identity, ⟨3, 0, 0⟩, FVector.ZeroVector⟩,
   ⟨FQuat.Identity, ⟨6, 0, 0⟩, FVector.ZeroVector⟩,
   ⟨FQuat.Identity, ⟨8, 0, 0⟩, FVector.ZeroVector⟩]

/-- The selected pawn in the middle of a translation along the X axis, with snapping to
multiples of `5` enabled for translations. -/
def snappingPawn : ATransformerPawn :=
  SetSnappingValue
    (SetSnappingEnabled { selectedPawn true with CurrentDomain := ETransformationDomain.TD_X_Axis }
      ETransformationType.TT_Translation true)
    ETransformationType.TT_Translation 5

/-- The selected pawn in the middle of a translation along the X axis, without snapping. -/
def draggingPawn : ATransformerPawn :=
  { selectedPawn true with CurrentDomain := ETransformationDomain.TD_X_Axis }

/-- The example world seen from a remote peer that is not the authority. -/
def remoteWorld : World := { exampleWorld with IsAuthority := false }

/-- The example world seen from a peer on which the pawn has no controller: a peer that
neither owns the pawn nor is the authority. -/
def bystanderWorld : World :=
  { exampleWorld with IsAuthority := false, HasController := false, IsLocalController := false }

/-- The example world seen from a peer that holds the pawn's controller without it being
local there: the authority, for a pawn driven by a remote player. -/
def serverWorld : World := { exampleWorld with IsLocalController := false }

/-- The pawn `mixedPawn` at the end of a gesture that moved the selection by `(1, 2, 3)`. -/
def flushPawn : ATransformerPawn := { mixedPawn with NetworkDeltaTransform := exampleTranslation }

/-- The example pawn in part-based mode. -/
def partPawn : ATransformerPawn := { examplePawn with bComponentBased := true }

/-- The pawn on the authority after `ServerCloneSelected(true, false)` was carried out for
the two selected actors `1` and `2`: the clones are the actors `5000` and `5001`, with the
root components `50000` and `50010`. -/
def clonedPawn : ATransformerPawn :=
  (ServerCloneSelected_Implementation exampleWorld (selectedPawn true) true false 0).getD
    examplePawn

/-- A readiness pattern in which only the clone `50010` has begun play. -/
def onlySecondBegunPlay : USceneComponent → Bool := fun c => decide (c = 50010)

/-- The world in which no ray cast hits anything, seen from a remote peer that is not the
authority. -/
def remoteEmptyWorld : World := { emptyTraceWorld with IsAuthority := false }

/-- The example pawn in part-based mode with the two components `10` and `11` of the actor
`1` selected. -/
def sameActorPawn : ATransformerPawn :=
  SelectMultipleComponents exampleWorld partPawn [some 10, some 11] false

/-- The example pawn with the gizmo placed on the first selected component, and the
components `10`, `11` and `20` selected: the gizmo is attached to `10`. -/
def leadingGizmoPawn : ATransformerPawn :=
  SelectMultipleComponents exampleWorld
    { examplePawn with GizmoPlacement := EGizmoPlacement.GP_OnFirstSelection }
    [some 10, some 11, some 20] false

/-! # Theorems -/

/-! ## Lemmas on `TArray` primitives -/

theorem TArray.Find_eq_none {α : Type} [DecidableEq α] (l : List α) (a : α) :
    TArray.Find l a = none ↔ a ∉ l := by
  induction l with
  | nil => simp [TArray.Find]
  | cons x xs ih =>
    by_cases h : x = a
    · simp [TArray.Find, h]
    · simp [TArray.Find, h, ih, Ne.symm h]

theorem TArray.Find_eq_some {α : Type} [DecidableEq α] (l : List α)
    (a : α) (i : Nat) (h : TArray.Find l a = some i) :
    l[i]? = some a ∧ l.eraseIdx i = eraseFirst l a ∧ a ∈ l := by
  unfold eraseFirst
  induction l generalizing i with
  | nil => simp [TArray.Find] at h
  | cons x xs ih =>
    by_cases hx : x = a
    · simp [TArray.Find, hx] at h
      subst h; subst hx
      simp
    · simp only [TArray.Find, hx, if_false, Option.map_eq_some'] at h
      obtain ⟨j, hj, rfl⟩ := h
      obtain ⟨h1, h2, h3⟩ := ih j hj
      refine ⟨by simpa using h1, ?_, List.mem_cons_of_mem _ h3⟩
      rw [List.eraseIdx_cons_succ, h2, List.erase_cons_tail]
      simpa using hx

theorem TArray.Find_of_mem {α : Type} [DecidableEq α] (l : List α) (a : α) (h : a ∈ l) :
    ∃ i, TArray.Find l a = some i := by
  cases hf : TArray.Find l a with
  | none => exact absurd h ((TArray.Find_eq_none l a).1 hf)
  | some i => exact ⟨i, rfl⟩

theorem TArray.Last_append_singleton {α : Type} (l : List (Option α)) (a : Option α) :
    TArray.Last (l ++ [a]) = a := by
  simp [TArray.Last]

/-! ## Frame lemmas -/

theorem LocalStep.refl (s : ATransformerPawn) : LocalStep s s :=
  ⟨s.SelectedComponents, s.Gizmo, [], by cases s; simp, by simp⟩

theorem LocalStep.trans {s1 s2 s3 : ATransformerPawn} (h12 : LocalStep s1 s2)
    (h23 : LocalStep s2 s3) : LocalStep s1 s3 := by
  obtain ⟨sel, g, l, rfl, hl⟩ := h12
  obtain ⟨sel2, g2, l2, rfl, hl2⟩ := h23
  refine ⟨sel2, g2, l ++ l2, by simp, ?_⟩
  intro e he
  rcases List.mem_append.1 he with h | h
  · exact hl e h
  · exact hl2 e h

theorem LocalStep.emit (s : ATransformerPawn) (e : Event) (he : Event.IsLocal e = true) :
    LocalStep s (s.emit e) :=
  ⟨s.SelectedComponents, s.Gizmo, [e], by cases s; simp [ATransformerPawn.emit], by simpa using he⟩

theorem LocalStep.setSelected (s : ATransformerPawn) (sel : List (Option USceneComponent)) :
    LocalStep s { s with SelectedComponents := sel } :=
  ⟨sel, s.Gizmo, [], by cases s; simp, by simp⟩

/-- `SetGizmo` changes only `Gizmo` and appends only gizmo events to `Log`. -/
theorem SetGizmo_shape (w : World) (s : ATransformerPawn) :
    ∃ g l, SetGizmo w s = { s with Gizmo := g, Log := s.Log ++ l } ∧
      ∀ e ∈ l, Event.IsGizmoEvent e = true := by
  rcases s with ⟨sel, giz, gp, ct, cd, cs, tc, rc, sc, adt, ndt, bt, bc, bi, br, rt, dc, da, lg,
    bfm, brl, btf, se, sv, ucc, cut, crf, mcr, scn⟩
  rcases giz with _ | g
  · by_cases hsel : sel.length > 0 <;> by_cases hw : w.HasWorld = true <;>
      simp only [SetGizmo, ATransformerPawn.emit, GetGizmoClass, hsel, hw, if_true, if_false]
    all_goals (repeat' split)
    all_goals first
      | exact ⟨_, [], by rw [List.append_nil], by simp⟩
      | exact ⟨_, [_], rfl, by simp [Event.IsGizmoEvent]⟩
  · by_cases hsel : sel.length > 0 <;> by_cases hw : w.HasWorld = true <;>
      by_cases hk : ct = g.GizmoType <;>
      simp only [SetGizmo, ATransformerPawn.emit, GetGizmoClass, hsel, hw, hk, if_true, if_false]
    all_goals (repeat' split)
    all_goals first
      | exact ⟨_, [], by rw [List.append_nil], by simp⟩
      | exact ⟨_, [_], rfl, by simp [Event.IsGizmoEvent]⟩
      | exact ⟨_, [_, _], by rw [List.append_assoc]; rfl, by simp [Event.IsGizmoEvent]⟩

/-- `UpdateGizmoPlacement` changes only `Gizmo` and appends only gizmo events to `Log`. -/
theorem UpdateGizmoPlacement_shape (w : World) (s : ATransformerPawn) :
    ∃ g l, UpdateGizmoPlacement w s = { s with Gizmo := g, Log := s.Log ++ l } ∧
      ∀ e ∈ l, Event.IsGizmoEvent e = true := by
  obtain ⟨g, l, h, hl⟩ := SetGizmo_shape w s
  unfold UpdateGizmoPlacement
  rw [h]
  cases g with
  | none => exact ⟨none, l, rfl, hl⟩
  | some g0 => exact ⟨_, l, rfl, hl⟩

theorem Event.IsLocal_of_IsGizmoEvent (e : Event) (h : Event.IsGizmoEvent e = true) :
    Event.IsLocal e = true := by
  cases e <;> simp_all [Event.IsGizmoEvent, Event.IsLocal]

theorem LocalStep.UpdateGizmoPlacement (w : World) (s : ATransformerPawn) :
    LocalStep s (UpdateGizmoPlacement w s) := by
  obtain ⟨g, l, h, hl⟩ := UpdateGizmoPlacement_shape w s
  exact ⟨s.SelectedComponents, g, l, by rw [h],
    fun e he => Event.IsLocal_of_IsGizmoEvent e (hl e he)⟩

@[simp] theorem UpdateGizmoPlacement_SelectedComponents (w : World) (s : ATransformerPawn) :
    (UpdateGizmoPlacement w s).SelectedComponents = s.SelectedComponents := by
  obtain ⟨g, l, h, _⟩ := UpdateGizmoPlacement_shape w s
  rw [h]

@[simp] theorem SetGizmo_SelectedComponents (w : World) (s : ATransformerPawn) :
    (SetGizmo w s).SelectedComponents = s.SelectedComponents := by
  obtain ⟨g, l, h, _⟩ := SetGizmo_shape w s
  rw [h]

theorem LocalStep.bToggle {s1 s2 : ATransformerPawn} (h : LocalStep s1 s2) :
    s2.bToggleSelectedInMultiSelection = s1.bToggleSelectedInMultiSelection := by
  obtain ⟨sel, g, l, rfl, _⟩ := h
  rfl

theorem LocalStep.bComponentBased {s1 s2 : ATransformerPawn} (h : LocalStep s1 s2) :
    s2.bComponentBased = s1.bComponentBased := by
  obtain ⟨sel, g, l, rfl, _⟩ := h
  rfl

theorem eraseFirst_of_not_mem {α : Type} [DecidableEq α] (l : List α) (a : α) (h : a ∉ l) :
    eraseFirst l a = l :=
  List.erase_of_not_mem h

theorem eraseFirst_nodup {α : Type} [DecidableEq α] (l : List α) (a : α) (h : l.Nodup) :
    (eraseFirst l a).Nodup :=
  h.erase a

theorem mem_eraseFirst {α : Type} [DecidableEq α] (l : List α) (a x : α) (h : l.Nodup) :
    x ∈ eraseFirst l a ↔ x ≠ a ∧ x ∈ l :=
  h.mem_erase_iff

theorem eraseFirst_subset {α : Type} [DecidableEq α] (l : List α) (a : α) :
    eraseFirst l a ⊆ l :=
  List.erase_subset a l

theorem eraseFirst_eq_filter {α : Type} [DecidableEq α] (l : List α) (a : α) (h : l.Nodup) :
    eraseFirst l a = l.filter (fun y => decide (y ≠ a)) := by
  unfold eraseFirst
  rw [h.erase_eq_filter]
  congr 1
  funext y
  by_cases hy : y = a <;> simp [hy]

theorem toggleList_eq {α : Type} [DecidableEq α] (b : Bool) (l : List α) (a : α) :
    toggleList b l a = if a ∈ l then (if b then eraseFirst l a else l) else l ++ [a] := rfl

/-- `DeselectComponentAtIndex_Internal` at the index found for `c`. -/
theorem DeselectComponentAtIndex_Internal_spec (w : World) (s : ATransformerPawn)
    (c : Option USceneComponent) (i : Nat) (h : TArray.Find s.SelectedComponents c = some i) :
    LocalStep s (DeselectComponentAtIndex_Internal w s i) ∧
    (DeselectComponentAtIndex_Internal w s i).SelectedComponents =
      eraseFirst s.SelectedComponents c ∧
    (DeselectComponentAtIndex_Internal w s i).Gizmo = s.Gizmo ∧
    (DeselectComponentAtIndex_Internal w s i).Log = s.Log ++
      [Event.Deselect c (GetUFocusable w s c),
       Event.OnComponentSelectionChange c false (GetUFocusable w s c).isSome] := by
  obtain ⟨h1, h2, _⟩ := TArray.Find_eq_some _ _ _ h
  simp only [DeselectComponentAtIndex_Internal, h1, Deselect, ATransformerPawn.emit, h2]
  refine ⟨⟨eraseFirst s.SelectedComponents c, s.Gizmo,
    [Event.Deselect c (GetUFocusable w s c),
     Event.OnComponentSelectionChange c false (GetUFocusable w s c).isSome], ?_, ?_⟩, ?_, ?_, ?_⟩
  all_goals simp [Event.IsLocal]

/-- `AddComponent_Internal` in terms of `toggleList`. -/
theorem AddComponent_Internal_spec (w : World) (s : ATransformerPawn)
    (c : Option USceneComponent) :
    LocalStep s (AddComponent_Internal w s c) ∧
    (AddComponent_Internal w s c).SelectedComponents =
      toggleList s.bToggleSelectedInMultiSelection s.SelectedComponents c := by
  rw [toggleList_eq]
  unfold AddComponent_Internal
  cases hf : TArray.Find s.SelectedComponents c with
  | none =>
    have hn := (TArray.Find_eq_none _ _).1 hf
    simp only [hn, if_false, Select, ATransformerPawn.emit]
    refine ⟨⟨s.SelectedComponents ++ [c], s.Gizmo,
      [Event.Select (TArray.Last (s.SelectedComponents ++ [c]))
        (GetUFocusable w { s with SelectedComponents := s.SelectedComponents ++ [c] }
          (TArray.Last (s.SelectedComponents ++ [c]))),
       Event.OnComponentSelectionChange c true
        (GetUFocusable w { s with SelectedComponents := s.SelectedComponents ++ [c] }
          (TArray.Last (s.SelectedComponents ++ [c]))).isSome], ?_, ?_⟩, ?_⟩
    all_goals simp [Event.IsLocal]
  | some i =>
    obtain ⟨_, _, hm⟩ := TArray.Find_eq_some _ _ _ hf
    simp only [hm, if_true]
    by_cases ht : s.bToggleSelectedInMultiSelection = true
    · simp only [ht, if_true]
      exact ⟨(DeselectComponentAtIndex_Internal_spec w s c i hf).1,
        (DeselectComponentAtIndex_Internal_spec w s c i hf).2.1⟩
    · simp only [ht]
      exact ⟨LocalStep.refl s, by simp⟩

/-- `DeselectComponent` removes the target, if it is selected. -/
theorem DeselectComponent_spec (w : World) (s : ATransformerPawn)
    (c : Option USceneComponent) :
    LocalStep s (DeselectComponent w s c) ∧
    (DeselectComponent w s c).SelectedComponents =
      (match c with
        | none => s.SelectedComponents
        | some _ => eraseFirst s.SelectedComponents c) := by
  cases c with
  | none => exact ⟨LocalStep.refl s, rfl⟩
  | some c0 =>
    simp only [DeselectComponent, DeselectComponent_Internal,
      UpdateGizmoPlacement_SelectedComponents]
    cases hf : TArray.Find s.SelectedComponents (some c0) with
    | none =>
      have hn := (TArray.Find_eq_none _ _).1 hf
      refine ⟨LocalStep.UpdateGizmoPlacement w s, ?_⟩
      rw [eraseFirst_of_not_mem _ _ hn]
    | some i =>
      obtain ⟨h1, h2, _⟩ := DeselectComponentAtIndex_Internal_spec w s (some c0) i hf
      exact ⟨h1.trans (LocalStep.UpdateGizmoPlacement w _), h2⟩



/-! ## The toggle on lists -/

theorem toggleList_nodup {α : Type} [DecidableEq α] (b : Bool) (l : List α) (a : α)
    (h : l.Nodup) : (toggleList b l a).Nodup := by
  rw [toggleList_eq]
  by_cases ha : a ∈ l
  · cases b
    · simpa [ha] using h
    · simpa [ha] using eraseFirst_nodup l a h
  · simp only [ha, if_false]
    exact List.Nodup.append h (List.nodup_singleton a) (by simpa using ha)

theorem mem_toggleList_true {α : Type} [DecidableEq α] (l : List α) (a x : α)
    (h : l.Nodup) : x ∈ toggleList true l a ↔ (if x = a then x ∉ l else x ∈ l) := by
  rw [toggleList_eq]
  by_cases ha : a ∈ l
  · simp only [ha, if_true, mem_eraseFirst l a x h]
    by_cases hx : x = a
    · subst hx; simp [ha]
    · simp [hx]
  · simp only [ha, if_false, List.mem_append, List.mem_singleton]
    by_cases hx : x = a
    · subst hx; simp [ha]
    · simp [hx]

/-- Membership after a sequence of toggles: the parity of the number of toggles decides. -/
theorem mem_foldl_toggleList {α : Type} [DecidableEq α] (seq l : List α) (x : α)
    (h : l.Nodup) :
    x ∈ seq.foldl (toggleList true) l ↔ ¬ (x ∈ l ↔ Odd (seq.count x)) := by
  induction seq generalizing l with
  | nil => simp
  | cons a rest ih =>
    rw [List.foldl_cons, ih _ (toggleList_nodup true l a h), mem_toggleList_true l a x h]
    by_cases hx : x = a
    · subst hx
      simp only [if_true, List.count_cons_self, Nat.odd_add_one]
      tauto
    · rw [List.count_cons_of_ne hx, if_neg hx]

theorem toggleList_map {α β : Type} [DecidableEq α] [DecidableEq β] (f : α → β)
    (hf : Function.Injective f) (b : Bool) (l : List α) (a : α) :
    toggleList b (l.map f) (f a) = (toggleList b l a).map f := by
  simp only [toggleList_eq, eraseFirst, List.mem_map, hf.eq_iff, exists_eq_right]
  by_cases ha : a ∈ l
  · cases b
    · simp [ha]
    · simp [ha, List.map_erase hf]
  · simp [ha]

theorem foldl_toggleList_map {α β : Type} [DecidableEq α] [DecidableEq β] (f : α → β)
    (hf : Function.Injective f) (b : Bool) (seq l : List α) :
    (seq.map f).foldl (toggleList b) (l.map f) = (seq.foldl (toggleList b) l).map f := by
  induction seq generalizing l with
  | nil => rfl
  | cons a rest ih =>
    rw [List.map_cons, List.foldl_cons, List.foldl_cons, toggleList_map f hf, ih]



/-! ## `SelectComponent` in append mode -/

theorem SelectComponent_append_spec (w : World) (s : ATransformerPawn) (c : USceneComponent)
    (h : w.ShouldSelect (w.GetOwner c) (some c) = true) :
    LocalStep s (SelectComponent w s (some c) true) ∧
    (SelectComponent w s (some c) true).SelectedComponents =
      toggleList s.bToggleSelectedInMultiSelection s.SelectedComponents (some c) := by
  obtain ⟨h1, h2⟩ := AddComponent_Internal_spec w s (some c)
  simp only [SelectComponent, h, if_true, UpdateGizmoPlacement_SelectedComponents]
  exact ⟨h1.trans (LocalStep.UpdateGizmoPlacement w _), h2⟩

theorem SelectComponent_append_foldl (w : World) (targets : List USceneComponent)
    (s : ATransformerPawn)
    (hsel : ∀ c ∈ targets, w.ShouldSelect (w.GetOwner c) (some c) = true) :
    LocalStep s (targets.foldl (fun st c => SelectComponent w st (some c) true) s) ∧
    (targets.foldl (fun st c => SelectComponent w st (some c) true) s).SelectedComponents =
      (targets.map some).foldl (toggleList s.bToggleSelectedInMultiSelection)
        s.SelectedComponents := by
  induction targets generalizing s with
  | nil => exact ⟨LocalStep.refl s, rfl⟩
  | cons c rest ih =>
    obtain ⟨h1, h2⟩ := SelectComponent_append_spec w s c (hsel c (List.mem_cons_self _ _))
    obtain ⟨h3, h4⟩ := ih (SelectComponent w s (some c) true)
      (fun x hx => hsel x (List.mem_cons_of_mem _ hx))
    refine ⟨h1.trans h3, ?_⟩
    rw [List.foldl_cons, h4, h1.bToggle, h2]
    rfl

/-! ## The order left by a sequence of toggles -/

theorem mem_lastOccurrenceOrder {α : Type} [DecidableEq α] (l : List α) (x : α) :
    x ∈ lastOccurrenceOrder l ↔ x ∈ l := by
  induction l with
  | nil => simp [lastOccurrenceOrder]
  | cons a rest ih =>
    by_cases ha : a ∈ rest
    · simp only [lastOccurrenceOrder, ha, if_true, ih, List.mem_cons]
      constructor
      · exact Or.inr
      · rintro (rfl | h)
        · exact ha
        · exact h
    · simp [lastOccurrenceOrder, ha, ih]

theorem lastOccurrenceOrder_append_singleton {α : Type} [DecidableEq α] (l : List α) (t : α) :
    lastOccurrenceOrder (l ++ [t]) =
      (lastOccurrenceOrder l).filter (fun y => decide (y ≠ t)) ++ [t] := by
  induction l with
  | nil => simp [lastOccurrenceOrder]
  | cons a rest ih =>
    by_cases ha : a ∈ rest
    · simp [lastOccurrenceOrder, ha, ih]
    · by_cases hat : a = t
      · subst hat
        simp [lastOccurrenceOrder, ha, ih]
      · simp [lastOccurrenceOrder, ha, hat, ih]

theorem foldl_toggleList_nodup {α : Type} [DecidableEq α] (b : Bool) (seq l : List α)
    (h : l.Nodup) : (seq.foldl (toggleList b) l).Nodup := by
  induction seq generalizing l with
  | nil => exact h
  | cons a rest ih => exact ih _ (toggleList_nodup b l a h)

/-- After a sequence of toggles from the empty list, the list holds the elements toggled an
odd number of times, in the order of their last occurrence in the sequence. -/
theorem foldl_toggleList_eq {α : Type} [DecidableEq α] (seq : List α) :
    seq.foldl (toggleList true) [] =
      (lastOccurrenceOrder seq).filter (fun x => decide (Odd (seq.count x))) := by
  induction seq using List.reverseRecOn with
  | nil => rfl
  | append_singleton l t ih =>
    have hnd : (l.foldl (toggleList true) []).Nodup :=
      foldl_toggleList_nodup true l [] List.nodup_nil
    rw [List.foldl_append, List.foldl_cons, List.foldl_nil, toggleList_eq,
      lastOccurrenceOrder_append_singleton, List.filter_append, List.filter_filter]
    have hmem : t ∈ l.foldl (toggleList true) [] ↔ Odd (l.count t) := by
      rw [mem_foldl_toggleList _ _ _ List.nodup_nil]
      simp
    have hfilt : ∀ (q : α → Bool), (∀ x, x ≠ t → q x = decide (Odd (l.count x))) →
        (lastOccurrenceOrder l).filter (fun a => q a && decide (a ≠ t)) =
        ((lastOccurrenceOrder l).filter (fun x => decide (Odd (l.count x)))).filter
          (fun y => decide (y ≠ t)) := by
      intro q hq
      rw [List.filter_filter]
      apply List.filter_congr
      intro x _
      by_cases hx : x = t
      · simp [hx]
      · simp [hx, hq x hx]
    have hq : ∀ x, x ≠ t → decide (Odd ((l ++ [t]).count x)) = decide (Odd (l.count x)) := by
      intro x hx
      simp [List.count_append, List.count_cons_of_ne hx]
    by_cases hodd : Odd (l.count t)
    · have hev : decide (Odd ((l ++ [t]).count t)) = false := by
        simp [List.count_append, Nat.odd_add_one, hodd]
      rw [if_pos (hmem.2 hodd), if_pos rfl, eraseFirst_eq_filter _ _ hnd, ih,
        hfilt _ hq]
      simp only [List.filter_cons, List.filter_nil, hev]
      simp
    · have hod : decide (Odd ((l ++ [t]).count t)) = true := by
        simp [List.count_append, Nat.odd_add_one, hodd]
      rw [if_neg (fun h => hodd (hmem.1 h)), ih, hfilt _ hq]
      have : ((lastOccurrenceOrder l).filter (fun x => decide (Odd (l.count x)))).filter
          (fun y => decide (y ≠ t)) =
          (lastOccurrenceOrder l).filter (fun x => decide (Odd (l.count x))) := by
        rw [List.filter_eq_self]
        intro x hx
        have := (List.mem_filter.1 hx).2
        by_cases hxt : x = t
        · subst hxt; simp_all
        · simp [hxt]
      rw [this]
      simp only [List.filter_cons, List.filter_nil, hod, if_true]


/-! ## C1 and C2: the toggle invariant -/

/-- C1. Toggle invariant (membership): starting from an empty selection, with the toggle
flag on and every target accepted by `ShouldSelect`, after any sequence of
`SelectComponent(target, true)` calls a target is in `SelectedComponents` if and only if it
was selected an odd number of times in the sequence. -/
theorem C1_toggle_membership (w : World) (s : ATransformerPawn)
    (targets : List USceneComponent) (t : USceneComponent)
    (hempty : s.SelectedComponents = [])
    (htoggle : s.bToggleSelectedInMultiSelection = true)
    (hsel : ∀ c ∈ targets, w.ShouldSelect (w.GetOwner c) (some c) = true) :
    some t ∈ (targets.foldl (fun st c => SelectComponent w st (some c) true) s).SelectedComponents
      ↔ Odd (targets.count t) := by
  rw [(SelectComponent_append_foldl w targets s hsel).2, htoggle, hempty,
    mem_foldl_toggleList _ _ _ List.nodup_nil,
    List.count_map_of_injective _ _ (Option.some_injective _)]
  simp

/-- C1 on the example scene: after selecting 0, 1, 0, 0 the component 0, selected three
times, is in the selection. -/
theorem C1_toggle_membership_witness :
    examplePawn.SelectedComponents = [] ∧
    examplePawn.bToggleSelectedInMultiSelection = true ∧
    (∀ c ∈ [0, 1, 0, 0], exampleWorld.ShouldSelect (exampleWorld.GetOwner c) (some c) = true) ∧
    (some 0 ∈ ([0, 1, 0, 0].foldl (fun st c => SelectComponent exampleWorld st (some c) true)
        examplePawn).SelectedComponents ↔ Odd ([0, 1, 0, 0].count 0)) :=
  ⟨rfl, rfl, by decide,
    C1_toggle_membership exampleWorld examplePawn [0, 1, 0, 0] 0 rfl rfl (by decide)⟩

/-- C2 as stated fails: after selecting A, B, A, A (here A = 0, B = 1) from an empty
selection with the toggle flag on, `SelectedComponents` is `[B, A]`, not the first-selection
order `[A, B]`. -/
theorem C2_first_selection_order_counterexample :
    examplePawn.SelectedComponents = [] ∧
    examplePawn.bToggleSelectedInMultiSelection = true ∧
    (∀ c ∈ [0, 1, 0, 0], exampleWorld.ShouldSelect (exampleWorld.GetOwner c) (some c) = true) ∧
    ([0, 1, 0, 0].foldl (fun st c => SelectComponent exampleWorld st (some c) true)
        examplePawn).SelectedComponents = [some 1, some 0] ∧
    ((firstOccurrenceOrder [0, 1, 0, 0]).filter
        (fun t => decide (Odd ([0, 1, 0, 0].count t)))).map some = [some 0, some 1] ∧
    ([0, 1, 0, 0].foldl (fun st c => SelectComponent exampleWorld st (some c) true)
        examplePawn).SelectedComponents ≠
      ((firstOccurrenceOrder [0, 1, 0, 0]).filter
        (fun t => decide (Odd ([0, 1, 0, 0].count t)))).map some := by
  decide

/-- C2, amended. Toggle invariant (order): starting from an empty selection, with the toggle
flag on and every target accepted by `ShouldSelect`, after any sequence of
`SelectComponent(target, true)` calls `SelectedComponents` holds the targets selected an odd
number of times, in the order of their last selection in the sequence. -/
theorem C2_toggle_order (w : World) (s : ATransformerPawn)
    (targets : List USceneComponent)
    (hempty : s.SelectedComponents = [])
    (htoggle : s.bToggleSelectedInMultiSelection = true)
    (hsel : ∀ c ∈ targets, w.ShouldSelect (w.GetOwner c) (some c) = true) :
    (targets.foldl (fun st c => SelectComponent w st (some c) true) s).SelectedComponents =
      ((lastOccurrenceOrder targets).filter (fun t => decide (Odd (targets.count t)))).map
        some := by
  rw [(SelectComponent_append_foldl w targets s hsel).2, htoggle, hempty]
  have h := foldl_toggleList_map (some : USceneComponent → Option USceneComponent)
    (Option.some_injective _) true targets []
  rw [List.map_nil] at h
  rw [h, foldl_toggleList_eq]

/-- C2 (amended) on the example scene, for the sequence 0, 1, 0, 0. -/
theorem C2_toggle_order_witness :
    examplePawn.SelectedComponents = [] ∧
    examplePawn.bToggleSelectedInMultiSelection = true ∧
    (∀ c ∈ [0, 1, 0, 0], exampleWorld.ShouldSelect (exampleWorld.GetOwner c) (some c) = true) ∧
    ([0, 1, 0, 0].foldl (fun st c => SelectComponent exampleWorld st (some c) true)
        examplePawn).SelectedComponents =
      ((lastOccurrenceOrder [0, 1, 0, 0]).filter
        (fun t => decide (Odd ([0, 1, 0, 0].count t)))).map some :=
  ⟨rfl, rfl, by decide,
    C2_toggle_order exampleWorld examplePawn [0, 1, 0, 0] rfl rfl (by decide)⟩

/-! ## `DeselectAll` and the multiple selections -/

theorem DestroyDeselected_shape (w : World) (s : ATransformerPawn)
    (c : Option USceneComponent) :
    ∃ dc da l, DestroyDeselected w s c =
      { s with DestroyedComponents := dc, DestroyedActors := da, Log := s.Log ++ l } := by
  unfold DestroyDeselected
  split_ifs
  · split
    · exact ⟨s.DestroyedComponents, s.DestroyedActors, [], by cases s; simp⟩
    · split
      · split_ifs
        · exact ⟨_, _, [_], rfl⟩
        · exact ⟨_, _, [_], rfl⟩
      · exact ⟨s.DestroyedComponents, s.DestroyedActors, [], by cases s; simp⟩
  · exact ⟨s.DestroyedComponents, s.DestroyedActors, [], by cases s; simp⟩

theorem foldl_DestroyDeselected_shape (w : World) (l : List (Option USceneComponent))
    (s : ATransformerPawn) :
    ∃ dc da lg, l.foldl (fun st c => DestroyDeselected w st c) s =
      { s with DestroyedComponents := dc, DestroyedActors := da, Log := s.Log ++ lg } := by
  induction l generalizing s with
  | nil => exact ⟨s.DestroyedComponents, s.DestroyedActors, [], by cases s; simp⟩
  | cons c rest ih =>
    obtain ⟨dc, da, lg, h⟩ := DestroyDeselected_shape w s c
    obtain ⟨dc2, da2, lg2, h2⟩ := ih (DestroyDeselected w s c)
    rw [List.foldl_cons, h2, h]
    exact ⟨dc2, da2, lg ++ lg2, by simp⟩

theorem DeselectAll_SelectedComponents (w : World) (s : ATransformerPawn) (b : Bool) :
    (DeselectAll w s b).1.SelectedComponents = [] := by
  unfold DeselectAll
  cases b
  · simp
  · simp only [if_true]
    obtain ⟨dc, da, lg, h⟩ := foldl_DestroyDeselected_shape w s.SelectedComponents
      (UpdateGizmoPlacement w
        { List.foldl (fun st i => DeselectComponent w st i) s s.SelectedComponents with
          SelectedComponents := [] })
    rw [h]
    simp

theorem foldl_DeselectComponent_LocalStep (w : World) (l : List (Option USceneComponent))
    (s : ATransformerPawn) :
    LocalStep s (l.foldl (fun st i => DeselectComponent w st i) s) := by
  induction l generalizing s with
  | nil => exact LocalStep.refl s
  | cons c rest ih => exact (DeselectComponent_spec w s c).1.trans (ih _)

theorem DeselectAll_false_LocalStep (w : World) (s : ATransformerPawn) :
    LocalStep s (DeselectAll w s false).1 := by
  unfold DeselectAll
  simp only [Bool.false_eq_true, if_false]
  exact ((foldl_DeselectComponent_LocalStep w _ s).trans (LocalStep.setSelected _ [])).trans
    (LocalStep.UpdateGizmoPlacement w _)

theorem SelectComponent_nodup (w : World) (s : ATransformerPawn) (c : Option USceneComponent)
    (b : Bool) (h : s.SelectedComponents.Nodup) :
    (SelectComponent w s c b).SelectedComponents.Nodup := by
  unfold SelectComponent
  cases c with
  | none => exact h
  | some c0 =>
    simp only
    split_ifs with h1 h2
    · rw [UpdateGizmoPlacement_SelectedComponents, (AddComponent_Internal_spec w _ _).2]
      exact toggleList_nodup _ _ _ (by rw [DeselectAll_SelectedComponents]; exact List.nodup_nil)
    · rw [UpdateGizmoPlacement_SelectedComponents, (AddComponent_Internal_spec w _ _).2]
      exact toggleList_nodup _ _ _ h
    · exact h

theorem SelectActor_nodup (w : World) (s : ATransformerPawn) (a : Option AActor)
    (b : Bool) (h : s.SelectedComponents.Nodup) :
    (SelectActor w s a b).SelectedComponents.Nodup := by
  unfold SelectActor
  cases a with
  | none => exact h
  | some a0 =>
    simp only
    split_ifs with h1 h2
    · rw [UpdateGizmoPlacement_SelectedComponents, (AddComponent_Internal_spec w _ _).2]
      exact toggleList_nodup _ _ _ (by rw [DeselectAll_SelectedComponents]; exact List.nodup_nil)
    · rw [UpdateGizmoPlacement_SelectedComponents, (AddComponent_Internal_spec w _ _).2]
      exact toggleList_nodup _ _ _ h
    · exact h

theorem SelectMultipleComponents_Loop_nodup (w : World) (l : List (Option USceneComponent))
    (s : ATransformerPawn) (bAppend bValid : Bool) (h : s.SelectedComponents.Nodup) :
    (SelectMultipleComponents.Loop w s bAppend bValid l).1.SelectedComponents.Nodup := by
  induction l generalizing s bAppend bValid with
  | nil => exact h
  | cons c rest ih =>
    cases c with
    | none => exact ih s bAppend bValid h
    | some c0 =>
      simp only [SelectMultipleComponents.Loop]
      split_ifs with h1 h2
      · apply ih
        rw [(AddComponent_Internal_spec w _ _).2]
        exact toggleList_nodup _ _ _
          (by rw [DeselectAll_SelectedComponents]; exact List.nodup_nil)
      · apply ih
        rw [(AddComponent_Internal_spec w _ _).2]
        exact toggleList_nodup _ _ _ h
      · exact ih s bAppend bValid h

theorem SelectMultipleComponents_nodup (w : World) (s : ATransformerPawn)
    (l : List (Option USceneComponent)) (b : Bool) (h : s.SelectedComponents.Nodup) :
    (SelectMultipleComponents w s l b).SelectedComponents.Nodup := by
  unfold SelectMultipleComponents
  simp only
  split_ifs
  · rw [UpdateGizmoPlacement_SelectedComponents]
    exact SelectMultipleComponents_Loop_nodup w l s b false h
  · exact SelectMultipleComponents_Loop_nodup w l s b false h

theorem SelectMultipleActors_Loop_nodup (w : World) (l : List (Option AActor))
    (s : ATransformerPawn) (bAppend bValid : Bool) (h : s.SelectedComponents.Nodup) :
    (SelectMultipleActors.Loop w s bAppend bValid l).1.SelectedComponents.Nodup := by
  induction l generalizing s bAppend bValid with
  | nil => exact h
  | cons c rest ih =>
    cases c with
    | none => exact ih s bAppend bValid h
    | some c0 =>
      simp only [SelectMultipleActors.Loop]
      split_ifs with h1 h2
      · apply ih
        rw [(AddComponent_Internal_spec w _ _).2]
        exact toggleList_nodup _ _ _
          (by rw [DeselectAll_SelectedComponents]; exact List.nodup_nil)
      · apply ih
        rw [(AddComponent_Internal_spec w _ _).2]
        exact toggleList_nodup _ _ _ h
      · exact ih s bAppend bValid h

theorem SelectMultipleActors_nodup (w : World) (s : ATransformerPawn)
    (l : List (Option AActor)) (b : Bool) (h : s.SelectedComponents.Nodup) :
    (SelectMultipleActors w s l b).SelectedComponents.Nodup := by
  unfold SelectMultipleActors
  simp only
  split_ifs
  · rw [UpdateGizmoPlacement_SelectedComponents]
    exact SelectMultipleActors_Loop_nodup w l s b false h
  · exact SelectMultipleActors_Loop_nodup w l s b false h

theorem MulticastSetSelectedComponents_Implementation_SelectedComponents (w : World)
    (s : ATransformerPawn) (l : List (Option USceneComponent)) :
    (MulticastSetSelectedComponents_Implementation w s l).SelectedComponents =
      (SelectMultipleComponents w (DeselectAll w s false).1 l true).SelectedComponents := by
  unfold MulticastSetSelectedComponents_Implementation
  simp only
  split_ifs <;> rfl



/-! ## C3: no duplicates -/

/-- C3. No-duplicates invariant: if `SelectedComponents` has no duplicate, it has none after
`SelectComponent`, `SelectActor`, `SelectMultipleComponents`, `SelectMultipleActors`,
`DeselectComponent`, `DeselectAll` and `MulticastSetSelectedComponents`, for every argument
and either value of the toggle flag; with the toggle flag off, selecting in append mode a
target that is already selected leaves the list unchanged. -/
theorem C3_no_duplicates (w : World) (s : ATransformerPawn)
    (Component : Option USceneComponent) (Actor : Option AActor)
    (Components : List (Option USceneComponent)) (Actors : List (Option AActor))
    (bAppendToList bDestroyDeselected : Bool)
    (h : s.SelectedComponents.Nodup) :
    (SelectComponent w s Component bAppendToList).SelectedComponents.Nodup ∧
    (SelectActor w s Actor bAppendToList).SelectedComponents.Nodup ∧
    (SelectMultipleComponents w s Components bAppendToList).SelectedComponents.Nodup ∧
    (SelectMultipleActors w s Actors bAppendToList).SelectedComponents.Nodup ∧
    (DeselectComponent w s Component).SelectedComponents.Nodup ∧
    (DeselectAll w s bDestroyDeselected).1.SelectedComponents.Nodup ∧
    (MulticastSetSelectedComponents w s Components).SelectedComponents.Nodup ∧
    (s.bToggleSelectedInMultiSelection = false → Component ∈ s.SelectedComponents →
      (SelectComponent w s Component true).SelectedComponents = s.SelectedComponents) := by
  refine ⟨SelectComponent_nodup w s _ _ h, SelectActor_nodup w s _ _ h,
    SelectMultipleComponents_nodup w s _ _ h, SelectMultipleActors_nodup w s _ _ h,
    ?_, ?_, ?_, ?_⟩
  · rw [(DeselectComponent_spec w s Component).2]
    cases Component with
    | none => exact h
    | some c => exact eraseFirst_nodup _ _ h
  · rw [DeselectAll_SelectedComponents]
    exact List.nodup_nil
  · unfold MulticastSetSelectedComponents
    rw [MulticastSetSelectedComponents_Implementation_SelectedComponents]
    apply SelectMultipleComponents_nodup
    rw [DeselectAll_SelectedComponents]
    exact List.nodup_nil
  · intro ht hmem
    cases Component with
    | none => rfl
    | some c =>
      unfold SelectComponent
      by_cases h1 : w.ShouldSelect (w.GetOwner c) (some c) = true
      · simp only [h1, if_true, Bool.true_eq_false, if_false]
        rw [UpdateGizmoPlacement_SelectedComponents, (AddComponent_Internal_spec w _ _).2,
          toggleList_eq, ht, if_pos hmem]
        rfl
      · simp [h1]

/-- C3 on the example scene, for a pawn with the toggle flag off and the components 10 and
20 selected. -/
theorem C3_no_duplicates_witness :
    (selectedPawn false).SelectedComponents.Nodup ∧
    (SelectComponent exampleWorld (selectedPawn false) (some 20) true).SelectedComponents.Nodup ∧
    (SelectActor exampleWorld (selectedPawn false) (some 3) true).SelectedComponents.Nodup ∧
    (SelectMultipleComponents exampleWorld (selectedPawn false) [some 20, none, some 20, some 50]
      true).SelectedComponents.Nodup ∧
    (SelectMultipleActors exampleWorld (selectedPawn false) [some 3, some 3]
      true).SelectedComponents.Nodup ∧
    (DeselectComponent exampleWorld (selectedPawn false) (some 20)).SelectedComponents.Nodup ∧
    (DeselectAll exampleWorld (selectedPawn false) false).1.SelectedComponents.Nodup ∧
    (MulticastSetSelectedComponents exampleWorld (selectedPawn false)
      [some 20, none, some 20, some 50]).SelectedComponents.Nodup ∧
    (SelectComponent exampleWorld (selectedPawn false) (some 20) true).SelectedComponents =
      (selectedPawn false).SelectedComponents :=
  have h := C3_no_duplicates exampleWorld (selectedPawn false) (some 20) (some 3)
    [some 20, none, some 20, some 50] [some 3, some 3] true false (by decide)
  ⟨by decide, h.1, h.2.1, h.2.2.1, h.2.2.2.1, h.2.2.2.2.1, h.2.2.2.2.2.1, h.2.2.2.2.2.2.1,
    h.2.2.2.2.2.2.2 rfl (by decide)⟩


/-! ## The hook calls of the selection operations -/

theorem hookCalls_append (l1 l2 : List Event) :
    hookCalls (l1 ++ l2) = hookCalls l1 ++ hookCalls l2 := by
  simp [hookCalls]

theorem hookCalls_of_gizmo (l : List Event) (h : ∀ e ∈ l, Event.IsGizmoEvent e = true) :
    hookCalls l = [] := by
  unfold hookCalls
  rw [List.filter_eq_nil_iff]
  intro e he
  have := h e he
  cases e <;> simp_all [Event.IsGizmoEvent, Event.IsHookCall]

theorem UpdateGizmoPlacement_hookCalls (w : World) (s : ATransformerPawn) :
    hookCalls (UpdateGizmoPlacement w s).Log = hookCalls s.Log := by
  obtain ⟨g, l, h, hl⟩ := UpdateGizmoPlacement_shape w s
  rw [h]
  simp [hookCalls_append, hookCalls_of_gizmo l hl]

theorem GetUFocusable_congr (w : World) (s1 s2 : ATransformerPawn)
    (h : s2.bComponentBased = s1.bComponentBased) (c : Option USceneComponent) :
    GetUFocusable w s2 c = GetUFocusable w s1 c := by
  unfold GetUFocusable
  rw [h]

theorem DeselectComponent_hookCalls (w : World) (s : ATransformerPawn) (c : USceneComponent)
    (h : some c ∈ s.SelectedComponents) :
    hookCalls (DeselectComponent w s (some c)).Log =
      hookCalls s.Log ++ [Event.Deselect (some c) (GetUFocusable w s (some c))] := by
  obtain ⟨i, hi⟩ := TArray.Find_of_mem _ _ h
  simp only [DeselectComponent, DeselectComponent_Internal, hi, UpdateGizmoPlacement_hookCalls]
  rw [(DeselectComponentAtIndex_Internal_spec w s (some c) i hi).2.2.2]
  simp [hookCalls, Event.IsHookCall]

theorem eraseFirst_append_right {α : Type} [DecidableEq α] (l1 l2 : List α) (a : α)
    (h : a ∉ l1) : eraseFirst (l1 ++ a :: l2) a = l1 ++ l2 := by
  unfold eraseFirst
  rw [List.erase_append_right _ h, List.erase_cons_head]

theorem eraseFirst_append_nulls (nulls rest : List (Option USceneComponent))
    (c : USceneComponent) (hn : ∀ x ∈ nulls, x = none) :
    eraseFirst (nulls ++ some c :: rest) (some c) = nulls ++ rest :=
  eraseFirst_append_right nulls rest (some c) (fun h => by simpa using hn _ h)

theorem emit_Log (s : ATransformerPawn) (e : Event) : (s.emit e).Log = s.Log ++ [e] := rfl

/-- The loop of `DeselectAll`: every non-null entry of the copied list is passed to the
unfocus hook once, in list order. `nulls` are the null entries already passed over. -/
theorem foldl_DeselectComponent_hookCalls (w : World) (rest : List (Option USceneComponent))
    (nulls : List (Option USceneComponent)) (s : ATransformerPawn)
    (hs : s.SelectedComponents = nulls ++ rest) (hn : ∀ x ∈ nulls, x = none) :
    hookCalls (rest.foldl (fun st i => DeselectComponent w st i) s).Log =
      hookCalls s.Log ++
        (rest.filter Option.isSome).map (fun x => Event.Deselect x (GetUFocusable w s x)) := by
  induction rest generalizing nulls s with
  | nil => simp
  | cons x r ih =>
    cases x with
    | none =>
      rw [List.foldl_cons]
      have := ih (nulls ++ [none]) (DeselectComponent w s none) (by simpa using hs)
        (by
          intro y hy
          rcases List.mem_append.1 hy with h | h
          · exact hn y h
          · simpa using h)
      simpa [DeselectComponent] using this
    | some c =>
      have hmem : some c ∈ s.SelectedComponents := by rw [hs]; simp
      have hstep := DeselectComponent_spec w s (some c)
      have hsel : (DeselectComponent w s (some c)).SelectedComponents = nulls ++ r := by
        rw [hstep.2]
        simp only
        rw [hs, eraseFirst_append_nulls nulls r c hn]
      rw [List.foldl_cons, ih nulls (DeselectComponent w s (some c)) hsel hn,
        DeselectComponent_hookCalls w s c hmem]
      have hcongr : ∀ y, GetUFocusable w (DeselectComponent w s (some c)) y =
          GetUFocusable w s y :=
        fun y => GetUFocusable_congr w s _ hstep.1.bComponentBased y
      simp [hcongr]

theorem DeselectAll_false_hookCalls (w : World) (s : ATransformerPawn) :
    hookCalls (DeselectAll w s false).1.Log =
      hookCalls s.Log ++ (s.SelectedComponents.filter Option.isSome).map
        (fun x => Event.Deselect x (GetUFocusable w s x)) := by
  unfold DeselectAll
  simp only [Bool.false_eq_true, if_false, UpdateGizmoPlacement_hookCalls]
  exact foldl_DeselectComponent_hookCalls w s.SelectedComponents [] s rfl (by simp)

/-- C4. For every prior selection and every non-null target accepted by `ShouldSelect`,
`SelectComponent(target, false)` first clears the selection, passing every (non-null)
selected element to the deselect hook exactly once, in list order, and then adds the target
(one call of the select hook, after the deselect calls): `SelectedComponents` is exactly
`[target]` afterwards, also when the target was selected before. -/
theorem C4_select_replace (w : World) (s : ATransformerPawn) (target : USceneComponent)
    (hsel : w.ShouldSelect (w.GetOwner target) (some target) = true) :
    (SelectComponent w s (some target) false).SelectedComponents = [some target] ∧
    hookCalls (SelectComponent w s (some target) false).Log =
      hookCalls s.Log ++
        (s.SelectedComponents.filter Option.isSome).map
          (fun x => Event.Deselect x (GetUFocusable w s x)) ++
        [Event.Select (some target) (GetUFocusable w s (some target))] := by
  have hD := DeselectAll_SelectedComponents w s false
  have hL := DeselectAll_false_LocalStep w s
  simp only [SelectComponent, hsel, if_true, UpdateGizmoPlacement_SelectedComponents,
    UpdateGizmoPlacement_hookCalls]
  constructor
  · rw [(AddComponent_Internal_spec w _ _).2, hD, toggleList_eq]
    simp
  · have hf : TArray.Find (DeselectAll w s false).1.SelectedComponents (some target) = none := by
      rw [hD]; rfl
    simp only [AddComponent_Internal, hf, Select, emit_Log, hookCalls_append,
      DeselectAll_false_hookCalls, TArray.Last_append_singleton]
    rw [GetUFocusable_congr w s _ (by exact hL.bComponentBased)]
    simp [hookCalls, Event.IsHookCall]


/-- C4 on the example scene: component 20 is selected without append while 10 and 20 are
selected. -/
theorem C4_select_replace_witness :
    exampleWorld.ShouldSelect (exampleWorld.GetOwner 20) (some 20) = true ∧
    (SelectComponent exampleWorld (selectedPawn true) (some 20) false).SelectedComponents =
      [some 20] ∧
    hookCalls (SelectComponent exampleWorld (selectedPawn true) (some 20) false).Log =
      hookCalls (selectedPawn true).Log ++
        ((selectedPawn true).SelectedComponents.filter Option.isSome).map
          (fun x => Event.Deselect x (GetUFocusable exampleWorld (selectedPawn true) x)) ++
        [Event.Select (some 20) (GetUFocusable exampleWorld (selectedPawn true) (some 20))] :=
  ⟨by decide, C4_select_replace exampleWorld (selectedPawn true) 20 (by decide)⟩

/-! ## C5: `SelectMultipleComponents` without append -/

/-- C5 as stated fails: with the components `10` and `20` selected,
`SelectMultipleComponents(list, false)` with the empty list, or with a list holding only a
null entry and an entry refused by `ShouldSelect`, leaves both selected although they are
absent from the list. -/
theorem C5_empty_list_counterexample :
    (selectedPawn true).SelectedComponents = [some 10, some 20] ∧
    (SelectMultipleComponents exampleWorld (selectedPawn true) [] false).SelectedComponents =
      [some 10, some 20] ∧
    exampleWorld.ShouldSelect (exampleWorld.GetOwner 70) (some 70) = false ∧
    (SelectMultipleComponents exampleWorld (selectedPawn true) [none, some 70]
      false).SelectedComponents = [some 10, some 20] ∧
    some 10 ∉ [none, some 70] := by
  decide

theorem toggleList_subset {α : Type} [DecidableEq α] (b : Bool) (l : List α) (a x : α)
    (h : x ∈ toggleList b l a) : x ∈ l ∨ x = a := by
  rw [toggleList_eq] at h
  split_ifs at h
  · exact Or.inl (eraseFirst_subset l a h)
  · exact Or.inl h
  · simpa using h

theorem SelectMultipleComponents_Loop_subset (w : World) (l : List (Option USceneComponent))
    (s : ATransformerPawn) (bValid : Bool) (x : Option USceneComponent)
    (h : x ∈ (SelectMultipleComponents.Loop w s true bValid l).1.SelectedComponents) :
    x ∈ s.SelectedComponents ∨ x ∈ l := by
  induction l generalizing s bValid with
  | nil => exact Or.inl h
  | cons c rest ih =>
    cases c with
    | none =>
      rcases ih s bValid h with h1 | h1
      · exact Or.inl h1
      · exact Or.inr (List.mem_cons_of_mem _ h1)
    | some c0 =>
      by_cases h1 : w.ShouldSelect (w.GetOwner c0) (some c0) = true
      · simp only [SelectMultipleComponents.Loop, h1, if_true, Bool.true_eq_false,
          if_false] at h
        rcases ih _ _ h with h2 | h2
        · rw [(AddComponent_Internal_spec w _ _).2] at h2
          rcases toggleList_subset _ _ _ _ h2 with h3 | h3
          · exact Or.inl h3
          · exact Or.inr (by rw [h3]; exact List.mem_cons_self _ _)
        · exact Or.inr (List.mem_cons_of_mem _ h2)
      · simp only [SelectMultipleComponents.Loop, h1, if_false] at h
        rcases ih s bValid h with h2 | h2
        · exact Or.inl h2
        · exact Or.inr (List.mem_cons_of_mem _ h2)

/-- With an entry that gets selected, the loop without append is the loop with append on the
cleared selection. -/
theorem SelectMultipleComponents_Loop_clear (w : World) (l : List (Option USceneComponent))
    (s : ATransformerPawn) (bValid : Bool)
    (h : ∃ c, some c ∈ l ∧ w.ShouldSelect (w.GetOwner c) (some c) = true) :
    SelectMultipleComponents.Loop w s false bValid l =
      SelectMultipleComponents.Loop w (DeselectAll w s false).1 true bValid l := by
  induction l with
  | nil => simp at h
  | cons c rest ih =>
    cases c with
    | none =>
      simp only [SelectMultipleComponents.Loop]
      apply ih
      obtain ⟨c, hc, hs⟩ := h
      exact ⟨c, by simpa using hc, hs⟩
    | some c0 =>
      by_cases h1 : w.ShouldSelect (w.GetOwner c0) (some c0) = true
      · simp [SelectMultipleComponents.Loop, h1]
      · simp only [SelectMultipleComponents.Loop, h1, if_false]
        apply ih
        obtain ⟨c, hc, hs⟩ := h
        refine ⟨c, ?_, hs⟩
        rcases List.mem_cons.1 hc with h2 | h2
        · exact absurd (by rw [Option.some.inj h2] at hs; exact hs) h1
        · exact h2

/-- Without an entry that gets selected, the loop changes nothing. -/
theorem SelectMultipleComponents_Loop_skip (w : World) (l : List (Option USceneComponent))
    (s : ATransformerPawn) (bAppend bValid : Bool)
    (h : ∀ c, some c ∈ l → w.ShouldSelect (w.GetOwner c) (some c) = false) :
    SelectMultipleComponents.Loop w s bAppend bValid l = (s, bValid) := by
  induction l with
  | nil => rfl
  | cons c rest ih =>
    cases c with
    | none =>
      simp only [SelectMultipleComponents.Loop]
      exact ih (fun c hc => h c (List.mem_cons_of_mem _ hc))
    | some c0 =>
      simp only [SelectMultipleComponents.Loop, h c0 (List.mem_cons_self _ _)]
      exact ih (fun c hc => h c (List.mem_cons_of_mem _ hc))

/-- C5, amended. For every prior selection: when the list holds at least one non-null entry
accepted by `ShouldSelect`, `SelectMultipleComponents(list, false)` first clears the
selection and then adds (it is `SelectMultipleComponents(list, true)` on the cleared
selection), and afterwards every selected target is an entry of the list, so that no target
of the prior selection that is absent from the list remains selected; when the list holds no
such entry (the empty list, a list of null or refused entries) the call changes nothing. -/
theorem C5_select_multiple_replace (w : World) (s : ATransformerPawn)
    (Components : List (Option USceneComponent)) :
    ((∃ c, some c ∈ Components ∧ w.ShouldSelect (w.GetOwner c) (some c) = true) →
      SelectMultipleComponents w s Components false =
        SelectMultipleComponents w (DeselectAll w s false).1 Components true ∧
      ∀ x ∈ (SelectMultipleComponents w s Components false).SelectedComponents,
        x ∈ Components) ∧
    ((∀ c, some c ∈ Components → w.ShouldSelect (w.GetOwner c) (some c) = false) →
      SelectMultipleComponents w s Components false = s) := by
  constructor
  · intro h
    have heq : SelectMultipleComponents w s Components false =
        SelectMultipleComponents w (DeselectAll w s false).1 Components true := by
      unfold SelectMultipleComponents
      rw [SelectMultipleComponents_Loop_clear w Components s false h]
    refine ⟨heq, ?_⟩
    intro x hx
    rw [heq] at hx
    unfold SelectMultipleComponents at hx
    have hx2 : x ∈ (SelectMultipleComponents.Loop w (DeselectAll w s false).1 true false
        Components).1.SelectedComponents := by
      revert hx
      simp only
      split_ifs
      · rw [UpdateGizmoPlacement_SelectedComponents]; exact id
      · exact id
    rcases SelectMultipleComponents_Loop_subset w _ _ _ _ hx2 with h1 | h1
    · rw [DeselectAll_SelectedComponents] at h1
      simp at h1
    · exact h1
  · intro h
    unfold SelectMultipleComponents
    rw [SelectMultipleComponents_Loop_skip w Components s false false h]
    simp



/-- C5 (amended) on the example scene: a list with the selectable component 30, and a list
without selectable entry. -/
theorem C5_select_multiple_replace_witness :
    (∃ c, some c ∈ [none, some 70, some 30] ∧
      exampleWorld.ShouldSelect (exampleWorld.GetOwner c) (some c) = true) ∧
    (SelectMultipleComponents exampleWorld (selectedPawn true) [none, some 70, some 30] false =
        SelectMultipleComponents exampleWorld (DeselectAll exampleWorld (selectedPawn true) false).1
          [none, some 70, some 30] true ∧
      ∀ x ∈ (SelectMultipleComponents exampleWorld (selectedPawn true) [none, some 70, some 30]
          false).SelectedComponents, x ∈ [none, some 70, some 30]) ∧
    (∀ c, some c ∈ [none, some 70] →
      exampleWorld.ShouldSelect (exampleWorld.GetOwner c) (some c) = false) ∧
    SelectMultipleComponents exampleWorld (selectedPawn true) [none, some 70] false =
      selectedPawn true :=
  have h1 : ∃ c, some c ∈ [none, some 70, some 30] ∧
      exampleWorld.ShouldSelect (exampleWorld.GetOwner c) (some c) = true :=
    ⟨30, by decide, by decide⟩
  have h2 : ∀ c, some c ∈ [none, some 70] →
      exampleWorld.ShouldSelect (exampleWorld.GetOwner c) (some c) = false := by
    intro c hc
    have : c = 70 := by simpa using hc
    subst this
    decide
  ⟨h1,
    (C5_select_multiple_replace exampleWorld (selectedPawn true) [none, some 70, some 30]).1 h1,
    h2,
    (C5_select_multiple_replace exampleWorld (selectedPawn true) [none, some 70]).2 h2⟩

/-! ## C6: `DeselectAll` without destruction -/

theorem UpdateGizmoPlacement_Gizmo_of_empty (w : World) (s : ATransformerPawn)
    (h : s.SelectedComponents = []) : (UpdateGizmoPlacement w s).Gizmo = none := by
  have hg : (SetGizmo w s).Gizmo = none := by
    unfold SetGizmo
    simp only [h, List.length_nil, gt_iff_lt, lt_self_iff_false, if_false]
    split <;> simp_all [ATransformerPawn.emit]
  unfold UpdateGizmoPlacement
  simp only [hg]

theorem Event.not_IsDestroyTarget_of_IsLocal (e : Event) (h : Event.IsLocal e = true) :
    Event.IsDestroyTarget e = false := by
  cases e <;> simp_all [Event.IsLocal, Event.IsDestroyTarget]

/-- C6. For every selection state, `DeselectAll(false)` returns exactly the list that was
selected before the call, in the same order, leaves `SelectedComponents` empty and no gizmo
present, and destroys no target: the record of destroyed components and actors is unchanged
and none of the calls it makes is `DestroyComponent` or `Destroy` on a target. -/
theorem C6_deselect_all (w : World) (s : ATransformerPawn) :
    (DeselectAll w s false).2 = s.SelectedComponents ∧
    (DeselectAll w s false).1.SelectedComponents = [] ∧
    (DeselectAll w s false).1.Gizmo = none ∧
    (DeselectAll w s false).1.DestroyedComponents = s.DestroyedComponents ∧
    (DeselectAll w s false).1.DestroyedActors = s.DestroyedActors ∧
    ∃ l, (DeselectAll w s false).1.Log = s.Log ++ l ∧
      ∀ e ∈ l, Event.IsDestroyTarget e = false := by
  refine ⟨rfl, DeselectAll_SelectedComponents w s false, ?_, ?_⟩
  · unfold DeselectAll
    simp only [Bool.false_eq_true, if_false]
    exact UpdateGizmoPlacement_Gizmo_of_empty w _ rfl
  · obtain ⟨sel, g, l, h, hl⟩ := DeselectAll_false_LocalStep w s
    rw [h]
    exact ⟨rfl, rfl, l, rfl, fun e he => Event.not_IsDestroyTarget_of_IsLocal e (hl e he)⟩


/-! ## C7: gizmo lifecycle -/

theorem SetGizmo_Gizmo_of_empty (w : World) (s : ATransformerPawn)
    (h : s.SelectedComponents = []) : (SetGizmo w s).Gizmo = none := by
  unfold SetGizmo
  simp only [h, List.length_nil, gt_iff_lt, lt_self_iff_false, if_false]
  split <;> simp_all [ATransformerPawn.emit]

/-- A gizmo of the matching kind is kept: `SetGizmo` changes nothing. -/
theorem SetGizmo_keep (w : World) (s : ATransformerPawn) (g : ABaseGizmo)
    (hsel : s.SelectedComponents ≠ []) (hg : s.Gizmo = some g)
    (hk : s.CurrentTransformation = g.GizmoType) : SetGizmo w s = s := by
  rcases s with ⟨sel, giz, gp, ct, cd, cs, tc, rc, sc, adt, ndt, bt, bc, bi, br, rt, dc, da, lg,
    bfm, brl, btf, se, sv, ucc, cut, crf, mcr, scn⟩
  simp only at hsel hg hk
  subst hg
  have hlen : sel.length > 0 := List.length_pos.2 hsel
  simp [SetGizmo, hlen, hk]

/-- Without a gizmo of the matching kind, `SetGizmo` ends with the gizmo spawned from the
class of the current kind, or without gizmo when there is no such class. -/
theorem SetGizmo_Gizmo_create (w : World) (s : ATransformerPawn)
    (hsel : s.SelectedComponents ≠ [])
    (hg : ∀ g0, s.Gizmo = some g0 → s.CurrentTransformation ≠ g0.GizmoType)
    (hw : w.HasWorld = true) :
    (SetGizmo w s).Gizmo =
      (match GetGizmoClass s s.CurrentTransformation with
        | some cls => w.SpawnActor cls
        | none => none) := by
  rcases s with ⟨sel, giz, gp, ct, cd, cs, tc, rc, sc, adt, ndt, bt, bc, bi, br, rt, dc, da, lg,
    bfm, brl, btf, se, sv, ucc, cut, crf, mcr, scn⟩
  simp only at hsel hg
  have hlen : sel.length > 0 := List.length_pos.2 hsel
  rcases giz with _ | g0
  · simp only [SetGizmo, hlen, if_true, hw, GetGizmoClass, ATransformerPawn.emit]
    split
    · split <;> simp_all
    · rfl
  · have hne : ct ≠ g0.GizmoType := hg g0 rfl
    simp only [SetGizmo, hlen, if_true, hw, GetGizmoClass, ATransformerPawn.emit, hne,
      if_false]
    split
    · split <;> simp_all
    · rfl

theorem GetGizmoClass_of_configured (w : World) (s : ATransformerPawn)
    (h : GizmoClassesConfigured w s)
    (hk : s.CurrentTransformation ≠ ETransformationType.TT_NoTransform) :
    ∃ cls g, GetGizmoClass s s.CurrentTransformation = some cls ∧ w.SpawnActor cls = some g ∧
      g.GizmoType = s.CurrentTransformation := by
  obtain ⟨_, ⟨c1, g1, h1, h1', h1''⟩, ⟨c2, g2, h2, h2', h2''⟩, ⟨c3, g3, h3, h3', h3''⟩⟩ := h
  unfold GetGizmoClass
  cases hc : s.CurrentTransformation with
  | TT_NoTransform => exact absurd hc hk
  | TT_Translation => exact ⟨c1, g1, h1, h1', h1''⟩
  | TT_Rotation => exact ⟨c2, g2, h2, h2', h2''⟩
  | TT_Scale => exact ⟨c3, g3, h3, h3', h3''⟩

theorem SetGizmo_CurrentTransformation (w : World) (s : ATransformerPawn) :
    (SetGizmo w s).CurrentTransformation = s.CurrentTransformation := by
  obtain ⟨g, l, h, _⟩ := SetGizmo_shape w s
  rw [h]

theorem SetGizmo_lifecycle (w : World) (s : ATransformerPawn)
    (hcls : GizmoClassesConfigured w s)
    (hprior : ∀ g, s.Gizmo = some g → g.GizmoType ≠ ETransformationType.TT_NoTransform) :
    GizmoLifecycle (SetGizmo w s) := by
  have hw : w.HasWorld = true := hcls.1
  unfold GizmoLifecycle
  rw [SetGizmo_SelectedComponents, SetGizmo_CurrentTransformation]
  by_cases hsel : s.SelectedComponents = []
  · simp [SetGizmo_Gizmo_of_empty w s hsel, hsel]
  · by_cases hm : ∃ g0, s.Gizmo = some g0 ∧ s.CurrentTransformation = g0.GizmoType
    · obtain ⟨g0, hg0, hk0⟩ := hm
      rw [SetGizmo_keep w s g0 hsel hg0 hk0, hg0]
      have := hprior g0 hg0
      simp [hsel, hk0, this]
    · have hm2 : ∀ g0, s.Gizmo = some g0 → s.CurrentTransformation ≠ g0.GizmoType :=
        fun g0 h1 h2 => hm ⟨g0, h1, h2⟩
      rw [SetGizmo_Gizmo_create w s hsel hm2 hw]
      by_cases hk : s.CurrentTransformation = ETransformationType.TT_NoTransform
      · simp [GetGizmoClass, hk]
      · obtain ⟨cls, g, hc, hsp, hty⟩ := GetGizmoClass_of_configured w s hcls hk
        simp [hc, hsp, hsel, hk, hty]



theorem UpdateGizmoPlacement_Gizmo (w : World) (s : ATransformerPawn) :
    ((UpdateGizmoPlacement w s).Gizmo.isSome = (SetGizmo w s).Gizmo.isSome) ∧
    ∀ g2, (UpdateGizmoPlacement w s).Gizmo = some g2 →
      ∃ g, (SetGizmo w s).Gizmo = some g ∧ g2.GizmoType = g.GizmoType := by
  unfold UpdateGizmoPlacement
  cases hg : (SetGizmo w s).Gizmo with
  | none => simp [hg]
  | some g =>
    simp only [hg, Option.isSome_some, Option.some.injEq, true_and]
    intro g2 h2
    refine ⟨g, rfl, ?_⟩
    rw [← h2]
    split <;> rfl

theorem UpdateGizmoPlacement_CurrentTransformation (w : World) (s : ATransformerPawn) :
    (UpdateGizmoPlacement w s).CurrentTransformation = s.CurrentTransformation := by
  obtain ⟨g, l, h, _⟩ := UpdateGizmoPlacement_shape w s
  rw [h]

theorem UpdateGizmoPlacement_lifecycle (w : World) (s : ATransformerPawn)
    (hcls : GizmoClassesConfigured w s)
    (hprior : ∀ g, s.Gizmo = some g → g.GizmoType ≠ ETransformationType.TT_NoTransform) :
    GizmoLifecycle (UpdateGizmoPlacement w s) := by
  obtain ⟨h1, h2⟩ := SetGizmo_lifecycle w s hcls hprior
  obtain ⟨h3, h4⟩ := UpdateGizmoPlacement_Gizmo w s
  rw [SetGizmo_SelectedComponents, SetGizmo_CurrentTransformation] at h1
  rw [SetGizmo_CurrentTransformation] at h2
  unfold GizmoLifecycle
  rw [UpdateGizmoPlacement_SelectedComponents, UpdateGizmoPlacement_CurrentTransformation, h3]
  refine ⟨h1, ?_⟩
  intro g2 hg2
  obtain ⟨g, hg, hty⟩ := h4 g2 hg2
  rw [hty]
  exact h2 g hg

/-- C7. Gizmo lifecycle: assume that the world exists, that each of the three gizmo classes
is configured, spawns successfully and reports its own kind, and that a gizmo present before
the call has one of these kinds. Then after `SetGizmo` (and so after
`UpdateGizmoPlacement`, which ends every select and deselect operation, and after a
`SetTransformationType` that changes the kind) a gizmo exists if and only if the selection
is not empty and the current kind is translate, rotate or scale, and the kind of the
existing gizmo is `CurrentTransformation`; an existing gizmo of the matching kind is kept:
`SetGizmo` changes nothing, it neither destroys nor spawns a gizmo. The assumption on the
gizmo present before the call holds again afterwards. -/
theorem C7_gizmo_lifecycle (w : World) (s : ATransformerPawn)
    (TransformationType : ETransformationType)
    (hcls : GizmoClassesConfigured w s)
    (hprior : ∀ g, s.Gizmo = some g → g.GizmoType ≠ ETransformationType.TT_NoTransform) :
    (((SetGizmo w s).Gizmo.isSome = true ↔
        (SetGizmo w s).SelectedComponents ≠ [] ∧
          (SetGizmo w s).CurrentTransformation ≠ ETransformationType.TT_NoTransform) ∧
      ∀ g, (SetGizmo w s).Gizmo = some g →
        g.GizmoType = (SetGizmo w s).CurrentTransformation) ∧
    GizmoLifecycle (UpdateGizmoPlacement w s) ∧
    (TransformationType ≠ s.CurrentTransformation →
      GizmoLifecycle (SetTransformationType w s TransformationType)) ∧
    (s.SelectedComponents ≠ [] →
      (∃ g, s.Gizmo = some g ∧ g.GizmoType = s.CurrentTransformation) →
      SetGizmo w s = s) ∧
    (∀ g, (UpdateGizmoPlacement w s).Gizmo = some g →
      g.GizmoType ≠ ETransformationType.TT_NoTransform) := by
  refine ⟨SetGizmo_lifecycle w s hcls hprior, UpdateGizmoPlacement_lifecycle w s hcls hprior,
    ?_, ?_, ?_⟩
  · intro hT
    have hne : ¬ s.CurrentTransformation = TransformationType := fun e => hT e.symm
    simp only [SetTransformationType, hne, if_false]
    exact UpdateGizmoPlacement_lifecycle w _ hcls hprior
  · rintro hsel ⟨g, hg, hk⟩
    exact SetGizmo_keep w s g hsel hg hk.symm
  · intro g hg
    obtain ⟨h1, h2⟩ := UpdateGizmoPlacement_lifecycle w s hcls hprior
    rw [h2 g hg]
    exact (h1.1 (by rw [hg]; rfl)).2

/-- C7 on the example scene, for the pawn with two components selected and the translation
gizmo present. -/
theorem C7_gizmo_lifecycle_witness :
    GizmoClassesConfigured exampleWorld (selectedPawn true) ∧
    (∀ g, (selectedPawn true).Gizmo = some g →
      g.GizmoType ≠ ETransformationType.TT_NoTransform) ∧
    (((SetGizmo exampleWorld (selectedPawn true)).Gizmo.isSome = true ↔
        (SetGizmo exampleWorld (selectedPawn true)).SelectedComponents ≠ [] ∧
          (SetGizmo exampleWorld (selectedPawn true)).CurrentTransformation ≠
            ETransformationType.TT_NoTransform) ∧
      ∀ g, (SetGizmo exampleWorld (selectedPawn true)).Gizmo = some g →
        g.GizmoType = (SetGizmo exampleWorld (selectedPawn true)).CurrentTransformation) ∧
    GizmoLifecycle (UpdateGizmoPlacement exampleWorld (selectedPawn true)) ∧
    GizmoLifecycle
      (SetTransformationType exampleWorld (selectedPawn true) ETransformationType.TT_Rotation) ∧
    SetGizmo exampleWorld (selectedPawn true) = selectedPawn true ∧
    (∀ g, (UpdateGizmoPlacement exampleWorld (selectedPawn true)).Gizmo = some g →
      g.GizmoType ≠ ETransformationType.TT_NoTransform) :=
  have hcls : GizmoClassesConfigured exampleWorld (selectedPawn true) :=
    ⟨rfl, ⟨1, _, rfl, rfl, rfl⟩, ⟨2, _, rfl, rfl, rfl⟩, ⟨3, _, rfl, rfl, rfl⟩⟩
  have hg : (selectedPawn true).Gizmo =
      some ⟨101, ETransformationType.TT_Translation,
        [(1000, ETransformationDomain.TD_X_Axis), (1001, ETransformationDomain.TD_XY_Plane)],
        false, some 20, ESpaceType.ST_World⟩ := by decide
  have hprior : ∀ g, (selectedPawn true).Gizmo = some g →
      g.GizmoType ≠ ETransformationType.TT_NoTransform := by
    intro g h
    rw [hg] at h
    cases h
    decide
  have h := C7_gizmo_lifecycle exampleWorld (selectedPawn true)
    ETransformationType.TT_Rotation hcls hprior
  ⟨hcls, hprior, h.1, h.2.1, h.2.2.1 (by decide),
    h.2.2.2.1 (by decide) ⟨_, hg, by decide⟩, h.2.2.2.2⟩


/-! ## C8: gizmo priority in picking -/

theorem DomainStep.same (s : ATransformerPawn) : DomainStep s s :=
  ⟨s.CurrentDomain, s.Gizmo, s.AccumulatedDeltaTransform, by cases s; rfl⟩

theorem DomainStep.andThen {s1 s2 s3 : ATransformerPawn} (h12 : DomainStep s1 s2)
    (h23 : DomainStep s2 s3) : DomainStep s1 s3 := by
  obtain ⟨d, g, a, rfl⟩ := h12
  obtain ⟨d2, g2, a2, rfl⟩ := h23
  exact ⟨d2, g2, a2, rfl⟩

theorem DomainStep.SetDomain (s : ATransformerPawn) (d : ETransformationDomain) :
    DomainStep s (SetDomain s d) := by
  unfold RuntimeTransformer.SetDomain
  cases hg : s.Gizmo with
  | none => exact ⟨d, none, s.AccumulatedDeltaTransform, by cases s; simp_all⟩
  | some g => exact ⟨d, _, s.AccumulatedDeltaTransform, by cases s; simp_all; rfl⟩

theorem SetDomain_CurrentDomain (s : ATransformerPawn) (d : ETransformationDomain) :
    (SetDomain s d).CurrentDomain = d := by
  unfold SetDomain
  cases s.Gizmo <;> rfl

theorem SetDomain_Gizmo (s : ATransformerPawn) (d : ETransformationDomain) (g : ABaseGizmo)
    (hg : s.Gizmo = some g) :
    ∃ g2, (SetDomain s d).Gizmo = some g2 ∧ g2.Self = g.Self ∧ g2.DomainMap = g.DomainMap := by
  unfold SetDomain
  simp only [hg]
  exact ⟨_, rfl, rfl, rfl⟩

theorem DomainStep.ClearDomain (s : ATransformerPawn) : DomainStep s (ClearDomain s) := by
  unfold RuntimeTransformer.ClearDomain
  exact DomainStep.andThen
    ⟨s.CurrentDomain, s.Gizmo, ResetDeltaTransform s.AccumulatedDeltaTransform, by cases s; rfl⟩
    (DomainStep.SetDomain _ _)

theorem GetTransformationDomain_congr (g1 g2 : ABaseGizmo) (h : g1.DomainMap = g2.DomainMap)
    (c : USceneComponent) : g1.GetTransformationDomain c = g2.GetTransformationDomain c := by
  unfold ABaseGizmo.GetTransformationDomain
  rw [h]

/-- The first loop of `HandleTracedObjects`: it stops at the first hit on the gizmo with a
domain and takes that domain; without such a hit it falls through. -/
theorem GizmoLoop_spec (hits : List FHitResult) (s : ATransformerPawn) (g : ABaseGizmo)
    (hg : ∃ g1, s.Gizmo = some g1 ∧ g1.Self = g.Self ∧ g1.DomainMap = g.DomainMap) :
    DomainStep s (HandleTracedObjects.GizmoLoop s hits).1 ∧
    (∀ hit, hits.find? (IsGizmoDomainHit g) = some hit →
      (HandleTracedObjects.GizmoLoop s hits).2 = true ∧
      (HandleTracedObjects.GizmoLoop s hits).1.CurrentDomain = HitDomain g hit) ∧
    (hits.find? (IsGizmoDomainHit g) = none →
      (HandleTracedObjects.GizmoLoop s hits).2 = false ∧
      (s.CurrentDomain = ETransformationDomain.TD_None →
        (HandleTracedObjects.GizmoLoop s hits).1.CurrentDomain =
          ETransformationDomain.TD_None)) := by
  induction hits generalizing s with
  | nil =>
    refine ⟨DomainStep.same s, ?_, ?_⟩
    · intro hit h; simp at h
    · intro _; exact ⟨rfl, fun h => h⟩
  | cons hit rest ih =>
    obtain ⟨g1, hg1, hself, hmap⟩ := hg
    by_cases hact : hit.Actor = some g1.Self
    · cases hcomp : hit.Component with
      | none =>
        have hnot : IsGizmoDomainHit g hit = false := by simp [IsGizmoDomainHit, hcomp]
        have hloop : HandleTracedObjects.GizmoLoop s (hit :: rest) =
            HandleTracedObjects.GizmoLoop s rest := by
          simp [HandleTracedObjects.GizmoLoop, hg1, hact, hcomp]
        rw [hloop, List.find?_cons_of_neg _ (by simp [hnot])]
        exact ih s ⟨g1, hg1, hself, hmap⟩
      | some c =>
        have hdom : g1.GetTransformationDomain c = g.GetTransformationDomain c :=
          GetTransformationDomain_congr g1 g hmap c
        by_cases hd : g.GetTransformationDomain c = ETransformationDomain.TD_None
        · have hnot : IsGizmoDomainHit g hit = false := by
            simp [IsGizmoDomainHit, hcomp, hd]
          have hloop : HandleTracedObjects.GizmoLoop s (hit :: rest) =
              HandleTracedObjects.GizmoLoop
                (SetDomain s ETransformationDomain.TD_None) rest := by
            simp [HandleTracedObjects.GizmoLoop, hg1, hact, hcomp, hdom, hd,
              SetDomain_CurrentDomain]
          obtain ⟨g2, hg2, hs2, hm2⟩ := SetDomain_Gizmo s ETransformationDomain.TD_None g1 hg1
          obtain ⟨i1, i2, i3⟩ := ih (SetDomain s ETransformationDomain.TD_None)
            ⟨g2, hg2, hs2.trans hself, hm2.trans hmap⟩
          rw [hloop, List.find?_cons_of_neg _ (by simp [hnot])]
          refine ⟨(DomainStep.SetDomain _ _).andThen i1, i2, ?_⟩
          intro hn
          exact ⟨(i3 hn).1, fun _ => (i3 hn).2 (SetDomain_CurrentDomain _ _)⟩
        · have hyes : IsGizmoDomainHit g hit = true := by
            simp [IsGizmoDomainHit, hcomp, hd, hact, hself]
          have hne : (SetDomain s (g.GetTransformationDomain c)).CurrentDomain ≠
              ETransformationDomain.TD_None := by
            rw [SetDomain_CurrentDomain]; exact hd
          rw [List.find?_cons_of_pos _ hyes]
          simp only [HandleTracedObjects.GizmoLoop, hg1, hact, if_true, hcomp, hdom, hne,
            ne_eq, not_false_eq_true]
          refine ⟨(DomainStep.SetDomain _ _).andThen ⟨_, _, _, rfl⟩, ?_, ?_⟩
          · intro hit2 h2
            cases h2
            simp [SetDomain_CurrentDomain, HitDomain, hcomp]
          · intro h; cases h
    · have hnot : IsGizmoDomainHit g hit = false := by
        simp [IsGizmoDomainHit, ← hself, hact]
      have hloop : HandleTracedObjects.GizmoLoop s (hit :: rest) =
          HandleTracedObjects.GizmoLoop s rest := by
        simp [HandleTracedObjects.GizmoLoop, hg1, hact]
      rw [hloop, List.find?_cons_of_neg _ (by simp [hnot])]
      exact ih s ⟨g1, hg1, hself, hmap⟩



theorem DomainStep.SelectedComponents {s1 s2 : ATransformerPawn} (h : DomainStep s1 s2) :
    s2.SelectedComponents = s1.SelectedComponents := by
  obtain ⟨d, g, a, rfl⟩ := h
  rfl

theorem DomainStep.Log {s1 s2 : ATransformerPawn} (h : DomainStep s1 s2) :
    s2.Log = s1.Log := by
  obtain ⟨d, g, a, rfl⟩ := h
  rfl

theorem ClearDomain_CurrentDomain (s : ATransformerPawn) :
    (ClearDomain s).CurrentDomain = ETransformationDomain.TD_None := by
  unfold ClearDomain
  exact SetDomain_CurrentDomain _ _

theorem ClearDomain_Gizmo (s : ATransformerPawn) (g : ABaseGizmo) (hg : s.Gizmo = some g) :
    ∃ g2, (ClearDomain s).Gizmo = some g2 ∧ g2.Self = g.Self ∧ g2.DomainMap = g.DomainMap := by
  unfold ClearDomain
  exact SetDomain_Gizmo _ _ g hg

theorem ClearDomain_Gizmo_none (s : ATransformerPawn) (hg : s.Gizmo = none) :
    (ClearDomain s).Gizmo = none := by
  unfold ClearDomain SetDomain
  simp [hg]

/-- The second loop of `HandleTracedObjects`: the first hit that is not on a gizmo is
selected; without such a hit nothing happens. -/
theorem SelectLoop_spec (w : World) (s : ATransformerPawn) (bAppendToList : Bool)
    (hits : List FHitResult) :
    HandleTracedObjects.SelectLoop w s bAppendToList hits =
      (match hits.find? (fun h => !IsGizmoHit w h) with
        | some hit =>
          (if s.bComponentBased then SelectComponent w s hit.Component bAppendToList
            else SelectActor w s hit.Actor bAppendToList, true)
        | none => (s, false)) := by
  induction hits with
  | nil => rfl
  | cons hit rest ih =>
    by_cases hgz : IsGizmoHit w hit = true
    · have h1 : HandleTracedObjects.SelectLoop w s bAppendToList (hit :: rest) =
          HandleTracedObjects.SelectLoop w s bAppendToList rest := by
        unfold IsGizmoHit at hgz
        simp only [HandleTracedObjects.SelectLoop, hgz, if_true]
      rw [h1, ih, List.find?_cons_of_neg _ (by simp [hgz])]
    · have hgz2 : IsGizmoHit w hit = false := by simpa using hgz
      rw [List.find?_cons_of_pos _ (by simp [hgz2])]
      unfold IsGizmoHit at hgz2
      simp only [HandleTracedObjects.SelectLoop, hgz2, Bool.false_eq_true, if_false]
      split_ifs <;> rfl

/-- C8. Gizmo priority in picking: for every ordered hit list, if a gizmo is active and some
hit is on that gizmo with a hit region whose registered domain is not `TD_None`, then
`HandleTracedObjects` returns `true`, sets `CurrentDomain` to the domain of the first such hit
in list order and leaves `SelectedComponents` unchanged (no hook is called), whatever hits
come earlier in the list; when there is no such hit (or no gizmo), the domain is `TD_None`
and the first hit that is not on a gizmo is passed to `SelectComponent` or `SelectActor` with
the caller's append flag, the function returning `true`, or `false` when every hit is on a
gizmo. -/
theorem C8_gizmo_priority (w : World) (s : ATransformerPawn) (HitResults : List FHitResult)
    (bAppendToList : Bool) :
    (∀ g hit, s.Gizmo = some g → HitResults.find? (IsGizmoDomainHit g) = some hit →
      (HandleTracedObjects w s HitResults bAppendToList).2 = true ∧
      (HandleTracedObjects w s HitResults bAppendToList).1.CurrentDomain = HitDomain g hit ∧
      (HandleTracedObjects w s HitResults bAppendToList).1.SelectedComponents =
        s.SelectedComponents ∧
      (HandleTracedObjects w s HitResults bAppendToList).1.Log = s.Log) ∧
    ((∀ g, s.Gizmo = some g → HitResults.find? (IsGizmoDomainHit g) = none) →
      ∃ s1, DomainStep s s1 ∧ s1.CurrentDomain = ETransformationDomain.TD_None ∧
        HandleTracedObjects w s HitResults bAppendToList =
          (match HitResults.find? (fun h => !IsGizmoHit w h) with
            | some hit =>
              (if s1.bComponentBased then SelectComponent w s1 hit.Component bAppendToList
                else SelectActor w s1 hit.Actor bAppendToList, true)
            | none => (s1, false))) := by
  constructor
  · intro g hit hg hfind
    obtain ⟨g1, hg1, hself, hmap⟩ := ClearDomain_Gizmo s g hg
    obtain ⟨h1, h2, _⟩ := GizmoLoop_spec HitResults (ClearDomain s) g ⟨g1, hg1, hself, hmap⟩
    obtain ⟨h3, h4⟩ := h2 hit hfind
    have hstep := (DomainStep.ClearDomain s).andThen h1
    simp only [HandleTracedObjects, hg1, Option.isSome_some, if_true, h3]
    exact ⟨trivial, h4, hstep.SelectedComponents, hstep.Log⟩
  · intro hnone
    cases hg : s.Gizmo with
    | none =>
      refine ⟨ClearDomain s, DomainStep.ClearDomain s, ClearDomain_CurrentDomain s, ?_⟩
      simp only [HandleTracedObjects, ClearDomain_Gizmo_none s hg, Option.isSome_none,
        Bool.false_eq_true, if_false]
      exact SelectLoop_spec w _ _ _
    | some g =>
      obtain ⟨g1, hg1, hself, hmap⟩ := ClearDomain_Gizmo s g hg
      obtain ⟨h1, _, h3⟩ := GizmoLoop_spec HitResults (ClearDomain s) g ⟨g1, hg1, hself, hmap⟩
      obtain ⟨h4, h5⟩ := h3 (hnone g hg)
      refine ⟨(HandleTracedObjects.GizmoLoop (ClearDomain s) HitResults).1,
        (DomainStep.ClearDomain s).andThen h1, h5 (ClearDomain_CurrentDomain s), ?_⟩
      simp only [HandleTracedObjects, hg1, Option.isSome_some, if_true, h4,
        Bool.false_eq_true, if_false]
      exact SelectLoop_spec w _ _ _


/-- C8 on the example scene: a hit list in which another object and a gizmo region without
domain precede the XY-plane region of the gizmo, and a hit list without gizmo domain hit. -/
theorem C8_gizmo_priority_witness :
    (selectedPawn true).Gizmo = some exampleGizmo ∧
    [(⟨some 3, some 30⟩ : FHitResult), ⟨some 101, some 1002⟩, ⟨some 101, some 1001⟩,
      ⟨some 101, some 1000⟩].find? (IsGizmoDomainHit exampleGizmo) =
        some ⟨some 101, some 1001⟩ ∧
    ((HandleTracedObjects exampleWorld (selectedPawn true)
        [⟨some 3, some 30⟩, ⟨some 101, some 1002⟩, ⟨some 101, some 1001⟩,
          ⟨some 101, some 1000⟩] false).2 = true ∧
      (HandleTracedObjects exampleWorld (selectedPawn true)
        [⟨some 3, some 30⟩, ⟨some 101, some 1002⟩, ⟨some 101, some 1001⟩,
          ⟨some 101, some 1000⟩] false).1.CurrentDomain =
        HitDomain exampleGizmo ⟨some 101, some 1001⟩ ∧
      (HandleTracedObjects exampleWorld (selectedPawn true)
        [⟨some 3, some 30⟩, ⟨some 101, some 1002⟩, ⟨some 101, some 1001⟩,
          ⟨some 101, some 1000⟩] false).1.SelectedComponents =
        (selectedPawn true).SelectedComponents ∧
      (HandleTracedObjects exampleWorld (selectedPawn true)
        [⟨some 3, some 30⟩, ⟨some 101, some 1002⟩, ⟨some 101, some 1001⟩,
          ⟨some 101, some 1000⟩] false).1.Log = (selectedPawn true).Log) ∧
    (∀ g, (selectedPawn true).Gizmo = some g →
      [(⟨some 101, some 1002⟩ : FHitResult), ⟨some 3, some 30⟩].find? (IsGizmoDomainHit g) =
        none) ∧
    ∃ s1, DomainStep (selectedPawn true) s1 ∧
      s1.CurrentDomain = ETransformationDomain.TD_None ∧
      HandleTracedObjects exampleWorld (selectedPawn true)
          [⟨some 101, some 1002⟩, ⟨some 3, some 30⟩] false =
        (match [(⟨some 101, some 1002⟩ : FHitResult), ⟨some 3, some 30⟩].find?
            (fun h => !IsGizmoHit exampleWorld h) with
          | some hit =>
            (if s1.bComponentBased then SelectComponent exampleWorld s1 hit.Component false
              else SelectActor exampleWorld s1 hit.Actor false, true)
          | none => (s1, false)) :=
  have hg : (selectedPawn true).Gizmo = some exampleGizmo := by decide
  have hnone : ∀ g, (selectedPawn true).Gizmo = some g →
      [(⟨some 101, some 1002⟩ : FHitResult), ⟨some 3, some 30⟩].find? (IsGizmoDomainHit g) =
        none := by
    intro g h
    rw [hg] at h
    cases h
    decide
  ⟨hg, by decide,
    (C8_gizmo_priority exampleWorld (selectedPawn true)
      [⟨some 3, some 30⟩, ⟨some 101, some 1002⟩, ⟨some 101, some 1001⟩,
        ⟨some 101, some 1000⟩] false).1 exampleGizmo ⟨some 101, some 1001⟩ hg (by decide),
    hnone,
    (C8_gizmo_priority exampleWorld (selectedPawn true)
      [⟨some 101, some 1002⟩, ⟨some 3, some 30⟩] false).2 hnone⟩

/-! ## C9: a pointer trace that hits nothing -/

theorem HandleTracedObjects_false (w : World) (s : ATransformerPawn)
    (hits : List FHitResult) (b : Bool)
    (h : (HandleTracedObjects w s hits b).2 = false) :
    DomainStep s (HandleTracedObjects w s hits b).1 := by
  have hphase : DomainStep s
      (if (ClearDomain s).Gizmo.isSome then HandleTracedObjects.GizmoLoop (ClearDomain s) hits
        else (ClearDomain s, false)).1 := by
    cases hg : (ClearDomain s).Gizmo with
    | none => simpa [hg] using DomainStep.ClearDomain s
    | some g1 =>
      simp only [Option.isSome_some, if_true]
      exact (DomainStep.ClearDomain s).andThen
        (GizmoLoop_spec hits (ClearDomain s) g1 ⟨g1, hg, rfl, rfl⟩).1
  have key : ∀ r : ATransformerPawn × Bool, DomainStep s r.1 →
      (if r.2 then (r.1, true) else HandleTracedObjects.SelectLoop w r.1 b hits).2 = false →
      DomainStep s
        (if r.2 then (r.1, true) else HandleTracedObjects.SelectLoop w r.1 b hits).1 := by
    intro r hr h2
    cases hr2 : r.2 with
    | true => simp [hr2] at h2
    | false =>
      simp only [hr2, Bool.false_eq_true, if_false] at h2 ⊢
      rw [SelectLoop_spec] at h2 ⊢
      split at h2
      · simp at h2
      · rename_i hnone
        simp only [hnone]
        exact hr
  exact key _ hphase h

theorem TraceByObjectTypes_false (w : World) (s : ATransformerPawn) (a e : FVector)
    (cc : List ECollisionChannel) (ig : List AActor) (b : Bool)
    (h : (TraceByObjectTypes w s a e cc ig b).2 = false) :
    DomainStep s (TraceByObjectTypes w s a e cc ig b).1 := by
  unfold TraceByObjectTypes at h ⊢
  simp only at h ⊢
  split_ifs at h ⊢
  · exact HandleTracedObjects_false w s _ b h
  · exact DomainStep.same s
  · exact DomainStep.same s

theorem TraceByChannel_false (w : World) (s : ATransformerPawn) (a e : FVector)
    (cc : ECollisionChannel) (ig : List AActor) (b : Bool)
    (h : (TraceByChannel w s a e cc ig b).2 = false) :
    DomainStep s (TraceByChannel w s a e cc ig b).1 := by
  unfold TraceByChannel at h ⊢
  simp only at h ⊢
  split_ifs at h ⊢
  · exact HandleTracedObjects_false w s _ b h
  · exact DomainStep.same s
  · exact DomainStep.same s

theorem TraceByProfile_false (w : World) (s : ATransformerPawn) (a e : FVector)
    (pn : FName) (ig : List AActor) (b : Bool)
    (h : (TraceByProfile w s a e pn ig b).2 = false) :
    DomainStep s (TraceByProfile w s a e pn ig b).1 := by
  unfold TraceByProfile at h ⊢
  simp only at h ⊢
  split_ifs at h ⊢
  · exact HandleTracedObjects_false w s _ b h
  · exact DomainStep.same s
  · exact DomainStep.same s

theorem serverCalls_of_local (l : List Event) (h : ∀ e ∈ l, Event.IsLocal e = true) :
    serverCalls l = [] := by
  unfold serverCalls
  rw [List.filterMap_eq_nil_iff]
  intro e he
  have := h e he
  cases e <;> simp_all [Event.IsLocal]

/-- `ServerDeselectAll(false)`: one request is recorded; on the authority the selection is
cleared at once, without destruction. -/
theorem ServerDeselectAll_false_spec (w : World) (t : ATransformerPawn) :
    DeselectAllIssued w t (ServerDeselectAll w t false) := by
  unfold DeselectAllIssued ServerDeselectAll
  by_cases ha : w.IsAuthority = true
  · simp only [ha, ServerDeselectAll_Validate, Bool.and_self, if_true,
      ServerDeselectAll_Implementation, MulticastDeselectAll,
      MulticastDeselectAll_Implementation]
    obtain ⟨sel, g, l, h, hl⟩ := DeselectAll_false_LocalStep w
      ((t.emit (Event.Server (ServerCall.ServerDeselectAll false))).emit
        (Event.Multicast (MulticastCall.MulticastDeselectAll false)))
    refine ⟨[Event.Server (ServerCall.ServerDeselectAll false),
      Event.Multicast (MulticastCall.MulticastDeselectAll false)] ++ l, ?_, ?_, ?_, ?_⟩
    · rw [h]; simp [ATransformerPawn.emit]
    · have := serverCalls_of_local l hl
      simp only [serverCalls] at this ⊢
      simp [List.filterMap_append, this]
    · intro e he
      rcases List.mem_append.1 he with h1 | h1
      · simp only [List.mem_cons, List.mem_singleton, List.not_mem_nil, or_false] at h1
        rcases h1 with rfl | rfl <;> rfl
      · exact Event.not_IsDestroyTarget_of_IsLocal e (hl e h1)
    · intro _
      exact DeselectAll_SelectedComponents w _ false
  · simp only [ha, Bool.false_and, Bool.false_eq_true, if_false]
    refine ⟨[Event.Server (ServerCall.ServerDeselectAll false)], rfl, rfl, ?_, ?_⟩
    · intro e he
      simp only [List.mem_singleton] at he
      subst he
      rfl
    · intro h; exact h.elim



theorem DeselectAllIssued_of_DomainStep (w : World) (s t : ATransformerPawn)
    (h : DomainStep s t) : DeselectAllIssued w s (ServerDeselectAll w t false) := by
  obtain ⟨l, h1, h2, h3, h4⟩ := ServerDeselectAll_false_spec w t
  exact ⟨l, by rw [h1, h.Log], h2, h3, h4⟩

/-- C9. For each of `MouseTraceByObjectTypes`, `MouseTraceByChannel` and `MouseTraceByProfile`,
when a pointer ray is available and the trace is not successful: without append exactly one
request `ServerDeselectAll(false)` is issued and nothing is destroyed (on the authority the
selection is empty after the call; wherever the request and its broadcast are carried out,
`ServerDeselectAll_Implementation(false)` and `MulticastDeselectAll_Implementation(false)`
leave the selection empty); with append the selection is left unchanged and nothing is
issued. -/
theorem C9_trace_miss (w : World) (s s2 : ATransformerPawn) (TraceDistance : ℚ)
    (CollisionChannels : List ECollisionChannel) (TraceChannel : ECollisionChannel)
    (ProfileName : FName) (IgnoredActors : List AActor) (start end_ : FVector)
    (hray : GetMouseStartEndPoints w TraceDistance = some (start, end_)) :
    ((TraceByObjectTypes w s start end_ CollisionChannels IgnoredActors false).2 = false →
      DeselectAllIssued w s
        (MouseTraceByObjectTypes w s TraceDistance CollisionChannels IgnoredActors false).1) ∧
    ((TraceByObjectTypes w s start end_ CollisionChannels IgnoredActors true).2 = false →
      (MouseTraceByObjectTypes w s TraceDistance CollisionChannels IgnoredActors
          true).1.SelectedComponents = s.SelectedComponents ∧
      (MouseTraceByObjectTypes w s TraceDistance CollisionChannels IgnoredActors
          true).1.Log = s.Log) ∧
    ((TraceByChannel w s start end_ TraceChannel IgnoredActors false).2 = false →
      DeselectAllIssued w s
        (MouseTraceByChannel w s TraceDistance TraceChannel IgnoredActors false).1) ∧
    ((TraceByChannel w s start end_ TraceChannel IgnoredActors true).2 = false →
      (MouseTraceByChannel w s TraceDistance TraceChannel IgnoredActors
          true).1.SelectedComponents = s.SelectedComponents ∧
      (MouseTraceByChannel w s TraceDistance TraceChannel IgnoredActors true).1.Log = s.Log) ∧
    ((TraceByProfile w s start end_ ProfileName IgnoredActors false).2 = false →
      DeselectAllIssued w s
        (MouseTraceByProfile w s TraceDistance ProfileName IgnoredActors false).1) ∧
    ((TraceByProfile w s start end_ ProfileName IgnoredActors true).2 = false →
      (MouseTraceByProfile w s TraceDistance ProfileName IgnoredActors
          true).1.SelectedComponents = s.SelectedComponents ∧
      (MouseTraceByProfile w s TraceDistance ProfileName IgnoredActors true).1.Log = s.Log) ∧
    (ServerDeselectAll_Implementation w s2 false).SelectedComponents = [] ∧
    (MulticastDeselectAll_Implementation w s2 false).SelectedComponents = [] := by
  refine ⟨?_, ?_, ?_, ?_, ?_, ?_, ?_, DeselectAll_SelectedComponents w s2 false⟩
  · intro h
    simp only [MouseTraceByObjectTypes, hray, h, Bool.not_false, Bool.and_self, if_true]
    exact DeselectAllIssued_of_DomainStep w s _ (TraceByObjectTypes_false w s _ _ _ _ _ h)
  · intro h
    have hstep := TraceByObjectTypes_false w s _ _ _ _ _ h
    simp only [MouseTraceByObjectTypes, hray, h, Bool.not_false, Bool.not_true, Bool.and_false,
      Bool.false_eq_true, if_false]
    exact ⟨hstep.SelectedComponents, hstep.Log⟩
  · intro h
    simp only [MouseTraceByChannel, hray, h, Bool.not_false, Bool.and_self, if_true]
    exact DeselectAllIssued_of_DomainStep w s _ (TraceByChannel_false w s _ _ _ _ _ h)
  · intro h
    have hstep := TraceByChannel_false w s _ _ _ _ _ h
    simp only [MouseTraceByChannel, hray, h, Bool.not_false, Bool.not_true, Bool.and_false,
      Bool.false_eq_true, if_false]
    exact ⟨hstep.SelectedComponents, hstep.Log⟩
  · intro h
    simp only [MouseTraceByProfile, hray, h, Bool.not_false, Bool.and_self, if_true]
    exact DeselectAllIssued_of_DomainStep w s _ (TraceByProfile_false w s _ _ _ _ _ h)
  · intro h
    have hstep := TraceByProfile_false w s _ _ _ _ _ h
    simp only [MouseTraceByProfile, hray, h, Bool.not_false, Bool.not_true, Bool.and_false,
      Bool.false_eq_true, if_false]
    exact ⟨hstep.SelectedComponents, hstep.Log⟩
  · simp only [ServerDeselectAll_Implementation, MulticastDeselectAll,
      MulticastDeselectAll_Implementation]
    exact DeselectAll_SelectedComponents w _ false

/-- C9 on the scene in which no ray cast hits anything, with two components selected. -/
theorem C9_trace_miss_witness :
    GetMouseStartEndPoints emptyTraceWorld 100 =
      some (⟨0, 0, 0⟩, FVector.add ⟨0, 0, 0⟩ (FVector.smul 100 ⟨1, 0, 0⟩)) ∧
    (TraceByObjectTypes emptyTraceWorld (selectedPawn true) ⟨0, 0, 0⟩
      (FVector.add ⟨0, 0, 0⟩ (FVector.smul 100 ⟨1, 0, 0⟩)) [1] [] false).2 = false ∧
    DeselectAllIssued emptyTraceWorld (selectedPawn true)
      (MouseTraceByObjectTypes emptyTraceWorld (selectedPawn true) 100 [1] [] false).1 ∧
    (MouseTraceByObjectTypes emptyTraceWorld (selectedPawn true) 100 [1] []
      true).1.SelectedComponents = (selectedPawn true).SelectedComponents ∧
    DeselectAllIssued emptyTraceWorld (selectedPawn true)
      (MouseTraceByChannel emptyTraceWorld (selectedPawn true) 100 1 [] false).1 ∧
    (MouseTraceByChannel emptyTraceWorld (selectedPawn true) 100 1 []
      true).1.SelectedComponents = (selectedPawn true).SelectedComponents ∧
    DeselectAllIssued emptyTraceWorld (selectedPawn true)
      (MouseTraceByProfile emptyTraceWorld (selectedPawn true) 100 1 [] false).1 ∧
    (MouseTraceByProfile emptyTraceWorld (selectedPawn true) 100 1 []
      true).1.SelectedComponents = (selectedPawn true).SelectedComponents ∧
    (ServerDeselectAll_Implementation emptyTraceWorld (selectedPawn true)
      false).SelectedComponents = [] ∧
    (MulticastDeselectAll_Implementation emptyTraceWorld (selectedPawn true)
      false).SelectedComponents = [] :=
  have h := C9_trace_miss emptyTraceWorld (selectedPawn true) (selectedPawn true) 100 [1] 1 1 []
    ⟨0, 0, 0⟩ (FVector.add ⟨0, 0, 0⟩ (FVector.smul 100 ⟨1, 0, 0⟩)) rfl
  ⟨rfl, rfl, h.1 rfl, (h.2.1 rfl).1, h.2.2.1 rfl, (h.2.2.2.1 rfl).1, h.2.2.2.2.1 rfl,
    (h.2.2.2.2.2.1 rfl).1, h.2.2.2.2.2.2⟩


/-! ## C10: reset of the accumulated delta -/

theorem SetDomain_AccumulatedDeltaTransform (s : ATransformerPawn)
    (d : ETransformationDomain) :
    (SetDomain s d).AccumulatedDeltaTransform = s.AccumulatedDeltaTransform := by
  unfold SetDomain
  cases s.Gizmo <;> rfl

theorem UpdateGizmoPlacement_AccumulatedDeltaTransform (w : World) (s : ATransformerPawn) :
    (UpdateGizmoPlacement w s).AccumulatedDeltaTransform = s.AccumulatedDeltaTransform := by
  obtain ⟨g, l, h, _⟩ := UpdateGizmoPlacement_shape w s
  rw [h]

/-- C10. `AccumulatedDeltaTransform` is reset to identity-with-zero-scale (identity rotation,
zero translation, zero scale), whatever its prior value, by `ClearDomain`, which also sets
`CurrentDomain` to `TD_None` so that `GetCurrentDomain` reports no transform in progress, and
by every `SetTransformationType` that changes the transformation kind. -/
theorem C10_accumulated_reset (w : World) (s : ATransformerPawn)
    (TransformationType : ETransformationType) :
    (ClearDomain s).AccumulatedDeltaTransform =
      ⟨FQuat.Identity, FVector.ZeroVector, FVector.ZeroVector⟩ ∧
    (ClearDomain s).CurrentDomain = ETransformationDomain.TD_None ∧
    GetCurrentDomain (ClearDomain s) = (ETransformationDomain.TD_None, false) ∧
    (TransformationType ≠ s.CurrentTransformation →
      (SetTransformationType w s TransformationType).AccumulatedDeltaTransform =
        ⟨FQuat.Identity, FVector.ZeroVector, FVector.ZeroVector⟩ ∧
      (SetTransformationType w s TransformationType).CurrentTransformation =
        TransformationType) := by
  refine ⟨?_, ClearDomain_CurrentDomain s, ?_, ?_⟩
  · unfold ClearDomain
    rw [SetDomain_AccumulatedDeltaTransform]
    rfl
  · unfold GetCurrentDomain
    rw [ClearDomain_CurrentDomain]
    rfl
  · intro hT
    have hne : ¬ s.CurrentTransformation = TransformationType := fun e => hT e.symm
    simp only [SetTransformationType, hne, if_false,
      UpdateGizmoPlacement_AccumulatedDeltaTransform,
      UpdateGizmoPlacement_CurrentTransformation, and_true]
    rfl

/-- C10 on a pawn in the middle of a gesture, with a non-trivial accumulated delta. -/
theorem C10_accumulated_reset_witness :
    ETransformationType.TT_Scale ≠ driftedPawn.CurrentTransformation ∧
    driftedPawn.AccumulatedDeltaTransform ≠
      ⟨FQuat.Identity, FVector.ZeroVector, FVector.ZeroVector⟩ ∧
    (ClearDomain driftedPawn).AccumulatedDeltaTransform =
      ⟨FQuat.Identity, FVector.ZeroVector, FVector.ZeroVector⟩ ∧
    (ClearDomain driftedPawn).CurrentDomain = ETransformationDomain.TD_None ∧
    GetCurrentDomain (ClearDomain driftedPawn) = (ETransformationDomain.TD_None, false) ∧
    (SetTransformationType exampleWorld driftedPawn
        ETransformationType.TT_Scale).AccumulatedDeltaTransform =
      ⟨FQuat.Identity, FVector.ZeroVector, FVector.ZeroVector⟩ ∧
    (SetTransformationType exampleWorld driftedPawn
        ETransformationType.TT_Scale).CurrentTransformation = ETransformationType.TT_Scale :=
  have h := C10_accumulated_reset exampleWorld driftedPawn ETransformationType.TT_Scale
  ⟨by decide, by decide, h.1, h.2.1, h.2.2.1, h.2.2.2 (by decide)⟩


/-! ## Applying a delta transform -/

theorem TransformStep.unchanged (s : ATransformerPawn) : TransformStep s s :=
  ⟨s.SceneState.ComponentTransform, s.SceneState.Mobility, [], by rw [List.append_nil]⟩

theorem TransformStep.chain {s1 s2 s3 : ATransformerPawn} (h12 : TransformStep s1 s2)
    (h23 : TransformStep s2 s3) : TransformStep s1 s3 := by
  obtain ⟨ct, mob, l, rfl⟩ := h12
  obtain ⟨ct2, mob2, l2, rfl⟩ := h23
  exact ⟨ct2, mob2, l ++ l2, by simp only [List.append_assoc]⟩

theorem setTransformTargets_append (l1 l2 : List Event) :
    setTransformTargets (l1 ++ l2) = setTransformTargets l1 ++ setTransformTargets l2 := by
  simp only [setTransformTargets, List.filterMap_append]

/-- What `SetTransform` does to a valid component after its mobility was set. -/
theorem SetTransform_SetMobility (w : World) (s : ATransformerPawn) (c : USceneComponent)
    (T : FTransform) :
    ∃ f b ct, SetTransform w (SetMobility s c EComponentMobility.Movable) (some c) T =
      { s with
        SceneState :=
          { s.SceneState with
            ComponentTransform := ct
            Mobility := fun x =>
              if x = c then EComponentMobility.Movable else s.SceneState.Mobility x }
        Log := s.Log ++ [Event.SetTransform c T f b] } ∧
      (∀ x, x ≠ c → ct x = s.SceneState.ComponentTransform x) ∧
      (b = true → ct c = T) ∧
      (b = false → ct c = s.SceneState.ComponentTransform c) ∧
      f = GetUFocusable w s (some c) ∧
      (b = false ↔ (f.isSome = true ∧ s.bTransformUFocusableObjects = false)) := by
  have hf : GetUFocusable w (SetMobility s c EComponentMobility.Movable) (some c) =
      GetUFocusable w s (some c) := rfl
  unfold SetTransform
  simp only [hf]
  cases hfo : GetUFocusable w s (some c) with
  | none =>
    refine ⟨none, true, fun x => if x = c then T else s.SceneState.ComponentTransform x,
      rfl, ?_, ?_, ?_, rfl, ?_⟩
    · intro x hx; simp only [hx, if_false]
    · intro _; simp only [if_true]
    · intro h; cases h
    · simp
  | some fo =>
    by_cases hb : s.bTransformUFocusableObjects = true
    · refine ⟨some fo, true, fun x => if x = c then T else s.SceneState.ComponentTransform x,
        ?_, ?_, ?_, ?_, rfl, ?_⟩
      · have hb2 : (SetMobility s c EComponentMobility.Movable).bTransformUFocusableObjects
            = true := hb
        simp only [hb2, if_true]
        rfl
      · intro x hx; simp only [hx, if_false]
      · intro _; simp only [if_true]
      · intro h; cases h
      · simp [hb]
    · have hb1 : s.bTransformUFocusableObjects = false := by
        cases h : s.bTransformUFocusableObjects
        · rfl
        · exact absurd h hb
      refine ⟨some fo, false, s.SceneState.ComponentTransform, ?_, ?_, ?_, ?_, rfl, ?_⟩
      · have hb2 : (SetMobility s c EComponentMobility.Movable).bTransformUFocusableObjects
            = false := hb1
        simp only [hb2, Bool.false_eq_true, if_false]
        rfl
      · intro x _; rfl
      · intro h; cases h
      · intro _; rfl
      · simp [hb1]


theorem ApplyDeltaTransform.Step_skip (w : World) (D : FTransform) (snap : Option ℚ)
    (s : ATransformerPawn) (c : USceneComponent) (h : MayTransform s c = false) :
    ApplyDeltaTransform.Step w D snap s (some c) = some s := by
  unfold MayTransform at h
  simp only [ApplyDeltaTransform.Step, h, Bool.false_eq_true, if_false]

theorem ApplyDeltaTransform.Step_apply (w : World) (D : FTransform) (snap : Option ℚ)
    (s : ATransformerPawn) (c : USceneComponent) (g : ABaseGizmo) (hg : s.Gizmo = some g)
    (h : MayTransform s c = true) :
    ApplyDeltaTransform.Step w D snap s (some c) =
      some (SetTransform w (SetMobility s c EComponentMobility.Movable) (some c)
        (match snap with
        | some snappingValue =>
          w.GetSnappedTransformPerComponent g (s.SceneState.ComponentTransform c)
            (ApplyDeltaTransform.NewTransform s g D (s.SceneState.ComponentTransform c))
            s.CurrentDomain snappingValue
        | none => ApplyDeltaTransform.NewTransform s g D (s.SceneState.ComponentTransform c))) := by
  unfold MayTransform at h
  simp only [ApplyDeltaTransform.Step, h, if_true, hg]

/-- One iteration with a valid gizmo: it completes, calls `SetTransform` on the entry exactly
when the entry is valid and passes the mobility test, makes such an entry movable and leaves
every other component as it was. -/
theorem ApplyDeltaTransform.Step_spec (w : World) (D : FTransform) (snap : Option ℚ)
    (s : ATransformerPawn) (sc : Option USceneComponent) (g : ABaseGizmo)
    (hg : s.Gizmo = some g) :
    ∃ s1, ApplyDeltaTransform.Step w D snap s sc = some s1 ∧ TransformStep s s1 ∧
      setTransformTargets s1.Log =
        setTransformTargets s.Log ++ (sc.toList.filter (MayTransform s)) ∧
      (∀ x, s1.SceneState.Mobility x =
        if sc = some x ∧ MayTransform s x = true then EComponentMobility.Movable
        else s.SceneState.Mobility x) ∧
      (∀ x, sc ≠ some x ∨ MayTransform s x = false →
        s1.SceneState.ComponentTransform x = s.SceneState.ComponentTransform x) := by
  cases sc with
  | none =>
    refine ⟨s, rfl, TransformStep.unchanged s, ?_, ?_, ?_⟩
    · simp
    · intro x; simp
    · intro x _; rfl
  | some c =>
    by_cases h : MayTransform s c = true
    · rw [ApplyDeltaTransform.Step_apply w D snap s c g hg h]
      obtain ⟨f, b, ct, heq, hct, _, hctf, _, _⟩ := SetTransform_SetMobility w s c
        (match snap with
        | some snappingValue =>
          w.GetSnappedTransformPerComponent g (s.SceneState.ComponentTransform c)
            (ApplyDeltaTransform.NewTransform s g D (s.SceneState.ComponentTransform c))
            s.CurrentDomain snappingValue
        | none => ApplyDeltaTransform.NewTransform s g D (s.SceneState.ComponentTransform c))
      rw [heq]
      refine ⟨_, rfl, ⟨_, _, _, rfl⟩, ?_, ?_, ?_⟩
      · simp only [setTransformTargets_append, Option.toList, List.filter, h]
        rfl
      · intro x
        by_cases hx : x = c
        · subst hx; simp [h]
        · have : ¬ (some c = some x) := fun e => hx (Option.some.inj e).symm
          simp [hx, this]
      · intro x hx
        by_cases hxc : x = c
        · subst hxc
          rcases hx with hx | hx
          · exact absurd rfl hx
          · rw [hx] at h; cases h
        · exact hct x hxc
    · have h0 : MayTransform s c = false := by
        cases hm : MayTransform s c
        · rfl
        · exact absurd hm h
      rw [ApplyDeltaTransform.Step_skip w D snap s c h0]
      refine ⟨s, rfl, TransformStep.unchanged s, ?_, ?_, ?_⟩
      · simp [Option.toList, List.filter, h0]
      · intro x
        by_cases hx : some c = some x
        · have : x = c := (Option.some.inj hx).symm
          subst this; simp [h0]
        · simp [hx]
      · intro x _; rfl

theorem MayTransform_congr (s s1 : ATransformerPawn)
    (hf : s1.bForceMobility = s.bForceMobility)
    (hm : ∀ x, s1.SceneState.Mobility x = s.SceneState.Mobility x ∨
      (MayTransform s x = true ∧ s1.SceneState.Mobility x = EComponentMobility.Movable))
    (x : USceneComponent) : MayTransform s1 x = MayTransform s x := by
  rcases hm x with h | ⟨h1, h2⟩
  · unfold MayTransform; rw [hf, h]
  · rw [h1]; unfold MayTransform; rw [h2]; simp

/-- The loop with a valid gizmo: it runs to the end of the list, calls `SetTransform` on the
valid entries that pass the mobility test, in order, and changes no component that fails
it. -/
theorem ApplyDeltaTransform.Loop_spec (w : World) (D : FTransform) (snap : Option ℚ)
    (l : List (Option USceneComponent)) :
    ∀ (s : ATransformerPawn) (g : ABaseGizmo), s.Gizmo = some g →
    ∃ s1, ApplyDeltaTransform.Loop w D snap s l = some s1 ∧ TransformStep s s1 ∧
      setTransformTargets s1.Log =
        setTransformTargets s.Log ++ ((l.filterMap id).filter (MayTransform s)) ∧
      (∀ x, s1.SceneState.Mobility x =
        if some x ∈ l ∧ MayTransform s x = true then EComponentMobility.Movable
        else s.SceneState.Mobility x) ∧
      (∀ x, some x ∉ l ∨ MayTransform s x = false →
        s1.SceneState.ComponentTransform x = s.SceneState.ComponentTransform x) := by
  induction l with
  | nil =>
    intro s g _
    refine ⟨s, rfl, TransformStep.unchanged s, ?_, ?_, ?_⟩
    · simp
    · intro x; simp
    · intro x _; rfl
  | cons sc rest ih =>
    intro s g hg
    obtain ⟨s1, hstep, hts, hlog, hmob, hct⟩ := ApplyDeltaTransform.Step_spec w D snap s sc g hg
    have hg1 : s1.Gizmo = some g := by
      obtain ⟨ct, mob, l, rfl⟩ := hts; exact hg
    have hf1 : s1.bForceMobility = s.bForceMobility := by
      obtain ⟨ct, mob, l, rfl⟩ := hts; rfl
    have hmay : ∀ x, MayTransform s1 x = MayTransform s x := by
      refine MayTransform_congr s s1 hf1 ?_
      intro x
      rw [hmob x]
      by_cases hx : sc = some x ∧ MayTransform s x = true
      · right; simp only [hx, and_self, if_true]
      · left; simp only [hx, if_false]
    obtain ⟨s2, hloop, hts2, hlog2, hmob2, hct2⟩ := ih s1 g hg1
    refine ⟨s2, ?_, TransformStep.chain hts hts2, ?_, ?_, ?_⟩
    · simp only [ApplyDeltaTransform.Loop, hstep, hloop]
    · rw [hlog2, hlog, List.append_assoc]
      congr 1
      have hfe : (List.filterMap id rest).filter (MayTransform s1) =
          (List.filterMap id rest).filter (MayTransform s) :=
        List.filter_congr (fun x _ => hmay x)
      rw [hfe]
      cases sc with
      | none => simp
      | some c =>
        simp only [List.filterMap_cons, id, Option.toList, List.filter_cons, List.filter_nil]
        split <;> rfl
    · intro x
      rw [hmob2 x, hmob x, hmay x]
      by_cases hm : MayTransform s x = true
      · by_cases h1 : some x ∈ rest
        · simp [h1, hm]
        · by_cases h2 : sc = some x
          · simp [h1, h2, hm]
          · have h3 : ¬ (some x = sc) := fun e => h2 e.symm
            simp [h1, h2, h3, hm]
      · simp [hm]
    · intro x hx
      have hx1 : some x ∉ rest ∨ MayTransform s1 x = false := by
        rcases hx with hx | hx
        · left; exact fun h => hx (List.mem_cons_of_mem _ h)
        · right; rw [hmay x]; exact hx
      have hx0 : sc ≠ some x ∨ MayTransform s x = false := by
        rcases hx with hx | hx
        · left; intro h; exact hx (by rw [h]; exact List.mem_cons_self _ _)
        · right; exact hx
      rw [hct2 x hx1, hct x hx0]


theorem ApplyDeltaTransform.Loop_append (w : World) (D : FTransform) (snap : Option ℚ)
    (l1 l2 : List (Option USceneComponent)) :
    ∀ s : ATransformerPawn, ApplyDeltaTransform.Loop w D snap s (l1 ++ l2) =
      (ApplyDeltaTransform.Loop w D snap s l1).bind
        (fun s0 => ApplyDeltaTransform.Loop w D snap s0 l2) := by
  induction l1 with
  | nil => intro s; rfl
  | cons sc rest ih =>
    intro s
    simp only [List.cons_append, ApplyDeltaTransform.Loop]
    cases ApplyDeltaTransform.Step w D snap s sc with
    | none => rfl
    | some s1 => exact ih s1

/-- The loop with a valid gizmo, followed to an entry `c` that passes the mobility test: the
loop reaches the entry in a state `s0`, hands `SetTransform` the transform computed there
(`b` tells whether `SetWorldTransform` was called) and runs on to the end of the list; when
the entry is the last one of `c`, the world transform of `c` at the end is the transform
handed over if it was written, and the one of `s0` if not. -/
theorem ApplyDeltaTransform.Loop_target (w : World) (D : FTransform) (snap : Option ℚ)
    (s : ATransformerPawn) (g : ABaseGizmo) (hg : s.Gizmo = some g)
    (l1 l2 : List (Option USceneComponent)) (c : USceneComponent)
    (hmay : MayTransform s c = true) :
    ∃ (s0 s1 : ATransformerPawn) (b : Bool) (lb : List Event),
      ApplyDeltaTransform.Loop w D snap s l1 = some s0 ∧
      ApplyDeltaTransform.Loop w D snap s (l1 ++ some c :: l2) = some s1 ∧
      TransformStep s s0 ∧
      (∀ x, some x ∉ l1 ∨ MayTransform s x = false →
        s0.SceneState.ComponentTransform x = s.SceneState.ComponentTransform x) ∧
      s1.Log = s0.Log ++
        Event.SetTransform c (ApplyDeltaTransform.HandedTransform w D snap s0 g c)
          (GetUFocusable w s (some c)) b :: lb ∧
      (b = false ↔
        ((GetUFocusable w s (some c)).isSome = true ∧ s.bTransformUFocusableObjects = false)) ∧
      (some c ∉ l2 →
        s1.SceneState.ComponentTransform c =
          if b = true then ApplyDeltaTransform.HandedTransform w D snap s0 g c
          else s0.SceneState.ComponentTransform c) := by
  obtain ⟨s0, hloop0, hts0, _, hmob0, hct0⟩ := ApplyDeltaTransform.Loop_spec w D snap l1 s g hg
  have hg0 : s0.Gizmo = some g := by
    obtain ⟨ct, mob, l, rfl⟩ := hts0; exact hg
  have hfoc0 : GetUFocusable w s0 (some c) = GetUFocusable w s (some c) := by
    obtain ⟨ct, mob, l, rfl⟩ := hts0; rfl
  have hflag0 : s0.bTransformUFocusableObjects = s.bTransformUFocusableObjects := by
    obtain ⟨ct, mob, l, rfl⟩ := hts0; rfl
  have hmay0 : MayTransform s0 c = true := by
    have hf : s0.bForceMobility = s.bForceMobility := by
      obtain ⟨ct, mob, l, rfl⟩ := hts0; rfl
    unfold MayTransform at hmay ⊢
    rw [hf, hmob0 c]
    by_cases h1 : some c ∈ l1
    · have hm : MayTransform s c = true := hmay
      simp [h1, hm]
    · simp only [h1, false_and, if_false]
      exact hmay
  have hstep := ApplyDeltaTransform.Step_apply w D snap s0 c g hg0 hmay0
  obtain ⟨f, b, ct, heq, _, hbt, hbf, hf, hiff⟩ := SetTransform_SetMobility w s0 c
    (ApplyDeltaTransform.HandedTransform w D snap s0 g c)
  have hstep1 : ApplyDeltaTransform.Step w D snap s0 (some c) =
      some (SetTransform w (SetMobility s0 c EComponentMobility.Movable) (some c)
        (ApplyDeltaTransform.HandedTransform w D snap s0 g c)) := hstep
  rw [heq] at hstep1
  generalize hs01 : ({ s0 with
      SceneState :=
        { s0.SceneState with
          ComponentTransform := ct
          Mobility := fun x =>
            if x = c then EComponentMobility.Movable else s0.SceneState.Mobility x }
      Log := s0.Log ++ [Event.SetTransform c
        (ApplyDeltaTransform.HandedTransform w D snap s0 g c) f b] } : ATransformerPawn) = s01
    at hstep1
  have hg01 : s01.Gizmo = some g := by rw [← hs01]; exact hg0
  have hlog01 : s01.Log = s0.Log ++ [Event.SetTransform c
      (ApplyDeltaTransform.HandedTransform w D snap s0 g c) f b] := by rw [← hs01]
  have hct01 : s01.SceneState.ComponentTransform c = ct c := by rw [← hs01]
  obtain ⟨s1, hloop1, hts1, _, _, hct1⟩ := ApplyDeltaTransform.Loop_spec w D snap l2 s01 g hg01
  have hlog1 : ∃ lb, s1.Log = s01.Log ++ lb := by
    obtain ⟨ct1, mob1, l, rfl⟩ := hts1; exact ⟨l, rfl⟩
  obtain ⟨lb, hlb⟩ := hlog1
  refine ⟨s0, s1, b, lb, hloop0, ?_, hts0, hct0, ?_, ?_, ?_⟩
  · rw [ApplyDeltaTransform.Loop_append, hloop0]
    simp only [Option.bind, ApplyDeltaTransform.Loop, hstep1, hloop1]
  · rw [hlb, hlog01, List.append_assoc, hf, hfoc0]
    rfl
  · rw [hiff, hf, hfoc0, hflag0]
  · intro hc2
    rw [hct1 c (Or.inl hc2), hct01]
    cases hb : b
    · simp only [Bool.false_eq_true, if_false]
      exact hbf hb
    · simp only [if_true]
      exact hbt hb

/-- The gizmo origin moves within one call: with the gizmo placed on the first selected
component `10`, the delta that turns by half a turn about the Z axis and translates by
`(1, 2, 3)` first takes `10`, and the gizmo with it, from `(10, 0, 0)` to `(11, 2, 3)`; the
component `20` at `(20, 0, 0)` is then turned about `(11, 2, 3)` and ends at `(3, 6, 3)`,
where the formula with the gizmo origin before the call, `(10, 0, 0)`, gives `(1, 2, 3)`. -/
theorem ApplyDeltaTransform_moving_gizmo_example :
    GizmoActorLocation leadingGizmoPawn { exampleGizmo with AttachParent := some 10 } =
      ⟨10, 0, 0⟩ ∧
    (∃ s1, ApplyDeltaTransform exampleWorld leadingGizmoPawn exampleDelta = some s1 ∧
      s1.SceneState.ComponentTransform 20 = ⟨⟨0, 0, 1, 0⟩, ⟨3, 6, 3⟩, ⟨2, 1, 1⟩⟩) ∧
    DeltaFormula false ⟨10, 0, 0⟩ exampleDelta ⟨FQuat.Identity, ⟨20, 0, 0⟩, ⟨1, 1, 1⟩⟩ =
      ⟨⟨0, 0, 1, 0⟩, ⟨1, 2, 3⟩, ⟨2, 1, 1⟩⟩ := by
  have hg : leadingGizmoPawn.Gizmo = some { exampleGizmo with AttachParent := some 10 } := by
    decide
  have hrot : leadingGizmoPawn.bRotateOnLocalAxis = false := by decide
  have hT10 : leadingGizmoPawn.SceneState.ComponentTransform 10 =
      ⟨FQuat.Identity, ⟨10, 0, 0⟩, ⟨1, 1, 1⟩⟩ := by decide
  have hT20 : leadingGizmoPawn.SceneState.ComponentTransform 20 =
      ⟨FQuat.Identity, ⟨20, 0, 0⟩, ⟨1, 1, 1⟩⟩ := by decide
  have hG : GizmoActorLocation leadingGizmoPawn { exampleGizmo with AttachParent := some 10 } =
      ⟨10, 0, 0⟩ := by decide
  refine ⟨hG, ?_, ?_⟩
  · obtain ⟨t0, t1, b1, _, ht0, ht1, _, _, _, hiff1, hfin1⟩ :=
      ApplyDeltaTransform.Loop_target exampleWorld exampleDelta none leadingGizmoPawn _ hg
        [] [some 11] 10 (by decide)
    obtain ⟨s0, s1, b, _, hs0, hs1, hts0, hct0, _, hiff, hfin⟩ :=
      ApplyDeltaTransform.Loop_target exampleWorld exampleDelta none leadingGizmoPawn _ hg
        [some 10, some 11] [] 20 (by decide)
    have e0 : t0 = leadingGizmoPawn := (Option.some.inj ht0).symm
    subst e0
    have e1 : t1 = s0 := by
      have h : ApplyDeltaTransform.Loop exampleWorld exampleDelta none leadingGizmoPawn
          [some 10, some 11] = some t1 := ht1
      rw [hs0] at h
      exact (Option.some.inj h).symm
    subst e1
    have hb1 : b1 = true := by
      cases hbv : b1
      · have := (hiff1.1 hbv).2
        revert this
        decide
      · rfl
    have hb : b = true := by
      cases hbv : b
      · have := (hiff.1 hbv).2
        revert this
        decide
      · rfl
    have h10 := hfin1 (by decide)
    have h20 := hfin (List.not_mem_nil _)
    rw [hb1] at h10
    rw [hb] at h20
    simp only [if_true] at h10 h20
    have hrot0 : t1.bRotateOnLocalAxis = false := by
      obtain ⟨ct, mob, l, rfl⟩ := hts0; exact hrot
    have h20' : t1.SceneState.ComponentTransform 20 =
        ⟨FQuat.Identity, ⟨20, 0, 0⟩, ⟨1, 1, 1⟩⟩ := by
      rw [hct0 20 (Or.inl (by decide)), hT20]
    have h10' : t1.SceneState.ComponentTransform 10 =
        ⟨⟨0, 0, 1, 0⟩, ⟨11, 2, 3⟩, ⟨2, 1, 1⟩⟩ := by
      rw [h10]
      simp only [ApplyDeltaTransform.HandedTransform, ApplyDeltaTransform.NewTransform, hT10, hG,
        hrot, if_true, exampleDelta, FQuat.mul, FQuat.RotateVector, FQuat.UnrotateVector,
        FQuat.Identity, FVector.add, FVector.sub, FVector.smul, FVector.CrossProduct]
      norm_num
    have hG1 : GizmoActorLocation t1 { exampleGizmo with AttachParent := some 10 } =
        ⟨11, 2, 3⟩ := by
      simp only [GizmoActorLocation, h10']
    refine ⟨s1, hs1, ?_⟩
    rw [h20]
    simp only [ApplyDeltaTransform.HandedTransform, ApplyDeltaTransform.NewTransform, h20', hG1,
      hrot0, if_true, exampleDelta, FQuat.mul, FQuat.RotateVector, FQuat.UnrotateVector,
      FQuat.Identity, FVector.add, FVector.sub, FVector.smul, FVector.CrossProduct]
    norm_num
  · simp only [DeltaFormula, exampleDelta, FQuat.mul, FQuat.RotateVector, FQuat.UnrotateVector,
      FQuat.Identity, FVector.add, FVector.sub, FVector.smul, FVector.CrossProduct, if_true]
    norm_num


/-! ## Snapping -/

theorem GetSnappedTransform_Component (g : ABaseGizmo) (acc d : FTransform)
    (Domain : ETransformationDomain) (v : ℚ) (k : EAxis) :
    (g.GetSnappedTransform acc d Domain v).1.Translation.Component k =
      (SnapCoordinate (Domain.HasAxis k) v (acc.Translation.Component k)
        (d.Translation.Component k)).1 ∧
    (g.GetSnappedTransform acc d Domain v).2.Translation.Component k =
      (SnapCoordinate (Domain.HasAxis k) v (acc.Translation.Component k)
        (d.Translation.Component k)).2 := by
  cases k <;> exact ⟨rfl, rfl⟩

theorem SnapCoordinate_active (v a x : ℚ) (hv : 0 < v) (hs : 0 ≤ a + x) :
    (SnapCoordinate true v a x).1 = v * ⌊(a + x) / v⌋ ∧
    (SnapCoordinate true v a x).1 + (SnapCoordinate true v a x).2 = a + x ∧
    0 ≤ (SnapCoordinate true v a x).2 ∧ (SnapCoordinate true v a x).2 < v := by
  have h1 : (SnapCoordinate true v a x).1 = v * ⌊(a + x) / v⌋ := by
    simp only [SnapCoordinate, if_true, SnapMultiple, hs]
  have h2 : (SnapCoordinate true v a x).2 = a + x - v * ⌊(a + x) / v⌋ := by
    simp only [SnapCoordinate, if_true, SnapMultiple, hs]
  have hfl : (⌊(a + x) / v⌋ : ℚ) ≤ (a + x) / v := Int.floor_le _
  have hlt : (a + x) / v < ⌊(a + x) / v⌋ + 1 := Int.lt_floor_add_one _
  have hmul : v * ((a + x) / v) = a + x := by field_simp
  have hle : v * (⌊(a + x) / v⌋ : ℚ) ≤ a + x := by
    calc v * (⌊(a + x) / v⌋ : ℚ) ≤ v * ((a + x) / v) := mul_le_mul_of_nonneg_left hfl hv.le
      _ = a + x := hmul
  have hlt2 : a + x < v * (⌊(a + x) / v⌋ : ℚ) + v := by
    calc a + x = v * ((a + x) / v) := hmul.symm
      _ < v * ((⌊(a + x) / v⌋ : ℚ) + 1) := mul_lt_mul_of_pos_left hlt hv
      _ = v * (⌊(a + x) / v⌋ : ℚ) + v := by ring
  refine ⟨h1, ?_, ?_, ?_⟩
  · rw [h1, h2]; ring
  · rw [h2]; linarith
  · rw [h2]; linarith

/-- The bookkeeping of a gesture on one axis of the active domain: what was returned plus
what is retained is what came in, the retained part stays below the snapping value and the
returned total is a multiple of it. -/
theorem SnapGesture_invariant (g : ABaseGizmo) (Domain : ETransformationDomain) (k : EAxis)
    (v : ℚ) (hk : Domain.HasAxis k = true) (hv : 0 < v) (deltas : List FTransform) :
    ∀ acc : FTransform, 0 ≤ acc.Translation.Component k → acc.Translation.Component k < v →
    (∀ d ∈ deltas, 0 ≤ d.Translation.Component k) →
    ((SnapGesture g Domain v acc deltas).1.map (fun d => d.Translation.Component k)).sum +
        (SnapGesture g Domain v acc deltas).2.Translation.Component k =
      acc.Translation.Component k + (deltas.map (fun d => d.Translation.Component k)).sum ∧
    0 ≤ (SnapGesture g Domain v acc deltas).2.Translation.Component k ∧
    (SnapGesture g Domain v acc deltas).2.Translation.Component k < v ∧
    ∃ n : ℤ,
      ((SnapGesture g Domain v acc deltas).1.map (fun d => d.Translation.Component k)).sum =
        v * n := by
  induction deltas with
  | nil =>
    intro acc h0 h1 _
    refine ⟨by simp [SnapGesture], h0, h1, 0, by simp [SnapGesture]⟩
  | cons d rest ih =>
    intro acc h0 h1 hpos
    have hd : 0 ≤ d.Translation.Component k := hpos d (List.mem_cons_self _ _)
    have hs : 0 ≤ acc.Translation.Component k + d.Translation.Component k := by linarith
    obtain ⟨c1, c2⟩ := GetSnappedTransform_Component g acc d Domain v k
    rw [hk] at c1 c2
    obtain ⟨e1, e2, e3, e4⟩ := SnapCoordinate_active v _ _ hv hs
    rw [← c1] at e1 e2
    rw [← c2] at e2 e3 e4
    obtain ⟨i1, i2, i3, n, i4⟩ := ih (g.GetSnappedTransform acc d Domain v).2 e3 e4
      (fun d2 hd2 => hpos d2 (List.mem_cons_of_mem _ hd2))
    simp only [SnapGesture, List.map_cons, List.sum_cons]
    refine ⟨by linarith, i2, i3, ⌊(acc.Translation.Component k + d.Translation.Component k) / v⌋ + n, ?_⟩
    rw [i4, e1]; push_cast; ring

/-- C13. Starting from a reset accumulator, for every snapping value `v > 0`, every axis of
the active domain and every sequence of raw deltas that are non-negative on that axis, with
total `S`: the deltas returned by the repeated `GetSnappedTransform` calls sum to `v ⌊S / v⌋`,
the largest multiple of `v` not exceeding `S`, and the accumulator retains the remainder
`S - v ⌊S / v⌋`, which is at least `0` and less than `v`. -/
theorem C13_snapping_accumulator (g : ABaseGizmo) (Domain : ETransformationDomain) (k : EAxis)
    (v : ℚ) (deltas : List FTransform) (T : FTransform) (hk : Domain.HasAxis k = true)
    (hv : 0 < v) (hpos : ∀ d ∈ deltas, 0 ≤ d.Translation.Component k) :
    ((SnapGesture g Domain v (ResetDeltaTransform T) deltas).1.map
        (fun d => d.Translation.Component k)).sum =
      v * ⌊(deltas.map (fun d => d.Translation.Component k)).sum / v⌋ ∧
    (SnapGesture g Domain v (ResetDeltaTransform T) deltas).2.Translation.Component k =
      (deltas.map (fun d => d.Translation.Component k)).sum -
        v * ⌊(deltas.map (fun d => d.Translation.Component k)).sum / v⌋ ∧
    0 ≤ (SnapGesture g Domain v (ResetDeltaTransform T) deltas).2.Translation.Component k ∧
    (SnapGesture g Domain v (ResetDeltaTransform T) deltas).2.Translation.Component k < v ∧
    v * ⌊(deltas.map (fun d => d.Translation.Component k)).sum / v⌋ ≤
      (deltas.map (fun d => d.Translation.Component k)).sum ∧
    ∀ n : ℤ, v * n ≤ (deltas.map (fun d => d.Translation.Component k)).sum →
      v * n ≤ v * ⌊(deltas.map (fun d => d.Translation.Component k)).sum / v⌋ := by
  have hz : (ResetDeltaTransform T).Translation.Component k = 0 := by cases k <;> rfl
  obtain ⟨i1, i2, i3, n, i4⟩ := SnapGesture_invariant g Domain k v hk hv deltas
    (ResetDeltaTransform T) (by rw [hz]) (by rw [hz]; exact hv) hpos
  rw [hz, zero_add] at i1
  generalize (deltas.map (fun d => d.Translation.Component k)).sum = S at i1 ⊢
  generalize ((SnapGesture g Domain v (ResetDeltaTransform T) deltas).1.map
    (fun d => d.Translation.Component k)).sum = R at i1 i4 ⊢
  generalize (SnapGesture g Domain v (ResetDeltaTransform T) deltas).2.Translation.Component k
    = f at i1 i2 i3 ⊢
  have hfloor : ⌊S / v⌋ = n := by
    rw [Int.floor_eq_iff]
    have hS : S = v * n + f := by rw [← i4]; linarith
    have hSv : S / v = n + f / v := by rw [hS]; field_simp; ring
    rw [hSv]
    have hf1 : 0 ≤ f / v := div_nonneg i2 hv.le
    have hf2 : f / v < 1 := by rw [div_lt_one hv]; exact i3
    constructor <;> linarith
  rw [hfloor]
  refine ⟨i4, by linarith, i2, i3, by linarith, ?_⟩
  intro m hm
  have hm1 : v * (m : ℚ) < v * ((n : ℚ) + 1) := by
    have : v * ((n : ℚ) + 1) = v * n + v := by ring
    rw [this]; linarith
  have hm2 : (m : ℚ) < (n : ℚ) + 1 := lt_of_mul_lt_mul_left hm1 hv.le
  have hm3 : m < n + 1 := by exact_mod_cast hm2
  have hm4 : m ≤ n := by omega
  have hm5 : (m : ℚ) ≤ (n : ℚ) := by exact_mod_cast hm4
  exact mul_le_mul_of_nonneg_left hm5 hv.le



/-- C13 with the snapping value `5` on the X axis and the raw deltas `3`, `6` and `8`, which
sum to `17`: the returned deltas sum to `15` and `2` is retained. -/
theorem C13_snapping_accumulator_witness :
    ((exampleRawDeltas.map (fun d => d.Translation.Component EAxis.X)).sum = 17) ∧
    ((SnapGesture exampleGizmo ETransformationDomain.TD_X_Axis 5
        (ResetDeltaTransform FTransform.Default) exampleRawDeltas).1.map
      (fun d => d.Translation.Component EAxis.X)).sum = 15 ∧
    (SnapGesture exampleGizmo ETransformationDomain.TD_X_Axis 5
      (ResetDeltaTransform FTransform.Default) exampleRawDeltas).2.Translation.Component
        EAxis.X = 2 := by
  have hS : (exampleRawDeltas.map (fun d => d.Translation.Component EAxis.X)).sum = 17 := by
    simp only [exampleRawDeltas, List.map_cons, List.map_nil, List.sum_cons, List.sum_nil,
      FVector.Component]
    norm_num
  have h := C13_snapping_accumulator exampleGizmo ETransformationDomain.TD_X_Axis EAxis.X 5
    exampleRawDeltas FTransform.Default rfl (by norm_num)
    (by
      intro d hd
      simp only [exampleRawDeltas, List.mem_cons, List.mem_singleton, List.not_mem_nil,
        or_false] at hd
      rcases hd with rfl | rfl | rfl <;> simp [FVector.Component])
  rw [hS] at h
  refine ⟨hS, ?_, ?_⟩
  · rw [h.1]; norm_num
  · rw [h.2.1]; norm_num


/-! ## The tick -/

theorem ApplyDeltaTransform_TransformStep (w : World) (s : ATransformerPawn) (D : FTransform)
    (g : ABaseGizmo) (hg : s.Gizmo = some g) :
    ∃ s1, ApplyDeltaTransform w s D = some s1 ∧ TransformStep s s1 := by
  obtain ⟨s1, h1, h2, _⟩ :=
    ApplyDeltaTransform.Loop_spec w D (CurrentSnapping s) s.SelectedComponents s g hg
  exact ⟨s1, h1, h2⟩

/-- `UpdateTransform` with a valid gizmo and an active domain completes and returns the
applied delta; the network accumulator is not touched and the gizmo stays valid. -/
theorem UpdateTransform_spec (w : World) (s : ATransformerPawn) (g : ABaseGizmo)
    (RayOrigin RayDirection : FVector) (hg : s.Gizmo = some g)
    (hd : s.CurrentDomain ≠ ETransformationDomain.TD_None) :
    ∃ s1, UpdateTransform w s w.CameraForwardVector RayOrigin RayDirection =
        some (s1, AppliedDelta w s g RayOrigin RayDirection) ∧
      s1.NetworkDeltaTransform = s.NetworkDeltaTransform ∧
      (∃ g1, s1.Gizmo = some g1) := by
  unfold UpdateTransform AppliedDelta RawDelta
  simp only [hg, hd, if_false]
  have hcs : CurrentSnapping
      { s with Gizmo := some (w.GetDeltaTransform g w.CameraForwardVector RayOrigin
        (RayOrigin.add (FVector.smul 100000000 RayDirection)) s.CurrentDomain).2 } =
      CurrentSnapping s := rfl
  rw [hcs]
  cases hsn : CurrentSnapping s with
  | none =>
    obtain ⟨s1, h1, ct, mob, l, h2⟩ := ApplyDeltaTransform_TransformStep w
      { s with Gizmo := some (w.GetDeltaTransform g w.CameraForwardVector RayOrigin
        (RayOrigin.add (FVector.smul 100000000 RayDirection)) s.CurrentDomain).2 }
      (w.GetDeltaTransform g w.CameraForwardVector RayOrigin
        (RayOrigin.add (FVector.smul 100000000 RayDirection)) s.CurrentDomain).1 _ rfl
    refine ⟨s1, ?_, ?_, ?_⟩
    · simp only [h1, Option.map]
    · rw [h2]
    · rw [h2]; exact ⟨_, rfl⟩
  | some v =>
    obtain ⟨s1, h1, ct, mob, l, h2⟩ := ApplyDeltaTransform_TransformStep w
      { s with
        Gizmo := some (w.GetDeltaTransform g w.CameraForwardVector RayOrigin
          (RayOrigin.add (FVector.smul 100000000 RayDirection)) s.CurrentDomain).2
        AccumulatedDeltaTransform :=
          (w.GetSnappedTransform
            (w.GetDeltaTransform g w.CameraForwardVector RayOrigin
              (RayOrigin.add (FVector.smul 100000000 RayDirection)) s.CurrentDomain).2
            s.AccumulatedDeltaTransform
            (w.GetDeltaTransform g w.CameraForwardVector RayOrigin
              (RayOrigin.add (FVector.smul 100000000 RayDirection)) s.CurrentDomain).1
            s.CurrentDomain v).2 }
      (w.GetSnappedTransform
        (w.GetDeltaTransform g w.CameraForwardVector RayOrigin
          (RayOrigin.add (FVector.smul 100000000 RayDirection)) s.CurrentDomain).2
        s.AccumulatedDeltaTransform
        (w.GetDeltaTransform g w.CameraForwardVector RayOrigin
          (RayOrigin.add (FVector.smul 100000000 RayDirection)) s.CurrentDomain).1
        s.CurrentDomain v).1 _ rfl
    refine ⟨s1, ?_, ?_, ?_⟩
    · simp only [h1, Option.map]
    · rw [h2]
    · rw [h2]; exact ⟨_, rfl⟩

/-- A tick of the locally controlled pawn with a valid gizmo, an active domain and a pointer
ray completes and accumulates the applied delta into `NetworkDeltaTransform`. -/
theorem Tick_NetworkDeltaTransform (w : World) (s : ATransformerPawn) (g : ABaseGizmo)
    (DeltaSeconds : ℚ) (RayOrigin RayDirection : FVector) (hg : s.Gizmo = some g)
    (hd : s.CurrentDomain ≠ ETransformationDomain.TD_None)
    (hc : w.HasController = true) (hl : w.IsLocalController = true)
    (hm : w.HasPlayerCameraManager = true)
    (hray : w.DeprojectMousePositionToWorld = some (RayOrigin, RayDirection)) :
    ∃ s1, Tick w s DeltaSeconds = some s1 ∧
      s1.NetworkDeltaTransform =
        AccumulateNetworkDelta (AppliedDelta w s g RayOrigin RayDirection)
          s.NetworkDeltaTransform := by
  obtain ⟨s1, h1, h2, g1, h3⟩ := UpdateTransform_spec w s g RayOrigin RayDirection hg hd
  unfold Tick
  simp only [hg, hc, hl, hm, Bool.and_self, if_true, hray, h1, Option.map, Option.bind, h3, h2]
  exact ⟨_, rfl, rfl⟩


/-- C17, amended. On every tick of the locally controlled pawn with a valid gizmo, an active
domain and a pointer ray, the value accumulated into `NetworkDeltaTransform` (translation
added, scale added, rotation composed) is the delta that `UpdateTransform` applied: the raw
delta of the gizmo's `GetDeltaTransform` when snapping is not enabled for the current
transformation kind, and the snapped delta returned by `GetSnappedTransform` when it is. -/
theorem C17_network_delta (w : World) (s : ATransformerPawn) (g : ABaseGizmo)
    (DeltaSeconds : ℚ) (RayOrigin RayDirection : FVector) (hg : s.Gizmo = some g)
    (hd : s.CurrentDomain ≠ ETransformationDomain.TD_None)
    (hc : w.HasController = true) (hl : w.IsLocalController = true)
    (hm : w.HasPlayerCameraManager = true)
    (hray : w.DeprojectMousePositionToWorld = some (RayOrigin, RayDirection)) :
    ∃ s1, Tick w s DeltaSeconds = some s1 ∧
      s1.NetworkDeltaTransform =
        AccumulateNetworkDelta (AppliedDelta w s g RayOrigin RayDirection)
          s.NetworkDeltaTransform ∧
      (CurrentSnapping s = none →
        AppliedDelta w s g RayOrigin RayDirection = RawDelta w s g RayOrigin RayDirection) ∧
      (∀ v, CurrentSnapping s = some v →
        AppliedDelta w s g RayOrigin RayDirection =
          (w.GetSnappedTransform
            (w.GetDeltaTransform g w.CameraForwardVector RayOrigin
              (RayOrigin.add (FVector.smul 100000000 RayDirection)) s.CurrentDomain).2
            s.AccumulatedDeltaTransform (RawDelta w s g RayOrigin RayDirection)
            s.CurrentDomain v).1) := by
  obtain ⟨s1, h1, h2⟩ := Tick_NetworkDeltaTransform w s g DeltaSeconds RayOrigin RayDirection
    hg hd hc hl hm hray
  refine ⟨s1, h1, h2, ?_, ?_⟩
  · intro hn; unfold AppliedDelta; rw [hn]
  · intro v hv; unfold AppliedDelta; rw [hv]

/-- C17 on a drag along the X axis without snapping: the raw delta `(2, 0, 0)` is what the
tick accumulates. -/
theorem C17_network_delta_witness :
    CurrentSnapping draggingPawn = none ∧
    draggingPawn.NetworkDeltaTransform =
      ⟨FQuat.Identity, FVector.ZeroVector, FVector.ZeroVector⟩ ∧
    RawDelta exampleWorld draggingPawn exampleGizmo ⟨0, 0, 0⟩ ⟨1, 0, 0⟩ =
      ⟨FQuat.Identity, ⟨2, 0, 0⟩, FVector.ZeroVector⟩ ∧
    ∃ s1, Tick exampleWorld draggingPawn 1 = some s1 ∧
      s1.NetworkDeltaTransform = ⟨FQuat.Identity, ⟨2, 0, 0⟩, FVector.ZeroVector⟩ := by
  have hn : CurrentSnapping draggingPawn = none := by decide
  have hN : draggingPawn.NetworkDeltaTransform =
      ⟨FQuat.Identity, FVector.ZeroVector, FVector.ZeroVector⟩ := by decide
  have hraw : RawDelta exampleWorld draggingPawn exampleGizmo ⟨0, 0, 0⟩ ⟨1, 0, 0⟩ =
      ⟨FQuat.Identity, ⟨2, 0, 0⟩, FVector.ZeroVector⟩ := rfl
  obtain ⟨s1, h1, h2, h3, _⟩ := C17_network_delta exampleWorld draggingPawn exampleGizmo 1
    ⟨0, 0, 0⟩ ⟨1, 0, 0⟩ (by decide) (by decide) rfl rfl rfl rfl
  refine ⟨hn, hN, hraw, s1, h1, ?_⟩
  rw [h2, h3 hn, hraw, hN]
  simp [AccumulateNetworkDelta, FQuat.mul, FQuat.Identity, FVector.add, FVector.ZeroVector]

/-- C17 as stated fails with snapping enabled: snapping to multiples of `5`, a tick whose raw
delta is `(2, 0, 0)` accumulates the snapped delta `(0, 0, 0)` into `NetworkDeltaTransform`,
not the raw one. -/
theorem C17_snapped_delta_counterexample :
    CurrentSnapping snappingPawn = some 5 ∧
    snappingPawn.NetworkDeltaTransform =
      ⟨FQuat.Identity, FVector.ZeroVector, FVector.ZeroVector⟩ ∧
    RawDelta exampleWorld snappingPawn exampleGizmo ⟨0, 0, 0⟩ ⟨1, 0, 0⟩ =
      ⟨FQuat.Identity, ⟨2, 0, 0⟩, FVector.ZeroVector⟩ ∧
    ∃ s1, Tick exampleWorld snappingPawn 1 = some s1 ∧
      s1.NetworkDeltaTransform = ⟨FQuat.Identity, ⟨0, 0, 0⟩, FVector.ZeroVector⟩ ∧
      s1.NetworkDeltaTransform ≠
        AccumulateNetworkDelta
          (RawDelta exampleWorld snappingPawn exampleGizmo ⟨0, 0, 0⟩ ⟨1, 0, 0⟩)
          snappingPawn.NetworkDeltaTransform := by
  have hn : CurrentSnapping snappingPawn = some 5 := by decide
  have hN : snappingPawn.NetworkDeltaTransform =
      ⟨FQuat.Identity, FVector.ZeroVector, FVector.ZeroVector⟩ := by decide
  have hA : snappingPawn.AccumulatedDeltaTransform =
      ⟨FQuat.Identity, FVector.ZeroVector, FVector.ZeroVector⟩ := by decide
  have hD : snappingPawn.CurrentDomain = ETransformationDomain.TD_X_Axis := by decide
  have hraw : RawDelta exampleWorld snappingPawn exampleGizmo ⟨0, 0, 0⟩ ⟨1, 0, 0⟩ =
      ⟨FQuat.Identity, ⟨2, 0, 0⟩, FVector.ZeroVector⟩ := rfl
  obtain ⟨s1, h1, h2⟩ := Tick_NetworkDeltaTransform exampleWorld snappingPawn exampleGizmo 1
    ⟨0, 0, 0⟩ ⟨1, 0, 0⟩ (by decide) (by decide) rfl rfl rfl rfl
  have happ : AppliedDelta exampleWorld snappingPawn exampleGizmo ⟨0, 0, 0⟩ ⟨1, 0, 0⟩ =
      ⟨FQuat.Identity, ⟨0, 0, 0⟩, FVector.ZeroVector⟩ := by
    unfold AppliedDelta
    rw [hn, hraw, hA, hD]
    simp only [exampleWorld, ABaseGizmo.GetSnappedTransform, SnapCoordinate,
      ETransformationDomain.HasAxis, SnapMultiple, FVector.ZeroVector]
    norm_num
  have hres : s1.NetworkDeltaTransform =
      ⟨FQuat.Identity, ⟨0, 0, 0⟩, FVector.ZeroVector⟩ := by
    rw [h2, happ, hN]
    simp [AccumulateNetworkDelta, FQuat.mul, FQuat.Identity, FVector.add, FVector.ZeroVector]
  refine ⟨hn, hN, hraw, s1, h1, hres, ?_⟩
  rw [hres, hraw, hN]
  simp [AccumulateNetworkDelta, FQuat.mul, FQuat.Identity, FVector.add, FVector.ZeroVector]


/-! ## Resynchronisation of the selection -/

theorem SelectMultipleComponents_Loop_LocalStep (w : World)
    (l : List (Option USceneComponent)) :
    ∀ (s : ATransformerPawn) (a v : Bool),
      LocalStep s (SelectMultipleComponents.Loop w s a v l).1 := by
  induction l with
  | nil => intro s a v; exact LocalStep.refl s
  | cons c rest ih =>
    intro s a v
    cases c with
    | none => exact ih s a v
    | some c =>
      unfold SelectMultipleComponents.Loop
      by_cases hs : w.ShouldSelect (w.GetOwner c) (some c) = true
      · simp only [hs, if_true]
        have h1 : LocalStep s (if a = false then (DeselectAll w s false).1 else s) := by
          cases a
          · exact DeselectAll_false_LocalStep w s
          · exact LocalStep.refl s
        exact (h1.trans (AddComponent_Internal_spec w _ (some c)).1).trans (ih _ true true)
      · simp only [hs, if_false]
        exact ih s a v

theorem SelectMultipleComponents_LocalStep (w : World) (s : ATransformerPawn)
    (l : List (Option USceneComponent)) (a : Bool) :
    LocalStep s (SelectMultipleComponents w s l a) := by
  unfold SelectMultipleComponents
  have h := SelectMultipleComponents_Loop_LocalStep w l s a false
  by_cases hv : (SelectMultipleComponents.Loop w s a false l).2 = true
  · simp only [hv, if_true]
    exact h.trans (LocalStep.UpdateGizmoPlacement w _)
  · simp only [hv, if_false]
    exact h

/-- The implementation of the selection broadcast issues local calls only. -/
theorem MulticastSetSelectedComponents_Implementation_Log (w : World) (s : ATransformerPawn)
    (Components : List (Option USceneComponent)) :
    ∃ l, (MulticastSetSelectedComponents_Implementation w s Components).Log = s.Log ++ l ∧
      ∀ e ∈ l, Event.IsLocal e = true := by
  obtain ⟨sel, g, l, h, hl⟩ := (DeselectAll_false_LocalStep w s).trans
    (SelectMultipleComponents_LocalStep w (DeselectAll w s false).1 Components true)
  refine ⟨l, ?_, hl⟩
  unfold MulticastSetSelectedComponents_Implementation
  simp only [h]
  split
  · split
    · split <;> rfl
    · rfl
  · rfl

theorem MulticastSetSelectedComponents_Implementation_bResyncSelection (w : World)
    (s : ATransformerPawn) (Components : List (Option USceneComponent)) :
    (MulticastSetSelectedComponents_Implementation w s Components).bResyncSelection =
      decide (Components.length ≠
        (MulticastSetSelectedComponents_Implementation w s Components).SelectedComponents.length)
      := by
  unfold MulticastSetSelectedComponents_Implementation
  simp only
  split
  · split
    · split <;> rfl
    · rfl
  · rfl


theorem serverCalls_append (l1 l2 : List Event) :
    serverCalls (l1 ++ l2) = serverCalls l1 ++ serverCalls l2 := by
  simp only [serverCalls, List.filterMap_append]

/-- C15. After the implementation of `MulticastSetSelectedComponents(Components)` has run on a
peer, from any prior state, `bResyncSelection` is true if and only if the number of entries
of `Components` differs from the number of entries of the resulting `SelectedComponents`. A
`ResyncSelection` poll with the flag set issues exactly one request
`ServerSyncSelectedComponents` (on a remote peer it does nothing else); with the flag clear
it only stops the retry timer and sends nothing. -/
theorem C15_resync_flag (w : World) (s : ATransformerPawn)
    (Components : List (Option USceneComponent)) :
    ((MulticastSetSelectedComponents_Implementation w s Components).bResyncSelection = true ↔
      Components.length ≠
        (MulticastSetSelectedComponents_Implementation w s Components).SelectedComponents.length)
    ∧
    ((MulticastSetSelectedComponents w s Components).bResyncSelection = true ↔
      Components.length ≠
        (MulticastSetSelectedComponents w s Components).SelectedComponents.length) ∧
    (s.bResyncSelection = true →
      (∃ l, (ResyncSelection w s).Log = s.Log ++ l ∧
        serverCalls l = [ServerCall.ServerSyncSelectedComponents]) ∧
      (w.IsAuthority = false →
        ResyncSelection w s = s.emit (Event.Server ServerCall.ServerSyncSelectedComponents))) ∧
    (s.bResyncSelection = false →
      ResyncSelection w s = { s with ResyncSelectionTimerActive := false }) := by
  refine ⟨?_, ?_, ?_, ?_⟩
  · rw [MulticastSetSelectedComponents_Implementation_bResyncSelection, decide_eq_true_eq]
  · unfold MulticastSetSelectedComponents
    rw [MulticastSetSelectedComponents_Implementation_bResyncSelection, decide_eq_true_eq]
  · intro hf
    refine ⟨?_, ?_⟩
    · unfold ResyncSelection ServerSyncSelectedComponents
      simp only [hf, if_true]
      by_cases ha : (w.IsAuthority && ServerSyncSelectedComponents_Validate) = true
      · simp only [ha, if_true]
        unfold ServerSyncSelectedComponents_Implementation MulticastSetSelectedComponents
        obtain ⟨l, h1, h2⟩ := MulticastSetSelectedComponents_Implementation_Log w
          (((s.emit (Event.Server ServerCall.ServerSyncSelectedComponents)).emit
            (Event.Multicast (MulticastCall.MulticastSetSelectedComponents
              (s.emit (Event.Server ServerCall.ServerSyncSelectedComponents)).SelectedComponents))))
          (s.emit (Event.Server ServerCall.ServerSyncSelectedComponents)).SelectedComponents
        refine ⟨[Event.Server ServerCall.ServerSyncSelectedComponents,
          Event.Multicast (MulticastCall.MulticastSetSelectedComponents
            (s.emit (Event.Server ServerCall.ServerSyncSelectedComponents)).SelectedComponents)]
          ++ l, ?_, ?_⟩
        · rw [h1]
          simp only [ATransformerPawn.emit, List.append_assoc, List.cons_append,
            List.nil_append]
        · rw [serverCalls_append, serverCalls_of_local l h2]
          rfl
      · simp only [ha, if_false]
        exact ⟨[Event.Server ServerCall.ServerSyncSelectedComponents], rfl, rfl⟩
    · intro ha
      unfold ResyncSelection ServerSyncSelectedComponents
      simp only [hf, if_true, ha, Bool.false_and, Bool.false_eq_true, if_false]
  · intro hf
    unfold ResyncSelection
    simp only [hf, Bool.false_eq_true, if_false]

/-- C15 on a broadcast of two entries of which one is null: one target is selected, the flag
is set, and the poll that follows issues one request; a poll with the flag clear stops the
timer. -/
theorem C15_resync_flag_witness :
    (MulticastSetSelectedComponents_Implementation exampleWorld examplePawn
      [some 10, none]).SelectedComponents = [some 10] ∧
    (MulticastSetSelectedComponents_Implementation exampleWorld examplePawn
      [some 10, none]).bResyncSelection = true ∧
    (∃ l, (ResyncSelection exampleWorld
        (MulticastSetSelectedComponents_Implementation exampleWorld examplePawn
          [some 10, none])).Log =
        (MulticastSetSelectedComponents_Implementation exampleWorld examplePawn
          [some 10, none]).Log ++ l ∧
      serverCalls l = [ServerCall.ServerSyncSelectedComponents]) ∧
    ResyncSelection exampleWorld examplePawn =
      { examplePawn with ResyncSelectionTimerActive := false } :=
  ⟨by decide, by decide,
    ((C15_resync_flag exampleWorld
      (MulticastSetSelectedComponents_Implementation exampleWorld examplePawn [some 10, none])
      []).2.2.1 (by decide)).1,
    (C15_resync_flag exampleWorld examplePawn []).2.2.2 (by decide)⟩


/-! ## Replication of the transform -/

/-- `ReplicateFinishTransform` on a peer where the broadcast, if it comes back at once, is
not applied. -/
theorem ReplicateFinishTransform_sender (w : World) (s : ATransformerPawn)
    (h : w.IsAuthority = false ∨ w.HasController = false ∨ w.IsLocalController = true) :
    ∃ s1 l, ReplicateFinishTransform w s = some s1 ∧ s1.Log = s.Log ++ l ∧
      serverCalls l = [ServerCall.ServerClearDomain,
        ServerCall.ServerApplyTransform s.NetworkDeltaTransform] ∧
      s1.NetworkDeltaTransform = ⟨FQuat.Identity, FVector.ZeroVector, FVector.ZeroVector⟩ ∧
      s1.SceneState = s.SceneState ∧ s1.SelectedComponents = s.SelectedComponents := by
  by_cases ha : w.IsAuthority = true
  · have hskip : (w.HasController && !w.IsLocalController) = false := by
      rcases h with h | h | h
      · rw [ha] at h; cases h
      · rw [h]; rfl
      · rw [h]; simp
    have hR : ReplicateFinishTransform w s = some
        { ((ClearDomain ((s.emit (Event.Server ServerCall.ServerClearDomain)).emit
              (Event.Multicast MulticastCall.MulticastClearDomain))).emit
            (Event.Server (ServerCall.ServerApplyTransform
              (ClearDomain ((s.emit (Event.Server ServerCall.ServerClearDomain)).emit
                (Event.Multicast MulticastCall.MulticastClearDomain))).NetworkDeltaTransform))).emit
            (Event.Multicast (MulticastCall.MulticastApplyTransform
              (ClearDomain ((s.emit (Event.Server ServerCall.ServerClearDomain)).emit
                (Event.Multicast MulticastCall.MulticastClearDomain))).NetworkDeltaTransform))
          with NetworkDeltaTransform :=
            ⟨FQuat.Identity, FVector.ZeroVector, FVector.ZeroVector⟩ } := by
      simp only [ReplicateFinishTransform, ServerClearDomain, ha, ServerClearDomain_Validate,
        Bool.and_self, if_true, ServerClearDomain_Implementation, MulticastClearDomain,
        MulticastClearDomain_Implementation, ServerApplyTransform,
        ServerApplyTransform_Validate, ServerApplyTransform_Implementation,
        MulticastApplyTransform, MulticastApplyTransform_Implementation, hskip,
        Bool.false_eq_true, if_false, Option.map]
      rfl
    obtain ⟨d, g, a, hcd⟩ := DomainStep.ClearDomain
      ((s.emit (Event.Server ServerCall.ServerClearDomain)).emit
        (Event.Multicast MulticastCall.MulticastClearDomain))
    rw [hcd] at hR
    refine ⟨_, [Event.Server ServerCall.ServerClearDomain,
      Event.Multicast MulticastCall.MulticastClearDomain,
      Event.Server (ServerCall.ServerApplyTransform s.NetworkDeltaTransform),
      Event.Multicast (MulticastCall.MulticastApplyTransform s.NetworkDeltaTransform)], hR,
      ?_, rfl, rfl, rfl, rfl⟩
    simp [ATransformerPawn.emit]
  · have ha0 : w.IsAuthority = false := by
      cases hw : w.IsAuthority
      · rfl
      · exact absurd hw ha
    have hR : ReplicateFinishTransform w s = some
        { (s.emit (Event.Server ServerCall.ServerClearDomain)).emit
            (Event.Server (ServerCall.ServerApplyTransform s.NetworkDeltaTransform))
          with NetworkDeltaTransform :=
            ⟨FQuat.Identity, FVector.ZeroVector, FVector.ZeroVector⟩ } := by
      simp only [ReplicateFinishTransform, ServerClearDomain, ha0, Bool.false_and,
        Bool.false_eq_true, if_false, ServerApplyTransform, Option.map]
      rfl
    refine ⟨_, [Event.Server ServerCall.ServerClearDomain,
      Event.Server (ServerCall.ServerApplyTransform s.NetworkDeltaTransform)], hR, ?_, rfl,
      rfl, rfl, rfl⟩
    simp [ATransformerPawn.emit]


/-- C16, amended. `ReplicateFinishTransform`, on the peer that locally controls the pawn (or
on any peer that is not the authority), issues the requests `ServerClearDomain` and then one
`ServerApplyTransform` carrying the value that `NetworkDeltaTransform` had before the call,
resets `NetworkDeltaTransform` to identity-with-zero-scale and leaves the scene and the
selection alone. The authority answers `ServerApplyTransform` with one
`MulticastApplyTransform` of the same delta, and a receiving peer applies that delta to its
selection if and only if it holds the pawn's controller and the controller is not local
there: the peer that locally controls the pawn does not apply it, and neither does a peer on
which the pawn has no controller. -/
theorem C16_gesture_completion (w : World) (s : ATransformerPawn)
    (DeltaTransform : FTransform) :
    ((w.IsAuthority = false ∨ w.HasController = false ∨ w.IsLocalController = true) →
      ∃ s1 l, ReplicateFinishTransform w s = some s1 ∧ s1.Log = s.Log ++ l ∧
        serverCalls l = [ServerCall.ServerClearDomain,
          ServerCall.ServerApplyTransform s.NetworkDeltaTransform] ∧
        s1.NetworkDeltaTransform =
          ⟨FQuat.Identity, FVector.ZeroVector, FVector.ZeroVector⟩ ∧
        s1.SceneState = s.SceneState ∧ s1.SelectedComponents = s.SelectedComponents) ∧
    ServerApplyTransform_Implementation w s DeltaTransform =
      MulticastApplyTransform_Implementation w
        (s.emit (Event.Multicast (MulticastCall.MulticastApplyTransform DeltaTransform)))
        DeltaTransform ∧
    ((w.HasController = true ∧ w.IsLocalController = false) →
      MulticastApplyTransform_Implementation w s DeltaTransform =
        ApplyDeltaTransform w s DeltaTransform) ∧
    (¬ (w.HasController = true ∧ w.IsLocalController = false) →
      MulticastApplyTransform_Implementation w s DeltaTransform = some s) := by
  refine ⟨ReplicateFinishTransform_sender w s, rfl, ?_, ?_⟩
  · intro h
    simp only [MulticastApplyTransform_Implementation, h.1, h.2, Bool.not_false, Bool.and_self,
      if_true]
  · intro h
    have hc : (w.HasController && !w.IsLocalController) = false := by
      cases h1 : w.HasController
      · rfl
      · cases h2 : w.IsLocalController
        · exact absurd ⟨h1, h2⟩ h
        · rfl
    simp only [MulticastApplyTransform_Implementation, hc, Bool.false_eq_true, if_false]

/-- C16 on the example: the remote peer that locally controls the pawn flushes the delta
`(1, 2, 3)` with one request and resets its accumulator; the authority, where the controller
is not local, applies the broadcast; the controlling peer does not. -/
theorem C16_gesture_completion_witness :
    flushPawn.NetworkDeltaTransform = exampleTranslation ∧
    (∃ s1 l, ReplicateFinishTransform remoteWorld flushPawn = some s1 ∧
      s1.Log = flushPawn.Log ++ l ∧
      serverCalls l = [ServerCall.ServerClearDomain,
        ServerCall.ServerApplyTransform exampleTranslation] ∧
      s1.NetworkDeltaTransform =
        ⟨FQuat.Identity, FVector.ZeroVector, FVector.ZeroVector⟩) ∧
    MulticastApplyTransform_Implementation serverWorld mixedPawn exampleTranslation =
      ApplyDeltaTransform serverWorld mixedPawn exampleTranslation ∧
    MulticastApplyTransform_Implementation exampleWorld mixedPawn exampleTranslation =
      some mixedPawn := by
  obtain ⟨s1, l, h1, h2, h3, h4, _⟩ :=
    (C16_gesture_completion remoteWorld flushPawn exampleTranslation).1 (Or.inl rfl)
  exact ⟨rfl, ⟨s1, l, h1, h2, h3, h4⟩,
    (C16_gesture_completion serverWorld mixedPawn exampleTranslation).2.2.1 ⟨rfl, rfl⟩,
    (C16_gesture_completion exampleWorld mixedPawn exampleTranslation).2.2.2 (by decide)⟩

/-- C16 as stated fails on a peer on which the pawn has no controller: it is not the peer
that locally controls the pawn, yet the broadcast leaves its state as it is, although
applying the delta would transform the components `10` and `20`. -/
theorem C16_no_controller_counterexample :
    bystanderWorld.HasController = false ∧ bystanderWorld.IsLocalController = false ∧
    MulticastApplyTransform_Implementation bystanderWorld mixedPawn exampleTranslation =
      some mixedPawn ∧
    ∃ s1, ApplyDeltaTransform bystanderWorld mixedPawn exampleTranslation = some s1 ∧
      setTransformTargets s1.Log = setTransformTargets mixedPawn.Log ++ [10, 20] := by
  refine ⟨rfl, rfl, rfl, ?_⟩
  obtain ⟨s1, h1, _, h2, _⟩ := ApplyDeltaTransform.Loop_spec bystanderWorld exampleTranslation
    (CurrentSnapping mixedPawn) mixedPawn.SelectedComponents mixedPawn exampleGizmo
    (by decide)
  exact ⟨s1, h1, h2⟩


/-! ## Replicated picking -/

theorem LocalLog.idle (s : ATransformerPawn) : LocalLog s s :=
  ⟨[], by rw [List.append_nil], fun _ h => absurd h (List.not_mem_nil _)⟩

theorem LocalLog.followedBy {s1 s2 s3 : ATransformerPawn} (h12 : LocalLog s1 s2)
    (h23 : LocalLog s2 s3) : LocalLog s1 s3 := by
  obtain ⟨l, h1, hl⟩ := h12
  obtain ⟨l2, h2, hl2⟩ := h23
  refine ⟨l ++ l2, by rw [h2, h1, List.append_assoc], ?_⟩
  intro e he
  rcases List.mem_append.1 he with h | h
  · exact hl e h
  · exact hl2 e h

theorem LocalLog.of_LocalStep {s1 s2 : ATransformerPawn} (h : LocalStep s1 s2) :
    LocalLog s1 s2 := by
  obtain ⟨sel, g, l, rfl, hl⟩ := h
  exact ⟨l, rfl, hl⟩

theorem LocalLog.of_DomainStep {s1 s2 : ATransformerPawn} (h : DomainStep s1 s2) :
    LocalLog s1 s2 := by
  obtain ⟨d, g, a, rfl⟩ := h
  exact LocalLog.idle _

theorem multicastCalls_append (l1 l2 : List Event) :
    multicastCalls (l1 ++ l2) = multicastCalls l1 ++ multicastCalls l2 := by
  simp only [multicastCalls, List.filterMap_append]

theorem multicastCalls_of_local (l : List Event) (h : ∀ e ∈ l, Event.IsLocal e = true) :
    multicastCalls l = [] := by
  unfold multicastCalls
  rw [List.filterMap_eq_nil_iff]
  intro e he
  have := h e he
  cases e <;> simp_all [Event.IsLocal]

theorem SelectComponent_LocalLog (w : World) (s : ATransformerPawn)
    (c : Option USceneComponent) (b : Bool) : LocalLog s (SelectComponent w s c b) := by
  unfold SelectComponent
  cases c with
  | none => exact LocalLog.idle s
  | some c =>
    by_cases hs : w.ShouldSelect (w.GetOwner c) (some c) = true
    · simp only [hs, if_true]
      have h1 : LocalStep s (if b = false then (DeselectAll w s false).1 else s) := by
        cases b
        · exact DeselectAll_false_LocalStep w s
        · exact LocalStep.refl s
      exact LocalLog.of_LocalStep
        ((h1.trans (AddComponent_Internal_spec w _ (some c)).1).trans
          (LocalStep.UpdateGizmoPlacement w _))
    · simp only [hs, if_false]
      exact LocalLog.idle s

theorem SelectActor_LocalLog (w : World) (s : ATransformerPawn)
    (a : Option AActor) (b : Bool) : LocalLog s (SelectActor w s a b) := by
  unfold SelectActor
  cases a with
  | none => exact LocalLog.idle s
  | some a =>
    by_cases hs : w.ShouldSelect (some a) (w.GetRootComponent a) = true
    · simp only [hs, if_true]
      have h1 : LocalStep s (if b = false then (DeselectAll w s false).1 else s) := by
        cases b
        · exact DeselectAll_false_LocalStep w s
        · exact LocalStep.refl s
      exact LocalLog.of_LocalStep
        ((h1.trans (AddComponent_Internal_spec w _ (w.GetRootComponent a)).1).trans
          (LocalStep.UpdateGizmoPlacement w _))
    · simp only [hs, if_false]
      exact LocalLog.idle s

theorem GizmoLoop_Log (hits : List FHitResult) :
    ∀ s : ATransformerPawn, (HandleTracedObjects.GizmoLoop s hits).1.Log = s.Log := by
  induction hits with
  | nil => intro s; rfl
  | cons hit rest ih =>
    intro s
    unfold HandleTracedObjects.GizmoLoop
    cases hg : s.Gizmo with
    | none => rfl
    | some g =>
      simp only
      by_cases ha : hit.Actor = some g.Self
      · simp only [ha, if_true]
        cases hc : hit.Component with
        | none => exact ih s
        | some componentHit =>
          simp only
          have hlog : (SetDomain s (g.GetTransformationDomain componentHit)).Log = s.Log :=
            DomainStep.Log (DomainStep.SetDomain s _)
          split
          · exact hlog
          · rw [ih, hlog]
      · simp only [ha, if_false]
        exact ih s

theorem SelectLoop_LocalLog (w : World) (s : ATransformerPawn) (b : Bool)
    (hits : List FHitResult) : LocalLog s (HandleTracedObjects.SelectLoop w s b hits).1 := by
  induction hits with
  | nil => exact LocalLog.idle s
  | cons hit rest ih =>
    unfold HandleTracedObjects.SelectLoop
    split
    · exact ih
    · split
      · exact SelectComponent_LocalLog w s _ b
      · exact SelectActor_LocalLog w s _ b

theorem HandleTracedObjects_LocalLog (w : World) (s : ATransformerPawn)
    (hits : List FHitResult) (b : Bool) : LocalLog s (HandleTracedObjects w s hits b).1 := by
  have h1 : LocalLog s (ClearDomain s) := LocalLog.of_DomainStep (DomainStep.ClearDomain s)
  have h2 : LocalLog s
      (if (ClearDomain s).Gizmo.isSome then HandleTracedObjects.GizmoLoop (ClearDomain s) hits
        else (ClearDomain s, false)).1 := by
    split
    · obtain ⟨l, hl, hl2⟩ := h1
      exact ⟨l, by rw [GizmoLoop_Log, hl], hl2⟩
    · exact h1
  unfold HandleTracedObjects
  simp only
  generalize (if (ClearDomain s).Gizmo.isSome then
    HandleTracedObjects.GizmoLoop (ClearDomain s) hits else (ClearDomain s, false)) = r at h2 ⊢
  by_cases hr : r.2 = true
  · simp only [hr, if_true]; exact h2
  · simp only [hr, if_false]
    exact h2.followedBy (SelectLoop_LocalLog w _ b hits)

theorem TraceByObjectTypes_LocalLog (w : World) (s : ATransformerPawn) (a e : FVector)
    (cc : List ECollisionChannel) (ig : List AActor) (b : Bool) :
    LocalLog s (TraceByObjectTypes w s a e cc ig b).1 := by
  unfold TraceByObjectTypes
  simp only
  split
  · split
    · exact HandleTracedObjects_LocalLog w s _ b
    · exact LocalLog.idle s
  · exact LocalLog.idle s

theorem TraceByChannel_LocalLog (w : World) (s : ATransformerPawn) (a e : FVector)
    (cc : ECollisionChannel) (ig : List AActor) (b : Bool) :
    LocalLog s (TraceByChannel w s a e cc ig b).1 := by
  unfold TraceByChannel
  simp only
  split
  · split
    · exact HandleTracedObjects_LocalLog w s _ b
    · exact LocalLog.idle s
  · exact LocalLog.idle s

theorem TraceByProfile_LocalLog (w : World) (s : ATransformerPawn) (a e : FVector)
    (pn : FName) (ig : List AActor) (b : Bool) :
    LocalLog s (TraceByProfile w s a e pn ig b).1 := by
  unfold TraceByProfile
  simp only
  split
  · split
    · exact HandleTracedObjects_LocalLog w s _ b
    · exact LocalLog.idle s
  · exact LocalLog.idle s

theorem MulticastSetDomain_spec (st : ATransformerPawn) :
    (MulticastSetDomain st st.CurrentDomain).Log =
      st.Log ++ [Event.Multicast (MulticastCall.MulticastSetDomain st.CurrentDomain)] ∧
    (MulticastSetDomain st st.CurrentDomain).CurrentDomain = st.CurrentDomain ∧
    (MulticastSetDomain st st.CurrentDomain).SelectedComponents = st.SelectedComponents := by
  unfold MulticastSetDomain MulticastSetDomain_Implementation
  obtain ⟨d, g, a, hd⟩ := DomainStep.SetDomain
    (st.emit (Event.Multicast (MulticastCall.MulticastSetDomain st.CurrentDomain)))
    st.CurrentDomain
  refine ⟨?_, ?_, ?_⟩
  · rw [hd]; rfl
  · unfold SetDomain; simp only; split <;> rfl
  · rw [hd]; rfl

/-- The two broadcasts that end a server trace, issued from the state `st`. -/
theorem TraceBroadcasts_Log (w : World) (st : ATransformerPawn) :
    ∃ l2, (MulticastSetSelectedComponents w (MulticastSetDomain st st.CurrentDomain)
        (MulticastSetDomain st st.CurrentDomain).SelectedComponents).Log = st.Log ++ l2 ∧
      multicastCalls l2 = [MulticastCall.MulticastSetDomain st.CurrentDomain,
        MulticastCall.MulticastSetSelectedComponents st.SelectedComponents] := by
  obtain ⟨e1, _, e3⟩ := MulticastSetDomain_spec st
  obtain ⟨l2, hl2, hloc2⟩ := MulticastSetSelectedComponents_Implementation_Log w
    ((MulticastSetDomain st st.CurrentDomain).emit
      (Event.Multicast (MulticastCall.MulticastSetSelectedComponents
        (MulticastSetDomain st st.CurrentDomain).SelectedComponents)))
    (MulticastSetDomain st st.CurrentDomain).SelectedComponents
  refine ⟨[Event.Multicast (MulticastCall.MulticastSetDomain st.CurrentDomain),
    Event.Multicast (MulticastCall.MulticastSetSelectedComponents st.SelectedComponents)] ++ l2,
    ?_, ?_⟩
  · unfold MulticastSetSelectedComponents
    rw [hl2]
    simp only [ATransformerPawn.emit, e1, e3, List.append_assoc, List.cons_append,
      List.nil_append]
  · rw [multicastCalls_append, multicastCalls_of_local l2 hloc2]
    rfl

/-- The tail of the `ServerTraceBy…_Implementation` functions issues the two broadcasts with
the domain and the selection it finds after the optional `DeselectAll`. -/
theorem ServerTraceBroadcast_spec (w : World) (s0 s : ATransformerPawn) (ok b : Bool)
    (h0 : LocalLog s0 s) :
    BroadcastsTraceResult s0
      (if !ok && !b then (DeselectAll w s false).1 else s)
      (ServerTraceBroadcast w s ok b) := by
  have hst : LocalLog s0 (if !ok && !b then (DeselectAll w s false).1 else s) := by
    split
    · exact h0.followedBy (LocalLog.of_LocalStep (DeselectAll_false_LocalStep w s))
    · exact h0
  obtain ⟨l1, hl1, hloc1⟩ := hst
  obtain ⟨l2, hl2, hm2⟩ := TraceBroadcasts_Log w
    (if !ok && !b then (DeselectAll w s false).1 else s)
  exact ⟨l1, l2, hl1, multicastCalls_of_local l1 hloc1, hl2, hm2⟩


/-- C14. On the authority, a trace requested by a remote peer
(`ServerTraceByObjectTypes/Channel/Profile_Implementation`) ends with exactly the two
broadcasts `MulticastSetDomain(CurrentDomain)` and
`MulticastSetSelectedComponents(SelectedComponents)` carrying the state after the trace. A
trace started on the authority itself through
`ReplicatedMouseTraceByObjectTypes/Channel/Profile` does not: `ReplicateServerTraceResults`
does nothing on the authority, the pawn ends in the state the local trace left, and nothing
is broadcast. -/
theorem C14_authority_trace_broadcast (w : World) (s : ATransformerPawn) (TraceDistance : ℚ)
    (CollisionChannels : List ECollisionChannel) (CollisionChannel : ECollisionChannel)
    (ProfileName : FName) (bAppendToList : Bool) (start end_ : FVector)
    (ha : w.IsAuthority = true)
    (hray : GetMouseStartEndPoints w TraceDistance = some (start, end_)) :
    BroadcastsTraceResult s
      (if !(TraceByObjectTypes w s start end_ CollisionChannels
            (GetIgnoredActorsForServerTrace w s) bAppendToList).2 && !bAppendToList then
          (DeselectAll w (TraceByObjectTypes w s start end_ CollisionChannels
            (GetIgnoredActorsForServerTrace w s) bAppendToList).1 false).1
        else (TraceByObjectTypes w s start end_ CollisionChannels
          (GetIgnoredActorsForServerTrace w s) bAppendToList).1)
      (ServerTraceByObjectTypes_Implementation w s start end_ CollisionChannels
        bAppendToList) ∧
    BroadcastsTraceResult s
      (if !(TraceByChannel w s start end_ CollisionChannel
            (GetIgnoredActorsForServerTrace w s) bAppendToList).2 && !bAppendToList then
          (DeselectAll w (TraceByChannel w s start end_ CollisionChannel
            (GetIgnoredActorsForServerTrace w s) bAppendToList).1 false).1
        else (TraceByChannel w s start end_ CollisionChannel
          (GetIgnoredActorsForServerTrace w s) bAppendToList).1)
      (ServerTraceByChannel_Implementation w s start end_ CollisionChannel bAppendToList) ∧
    BroadcastsTraceResult s
      (if !(TraceByProfile w s start end_ ProfileName
            (GetIgnoredActorsForServerTrace w s) bAppendToList).2 && !bAppendToList then
          (DeselectAll w (TraceByProfile w s start end_ ProfileName
            (GetIgnoredActorsForServerTrace w s) bAppendToList).1 false).1
        else (TraceByProfile w s start end_ ProfileName
          (GetIgnoredActorsForServerTrace w s) bAppendToList).1)
      (ServerTraceByProfile_Implementation w s start end_ ProfileName bAppendToList) ∧
    (∀ bTraceSuccessful,
      ReplicateServerTraceResults w s bTraceSuccessful bAppendToList = s) ∧
    ReplicatedMouseTraceByObjectTypes w s TraceDistance CollisionChannels bAppendToList =
      (TraceByObjectTypes w s start end_ CollisionChannels [] bAppendToList).1 ∧
    ReplicatedMouseTraceByChannel w s TraceDistance CollisionChannel bAppendToList =
      (TraceByChannel w s start end_ CollisionChannel [] bAppendToList).1 ∧
    ReplicatedMouseTraceByProfile w s TraceDistance ProfileName bAppendToList =
      (TraceByProfile w s start end_ ProfileName [] bAppendToList).1 ∧
    (∃ l, (ReplicatedMouseTraceByObjectTypes w s TraceDistance CollisionChannels
        bAppendToList).Log = s.Log ++ l ∧ multicastCalls l = []) ∧
    (∃ l, (ReplicatedMouseTraceByChannel w s TraceDistance CollisionChannel
        bAppendToList).Log = s.Log ++ l ∧ multicastCalls l = []) ∧
    (∃ l, (ReplicatedMouseTraceByProfile w s TraceDistance ProfileName
        bAppendToList).Log = s.Log ++ l ∧ multicastCalls l = []) := by
  have hdead : ∀ (t : ATransformerPawn) (ok : Bool),
      ReplicateServerTraceResults w t ok bAppendToList = t := by
    intro t ok
    simp only [ReplicateServerTraceResults, ha, Bool.not_true, Bool.false_eq_true, if_false]
  have h1 : ReplicatedMouseTraceByObjectTypes w s TraceDistance CollisionChannels
      bAppendToList = (TraceByObjectTypes w s start end_ CollisionChannels [] bAppendToList).1
      := by
    simp only [ReplicatedMouseTraceByObjectTypes, hray, ha, if_true, hdead]
  have h2 : ReplicatedMouseTraceByChannel w s TraceDistance CollisionChannel bAppendToList =
      (TraceByChannel w s start end_ CollisionChannel [] bAppendToList).1 := by
    simp only [ReplicatedMouseTraceByChannel, hray, ha, if_true, hdead]
  have h3 : ReplicatedMouseTraceByProfile w s TraceDistance ProfileName bAppendToList =
      (TraceByProfile w s start end_ ProfileName [] bAppendToList).1 := by
    simp only [ReplicatedMouseTraceByProfile, hray, ha, if_true, hdead]
  refine ⟨?_, ?_, ?_, hdead s, h1, h2, h3, ?_, ?_, ?_⟩
  · exact ServerTraceBroadcast_spec w s _ _ bAppendToList
      (TraceByObjectTypes_LocalLog w s start end_ CollisionChannels _ bAppendToList)
  · exact ServerTraceBroadcast_spec w s _ _ bAppendToList
      (TraceByChannel_LocalLog w s start end_ CollisionChannel _ bAppendToList)
  · exact ServerTraceBroadcast_spec w s _ _ bAppendToList
      (TraceByProfile_LocalLog w s start end_ ProfileName _ bAppendToList)
  · rw [h1]
    obtain ⟨l, hl, hloc⟩ :=
      TraceByObjectTypes_LocalLog w s start end_ CollisionChannels [] bAppendToList
    exact ⟨l, hl, multicastCalls_of_local l hloc⟩
  · rw [h2]
    obtain ⟨l, hl, hloc⟩ :=
      TraceByChannel_LocalLog w s start end_ CollisionChannel [] bAppendToList
    exact ⟨l, hl, multicastCalls_of_local l hloc⟩
  · rw [h3]
    obtain ⟨l, hl, hloc⟩ :=
      TraceByProfile_LocalLog w s start end_ ProfileName [] bAppendToList
    exact ⟨l, hl, multicastCalls_of_local l hloc⟩

/-- C14 on the example authority: the pointer trace started on the authority selects the
component `20` and broadcasts nothing, while the same trace requested by a remote peer
broadcasts the domain and the selection `[20]`. -/
theorem C14_authority_trace_broadcast_witness :
    exampleWorld.IsAuthority = true ∧ examplePawn.Log = [] ∧
    (ReplicatedMouseTraceByObjectTypes exampleWorld examplePawn 1000 [0]
      false).SelectedComponents = [some 20] ∧
    (∃ l, (ReplicatedMouseTraceByObjectTypes exampleWorld examplePawn 1000 [0] false).Log =
      examplePawn.Log ++ l ∧ multicastCalls l = []) ∧
    multicastCalls (ServerTraceByObjectTypes_Implementation exampleWorld examplePawn
      ⟨0, 0, 0⟩ ((⟨0, 0, 0⟩ : FVector).add (FVector.smul 1000 ⟨1, 0, 0⟩)) [0] false).Log =
      [MulticastCall.MulticastSetDomain ETransformationDomain.TD_None,
        MulticastCall.MulticastSetSelectedComponents [some 20]] := by
  have h := C14_authority_trace_broadcast exampleWorld examplePawn 1000 [0] 0 0 false
    ⟨0, 0, 0⟩ ((⟨0, 0, 0⟩ : FVector).add (FVector.smul 1000 ⟨1, 0, 0⟩)) rfl rfl
  refine ⟨rfl, rfl, by decide, h.2.2.2.2.2.2.2.1, by decide⟩


/-! ## Cloning over the network -/

/-- C19. In part-based mode (`bComponentBased = true`) `ServerCloneSelected_Implementation`
returns at once, for every value of the two flags: the state is unchanged. The request
`ServerCloneSelected` therefore only records that it was issued: no component or actor is
created, `SelectedComponents` and `UnreplicatedComponentClones` are unchanged, the poll timer
is not started and nothing is broadcast. -/
theorem C19_component_clone_unsupported (w : World) (s : ATransformerPawn)
    (bSelectNewClones bAppendToList : Bool) (fuel : Nat) (h : s.bComponentBased = true) :
    ServerCloneSelected_Implementation w s bSelectNewClones bAppendToList fuel = some s ∧
    ∃ s1, ServerCloneSelected w s bSelectNewClones bAppendToList fuel = some s1 ∧
      s1.Log = s.Log ++
        [Event.Server (ServerCall.ServerCloneSelected bSelectNewClones bAppendToList)] ∧
      multicastCalls s1.Log = multicastCalls s.Log ∧
      s1.SelectedComponents = s.SelectedComponents ∧
      s1.UnreplicatedComponentClones = s.UnreplicatedComponentClones ∧
      s1.CheckUnrepTimerActive = s.CheckUnrepTimerActive ∧
      s1.SceneState = s.SceneState := by
  have himpl : ∀ t : ATransformerPawn, t.bComponentBased = true →
      ServerCloneSelected_Implementation w t bSelectNewClones bAppendToList fuel = some t := by
    intro t ht
    simp only [ServerCloneSelected_Implementation, ht, if_true]
  refine ⟨himpl s h, s.emit (Event.Server
    (ServerCall.ServerCloneSelected bSelectNewClones bAppendToList)), ?_, rfl, ?_, rfl, rfl,
    rfl, rfl⟩
  · unfold ServerCloneSelected
    simp only
    split
    · exact himpl _ h
    · rfl
  · simp [ATransformerPawn.emit, multicastCalls, List.filterMap_append]

/-- C19 on a part-based pawn with two selected components, on the authority. -/
theorem C19_component_clone_unsupported_witness :
    exampleWorld.IsAuthority = true ∧
    (ServerCloneSelected_Implementation exampleWorld
      { selectedPawn true with bComponentBased := true } true false 3).isSome = true ∧
    ∃ s1, ServerCloneSelected exampleWorld { selectedPawn true with bComponentBased := true }
        true false 3 = some s1 ∧
      multicastCalls s1.Log = multicastCalls (selectedPawn true).Log ∧
      s1.SelectedComponents = [some 10, some 20] ∧ s1.UnreplicatedComponentClones = [] ∧
      s1.CheckUnrepTimerActive = false ∧ s1.SceneState.NextObject = 5000 := by
  obtain ⟨h0, s1, h1, _, h3, h4, h5, h6, h7⟩ := C19_component_clone_unsupported exampleWorld
    { selectedPawn true with bComponentBased := true } true false 3 rfl
  refine ⟨rfl, by rw [h0]; rfl, s1, h1, h3, ?_, ?_, ?_, ?_⟩
  · rw [h4]; decide
  · rw [h5]; decide
  · rw [h6]; decide
  · rw [h7]; decide


theorem TArray.RemoveAtSwap0_perm {α : Type} (l : List α) (n : Nat) (hn : n ≤ l.length) :
    (TArray.RemoveAtSwap0 l n).Perm (l.drop n) := by
  unfold TArray.RemoveAtSwap0
  simp only
  have h1 : l.drop (l.length - min n (l.length - n)) =
      (l.drop n).drop (l.length - n - min n (l.length - n)) := by
    rw [List.drop_drop]
    congr 1
    omega
  rw [h1]
  exact (List.perm_append_comm).trans (by rw [List.take_append_drop])

theorem TArray.RemoveAtSwap0_all {α : Type} (l : List α) :
    TArray.RemoveAtSwap0 l l.length = [] := by
  unfold TArray.RemoveAtSwap0
  simp

theorem MulticastSetSelectedComponents_Implementation_clones (w : World)
    (s : ATransformerPawn) (Components : List (Option USceneComponent)) :
    (MulticastSetSelectedComponents_Implementation w s Components).UnreplicatedComponentClones =
      s.UnreplicatedComponentClones ∧
    (MulticastSetSelectedComponents_Implementation w s Components).CheckUnrepTimerActive =
      s.CheckUnrepTimerActive := by
  obtain ⟨sel, g, l, h, _⟩ := (DeselectAll_false_LocalStep w s).trans
    (SelectMultipleComponents_LocalStep w (DeselectAll w s false).1 Components true)
  unfold MulticastSetSelectedComponents_Implementation
  simp only [h]
  split
  · split
    · split <;> exact ⟨rfl, rfl⟩
    · exact ⟨rfl, rfl⟩
  · exact ⟨rfl, rfl⟩

/-- A poll of `CheckUnreplicatedActors` in terms of `ReadyCount`. -/
theorem CheckUnreplicatedActors_eq (w : World) (s : ATransformerPawn)
    (HasBegunPlay : USceneComponent → Bool) (timeElapsed : ℚ) :
    CheckUnreplicatedActors w s HasBegunPlay timeElapsed =
      if (TArray.RemoveAtSwap0 s.UnreplicatedComponentClones
          (ReadyCount w s HasBegunPlay timeElapsed)).length = 0 then
        MulticastSetSelectedComponents w
          { s with
            UnreplicatedComponentClones := TArray.RemoveAtSwap0 s.UnreplicatedComponentClones
              (ReadyCount w s HasBegunPlay timeElapsed)
            CheckUnrepTimerActive := false } s.SelectedComponents
      else
        { s with
          UnreplicatedComponentClones := TArray.RemoveAtSwap0 s.UnreplicatedComponentClones
            (ReadyCount w s HasBegunPlay timeElapsed) } := rfl

theorem ReadyCount_le (w : World) (s : ATransformerPawn)
    (HasBegunPlay : USceneComponent → Bool) (timeElapsed : ℚ) :
    ReadyCount w s HasBegunPlay timeElapsed ≤ s.UnreplicatedComponentClones.length :=
  List.length_filter_le _ _

/-- C18. A poll of `CheckUnreplicatedActors` in which every recorded clone is ready issues
exactly one `MulticastSetSelectedComponents(SelectedComponents)`, clears the poll timer and
empties `UnreplicatedComponentClones`. A poll in which fewer clones are ready than are
recorded sends nothing, but it removes the first `RemoveCount` recorded clones, ready or not:
what stays is a rearrangement of the list without its first `RemoveCount` entries. A clone
that was never ready can so leave the list, and the broadcast can fire before it is ready. -/
theorem C18_clone_poll (w : World) (s : ATransformerPawn)
    (HasBegunPlay : USceneComponent → Bool) (timeElapsed : ℚ) :
    (ReadyCount w s HasBegunPlay timeElapsed = s.UnreplicatedComponentClones.length →
      ∃ l, (CheckUnreplicatedActors w s HasBegunPlay timeElapsed).Log = s.Log ++ l ∧
        multicastCalls l =
          [MulticastCall.MulticastSetSelectedComponents s.SelectedComponents] ∧
        (CheckUnreplicatedActors w s HasBegunPlay timeElapsed).CheckUnrepTimerActive = false ∧
        (CheckUnreplicatedActors w s HasBegunPlay timeElapsed).UnreplicatedComponentClones
          = []) ∧
    (ReadyCount w s HasBegunPlay timeElapsed < s.UnreplicatedComponentClones.length →
      CheckUnreplicatedActors w s HasBegunPlay timeElapsed =
        { s with
          UnreplicatedComponentClones := TArray.RemoveAtSwap0 s.UnreplicatedComponentClones
            (ReadyCount w s HasBegunPlay timeElapsed) } ∧
      (TArray.RemoveAtSwap0 s.UnreplicatedComponentClones
        (ReadyCount w s HasBegunPlay timeElapsed)).Perm
        (s.UnreplicatedComponentClones.drop (ReadyCount w s HasBegunPlay timeElapsed))) := by
  refine ⟨?_, ?_⟩
  · intro hall
    rw [CheckUnreplicatedActors_eq, hall, TArray.RemoveAtSwap0_all]
    simp only [List.length_nil, if_true]
    obtain ⟨l, hl, hloc⟩ := MulticastSetSelectedComponents_Implementation_Log w
      (({ s with UnreplicatedComponentClones := [], CheckUnrepTimerActive := false }).emit
        (Event.Multicast (MulticastCall.MulticastSetSelectedComponents s.SelectedComponents)))
      s.SelectedComponents
    obtain ⟨hc1, hc2⟩ := MulticastSetSelectedComponents_Implementation_clones w
      (({ s with UnreplicatedComponentClones := [], CheckUnrepTimerActive := false }).emit
        (Event.Multicast (MulticastCall.MulticastSetSelectedComponents s.SelectedComponents)))
      s.SelectedComponents
    refine ⟨[Event.Multicast (MulticastCall.MulticastSetSelectedComponents
      s.SelectedComponents)] ++ l, ?_, ?_, ?_, ?_⟩
    · unfold MulticastSetSelectedComponents
      rw [hl]
      simp [ATransformerPawn.emit]
    · rw [multicastCalls_append, multicastCalls_of_local l hloc]
      rfl
    · unfold MulticastSetSelectedComponents
      rw [hc2]; rfl
    · unfold MulticastSetSelectedComponents
      rw [hc1]; rfl
  · intro hlt
    have hperm := TArray.RemoveAtSwap0_perm s.UnreplicatedComponentClones
      (ReadyCount w s HasBegunPlay timeElapsed) (Nat.le_of_lt hlt)
    refine ⟨?_, hperm⟩
    rw [CheckUnreplicatedActors_eq]
    have hlen : (TArray.RemoveAtSwap0 s.UnreplicatedComponentClones
        (ReadyCount w s HasBegunPlay timeElapsed)).length ≠ 0 := by
      rw [hperm.length_eq, List.length_drop]
      omega
    simp only [hlen, if_false]

/-- C18 on two recorded clones of which only the second ever begins play: the first poll
removes the first clone, which is not ready, and keeps the second; the second poll finds the
one remaining clone ready, broadcasts the selection with both clones and clears the timer,
although the clone `50000` was not ready in either poll. -/
theorem C18_clone_poll_witness :
    clonedPawn.UnreplicatedComponentClones = [some 50000, some 50010] ∧
    clonedPawn.SelectedComponents = [some 50000, some 50010] ∧
    clonedPawn.CheckUnrepTimerActive = true ∧
    onlySecondBegunPlay 50000 = false ∧
    (CheckUnreplicatedActors exampleWorld clonedPawn onlySecondBegunPlay
      1).UnreplicatedComponentClones = [some 50010] ∧
    (CheckUnreplicatedActors exampleWorld clonedPawn onlySecondBegunPlay 1).Log =
      clonedPawn.Log ∧
    ∃ l, (CheckUnreplicatedActors exampleWorld
        (CheckUnreplicatedActors exampleWorld clonedPawn onlySecondBegunPlay 1)
        onlySecondBegunPlay 1).Log = clonedPawn.Log ++ l ∧
      multicastCalls l =
        [MulticastCall.MulticastSetSelectedComponents [some 50000, some 50010]] ∧
      (CheckUnreplicatedActors exampleWorld
        (CheckUnreplicatedActors exampleWorld clonedPawn onlySecondBegunPlay 1)
        onlySecondBegunPlay 1).CheckUnrepTimerActive = false := by
  have hU : clonedPawn.UnreplicatedComponentClones = [some 50000, some 50010] := by decide
  have hS : clonedPawn.SelectedComponents = [some 50000, some 50010] := by decide
  have hM : clonedPawn.MinimumCloneReplicationTime = 1 / 100 := rfl
  have hr1 : ReadyCount exampleWorld clonedPawn onlySecondBegunPlay 1 = 1 := by
    unfold ReadyCount
    rw [hU, hM]
    have ht : decide ((1 : ℚ) > 1 / 100) = true := by
      rw [decide_eq_true_eq]; norm_num
    simp only [List.filter, ht, Bool.and_true]
    decide
  have hp1 := (C18_clone_poll exampleWorld clonedPawn onlySecondBegunPlay 1).2
    (by rw [hr1, hU]; decide)
  have h1 : CheckUnreplicatedActors exampleWorld clonedPawn onlySecondBegunPlay 1 =
      { clonedPawn with UnreplicatedComponentClones := [some 50010] } := by
    rw [hp1.1, hr1, hU]
    rfl
  have hr2 : ReadyCount exampleWorld
      { clonedPawn with UnreplicatedComponentClones := [some 50010] }
      onlySecondBegunPlay 1 = 1 := by
    unfold ReadyCount
    have hM2 : ({ clonedPawn with UnreplicatedComponentClones := [some 50010] } :
        ATransformerPawn).MinimumCloneReplicationTime = 1 / 100 := rfl
    rw [hM2]
    have ht : decide ((1 : ℚ) > 1 / 100) = true := by
      rw [decide_eq_true_eq]; norm_num
    simp only [List.filter, ht, Bool.and_true]
    decide
  obtain ⟨l, hl, hm, ht, _⟩ := (C18_clone_poll exampleWorld
    { clonedPawn with UnreplicatedComponentClones := [some 50010] }
    onlySecondBegunPlay 1).1 (by rw [hr2]; rfl)
  refine ⟨hU, hS, by decide, by decide, ?_, ?_, ?_⟩
  · rw [h1]
  · rw [h1]
  · rw [h1]
    refine ⟨l, hl, ?_, ht⟩
    rw [hm]
    exact congrArg (fun x => [MulticastCall.MulticastSetSelectedComponents x]) hS


/-! ## Cloning of components -/

theorem TMap.Add_of_not_mem {κ ν : Type} [DecidableEq κ] (l : List (κ × ν)) (key : κ)
    (val : ν) (h : key ∉ l.map Prod.fst) : TMap.Add l key val = l ++ [(key, val)] := by
  induction l with
  | nil => rfl
  | cons kv rest ih =>
    obtain ⟨k, v⟩ := kv
    simp only [List.map_cons, List.mem_cons, not_or] at h
    have hk : ¬ k = key := fun e => h.1 e.symm
    simp only [TMap.Add, hk, if_false, List.cons_append, ih h.2]

theorem TMap.Find_eq_none_iff {κ ν : Type} [DecidableEq κ] (l : List (κ × ν)) (key : κ) :
    TMap.Find l key = none ↔ ∀ v, (key, v) ∉ l := by
  induction l with
  | nil => simp [TMap.Find]
  | cons kv rest ih =>
    obtain ⟨k, v⟩ := kv
    by_cases hk : k = key
    · subst hk
      simp only [TMap.Find, if_true]
      constructor
      · intro h; cases h
      · intro h; exact absurd (List.mem_cons_self _ _) (h v)
    · simp only [TMap.Find, hk, if_false, ih]
      constructor
      · intro h v2 hm
        rcases List.mem_cons.1 hm with e | e
        · exact hk (Prod.mk.inj e).1.symm
        · exact h v2 e
      · intro h v2 hm
        exact h v2 (List.mem_cons_of_mem _ hm)

theorem TMap.Find_eq_some_of_mem {κ ν : Type} [DecidableEq κ] (l : List (κ × ν)) (key : κ) (val : ν)
    (hnd : (l.map Prod.fst).Nodup) (h : (key, val) ∈ l) : TMap.Find l key = some val := by
  induction l with
  | nil => cases h
  | cons kv rest ih =>
    obtain ⟨k, v⟩ := kv
    simp only [List.map_cons, List.nodup_cons] at hnd
    rcases List.mem_cons.1 h with e | e
    · obtain ⟨e1, e2⟩ := Prod.mk.inj e
      subst e1; subst e2
      simp only [TMap.Find, if_true]
    · have hk : ¬ k = key := by
        intro hk
        subst hk
        exact hnd.1 (List.mem_map.2 ⟨(k, val), e, rfl⟩)
      simp only [TMap.Find, hk, if_false]
      exact ih hnd.2 e

theorem TMap.mem_of_Find {κ ν : Type} [DecidableEq κ] (l : List (κ × ν)) (key : κ) (val : ν)
    (h : TMap.Find l key = some val) : (key, val) ∈ l := by
  induction l with
  | nil => cases h
  | cons kv rest ih =>
    obtain ⟨k, v⟩ := kv
    by_cases hk : k = key
    · subst hk
      simp only [TMap.Find, if_true, Option.some.injEq] at h
      subst h
      exact List.mem_cons_self _ _
    · simp only [TMap.Find, hk, if_false] at h
      exact List.mem_cons_of_mem _ (ih h)

theorem ClonePairs_fst (T : List USceneComponent) :
    ∀ N, (ClonePairs N T).map Prod.fst = T := by
  induction T with
  | nil => intro N; rfl
  | cons c rest ih => intro N; simp only [ClonePairs, List.map_cons, ih]

theorem ClonePairs_snd_ge (T : List USceneComponent) :
    ∀ N ck, ck ∈ ClonePairs N T → N ≤ ck.2 := by
  induction T with
  | nil => intro N ck h; cases h
  | cons c rest ih =>
    intro N ck h
    rcases List.mem_cons.1 h with e | e
    · rw [e]
    · exact Nat.le_of_succ_le (ih (N + 1) ck e)

theorem ClonePairs_snd_inj (T : List USceneComponent) :
    ∀ N c1 c2 k, (c1, k) ∈ ClonePairs N T → (c2, k) ∈ ClonePairs N T → c1 = c2 := by
  induction T with
  | nil => intro N c1 c2 k h; cases h
  | cons c rest ih =>
    intro N c1 c2 k h1 h2
    rcases List.mem_cons.1 h1 with e1 | e1 <;> rcases List.mem_cons.1 h2 with e2 | e2
    · rw [(Prod.mk.inj e1).1, (Prod.mk.inj e2).1]
    · have hge : N + 1 ≤ k := ClonePairs_snd_ge rest (N + 1) (c2, k) e2
      have hk : k = N := (Prod.mk.inj e1).2
      rw [hk] at hge
      exact absurd hge (Nat.not_succ_le_self N)
    · have hge : N + 1 ≤ k := ClonePairs_snd_ge rest (N + 1) (c1, k) e1
      have hk : k = N := (Prod.mk.inj e2).2
      rw [hk] at hge
      exact absurd hge (Nat.not_succ_le_self N)
    · exact ih (N + 1) c1 c2 k e1 e2

theorem CloneTemplates_none (w : World) (rest : List (Option USceneComponent)) :
    CloneTemplates w (none :: rest) = CloneTemplates w rest := rfl

theorem CloneTemplates_some (w : World) (c : USceneComponent)
    (rest : List (Option USceneComponent)) :
    CloneTemplates w (some c :: rest) =
      if ((w.GetOwner c).isSome && w.DuplicateSucceeds c) = true then
        c :: CloneTemplates w rest
      else CloneTemplates w rest := by
  simp only [CloneTemplates, List.filterMap_cons, id, List.filter_cons]

theorem CloneTemplates_mem (w : World) (Components : List (Option USceneComponent))
    (c : USceneComponent) (h : c ∈ CloneTemplates w Components) :
    some c ∈ Components ∧ ∃ owner, w.GetOwner c = some owner := by
  unfold CloneTemplates at h
  rw [List.mem_filter, List.mem_filterMap] at h
  obtain ⟨⟨x, hx, hxc⟩, hcond⟩ := h
  simp only [id] at hxc
  subst hxc
  refine ⟨hx, ?_⟩
  cases ho : w.GetOwner c with
  | none => rw [ho] at hcond; cases hcond
  | some owner => exact ⟨owner, rfl⟩


/-- The clone phase: every template is duplicated once, in order, under the next free
handles; `OcCc` and `CcOp` receive one entry per template. -/
theorem ClonePhase_spec (w : World) (Components : List (Option USceneComponent)) :
    ∀ (s : ATransformerPawn) (m : CloneComponents.Locals),
    (CloneTemplates w Components).Nodup →
    (∀ c ∈ CloneTemplates w Components, c ∉ m.OcCc.map Prod.fst) →
    (∀ k ∈ m.CcOp.map Prod.fst, k < s.SceneState.NextObject) →
    (CloneComponents.ClonePhase w s m Components).1.Log = s.Log ++
      (ClonePairs s.SceneState.NextObject (CloneTemplates w Components)).map
        (fun ck => Event.DuplicateObject ck.1 ck.2) ∧
    (CloneComponents.ClonePhase w s m Components).2.outClones = m.outClones ++
      (ClonePairs s.SceneState.NextObject (CloneTemplates w Components)).map
        (fun ck => some ck.2) ∧
    (CloneComponents.ClonePhase w s m Components).2.OcCc = m.OcCc ++
      ClonePairs s.SceneState.NextObject (CloneTemplates w Components) ∧
    (CloneComponents.ClonePhase w s m Components).2.CcOp = m.CcOp ++
      (ClonePairs s.SceneState.NextObject (CloneTemplates w Components)).map
        (fun ck => (ck.2, OriginalParent w ck.1)) := by
  induction Components with
  | nil =>
    intro s m _ _ _
    simp [CloneComponents.ClonePhase, CloneTemplates, ClonePairs]
  | cons x rest ih =>
    intro s m hnd hO hC
    cases x with
    | none =>
      rw [CloneTemplates_none] at hnd hO ⊢
      exact ih s m hnd hO hC
    | some c =>
      rw [CloneTemplates_some] at hnd hO ⊢
      cases ho : w.GetOwner c with
      | none =>
        simp only [ho, Option.isSome_none, Bool.false_and, Bool.false_eq_true, if_false]
          at hnd hO ⊢
        simp only [CloneComponents.ClonePhase, ho]
        exact ih s m hnd hO hC
      | some owner =>
        cases hd : w.DuplicateSucceeds c with
        | false =>
          simp only [ho, hd, Bool.and_false, Bool.false_eq_true, if_false] at hnd hO ⊢
          simp only [CloneComponents.ClonePhase, ho, hd, Bool.false_eq_true, if_false]
          exact ih s m hnd hO hC
        | true =>
          simp only [ho, hd, Option.isSome_some, Bool.and_self, if_true] at hnd hO ⊢
          rw [List.nodup_cons] at hnd
          have hcO : c ∉ m.OcCc.map Prod.fst := hO c (List.mem_cons_self _ _)
          have hNC : s.SceneState.NextObject ∉ m.CcOp.map Prod.fst :=
            fun h => Nat.lt_irrefl _ (hC _ h)
          simp only [CloneComponents.ClonePhase, ho, hd, if_true,
            TMap.Add_of_not_mem _ _ _ hcO, TMap.Add_of_not_mem _ _ _ hNC]
          obtain ⟨i1, i2, i3, i4⟩ := ih
            (({ s with
                SceneState :=
                  { s.SceneState with NextObject := s.SceneState.NextObject + 1 } }).emit
              (Event.DuplicateObject c s.SceneState.NextObject))
            { outClones := m.outClones ++ [some s.SceneState.NextObject]
              OcCc := m.OcCc ++ [(c, s.SceneState.NextObject)]
              CcOp := m.CcOp ++ [(s.SceneState.NextObject,
                if some c = w.GetRootComponent owner then w.GetRootComponent owner
                else w.GetAttachParent c)] }
            hnd.2
            (by
              intro c2 hc2
              simp only [List.map_append, List.map_cons, List.map_nil, List.mem_append,
                List.mem_singleton, not_or]
              refine ⟨hO c2 (List.mem_cons_of_mem _ hc2), ?_⟩
              intro e
              rw [e] at hc2
              exact hnd.1 hc2)
            (by
              intro k hk
              simp only [List.map_append, List.map_cons, List.map_nil, List.mem_append,
                List.mem_singleton] at hk
              rcases hk with hk | hk
              · exact Nat.lt_succ_of_lt (hC k hk)
              · rw [hk]; exact Nat.lt_succ_self _)
          have hop : OriginalParent w c =
              (if some c = w.GetRootComponent owner then w.GetRootComponent owner
                else w.GetAttachParent c) := by
            simp only [OriginalParent, ho]
          refine ⟨?_, ?_, ?_, ?_⟩
          · rw [i1]
            simp only [ATransformerPawn.emit, ClonePairs, List.map_cons, List.append_assoc,
              List.cons_append, List.nil_append]
          · rw [i2]
            simp only [ATransformerPawn.emit, ClonePairs, List.map_cons, List.append_assoc,
              List.cons_append, List.nil_append]
          · rw [i3]
            simp only [ATransformerPawn.emit, ClonePairs, List.append_assoc,
              List.cons_append, List.nil_append]
          · rw [i4]
            simp only [ATransformerPawn.emit, ClonePairs, List.map_cons, List.append_assoc,
              List.cons_append, List.nil_append, hop]


/-- The parent walk in a well-formed hierarchy: from an uncloned component `x` of the actor
`A`, with more fuel than the depth of `x`, the walk ends with the target that
`NearestClonedAncestor` describes; the target is the original parent or the clone of a
component above `x`. -/
theorem FindParent_spec (w : World) (P : List (USceneComponent × USceneComponent))
    (depth : USceneComponent → Nat) (hwf : WellFormedHierarchy w depth)
    (p0 : USceneComponent) (A : AActor) (fuel : Nat) :
    ∀ x, w.GetOwner x = some A → TMap.Find P x = none → depth x < fuel →
    ∃ t, CloneComponents.FindParent w P p0 (some A) fuel (some x) = some t ∧
      NearestClonedAncestor w P p0 (w.GetRootComponent A) x t ∧
      (t = p0 ∨ ∃ a, (a, t) ∈ P ∧ depth a < depth x) := by
  induction fuel with
  | zero => intro x _ _ h; exact absurd h (Nat.not_lt_zero _)
  | succ fuel ih =>
    intro x hox hfx hdx
    have hnc : ∀ cl, (x, cl) ∉ P := (TMap.Find_eq_none_iff P x).1 hfx
    by_cases hroot : some x = w.GetRootComponent A
    · refine ⟨p0, ?_, NearestClonedAncestor.atRoot x hnc hroot, Or.inl rfl⟩
      simp only [CloneComponents.FindParent, hroot, if_true]
    · obtain ⟨q, hq, hoq, hdq⟩ := hwf x A hox (fun e => hroot e.symm)
      cases hfq : TMap.Find P q with
      | some cl =>
        have hmem := TMap.mem_of_Find P q cl hfq
        refine ⟨cl, ?_, NearestClonedAncestor.up x q cl hnc hroot hq
          (NearestClonedAncestor.cloned q cl hmem), Or.inr ⟨q, hmem, hdq⟩⟩
        simp only [CloneComponents.FindParent, hroot, if_false, hq, Option.bind, hfq]
      | none =>
        obtain ⟨t, ht, hsp, hcase⟩ := ih q hoq hfq (by omega)
        refine ⟨t, ?_, NearestClonedAncestor.up x q t hnc hroot hq hsp, ?_⟩
        · simp only [CloneComponents.FindParent, hroot, if_false, hq, Option.bind, hfq]
          exact ht
        · rcases hcase with h | ⟨a, ha, hda⟩
          · exact Or.inl h
          · exact Or.inr ⟨a, ha, by omega⟩

/-- One reparenting step for the clone `k` of the template `c`. -/
theorem Reparent_spec (w : World) (N : Nat) (T : List USceneComponent)
    (depth : USceneComponent → Nat) (hwf : WellFormedHierarchy w depth) (fuel : Nat)
    (hT : T.Nodup) (s : ATransformerPawn) (c k : USceneComponent)
    (hck : (c, k) ∈ ClonePairs N T) (owner : AActor) (ho : w.GetOwner c = some owner)
    (hcN : c < N) (hpN : ∀ p, w.GetAttachParent c = some p → p < N)
    (hfuel : depth c ≤ fuel) :
    ∃ t, CloneComponents.Reparent w (ClonePairs N T) fuel s (k, OriginalParent w c) =
        some (s.emit (Event.AttachToComponent k t)) ∧
      AttachTarget w (ClonePairs N T) c t ∧ t ≠ k := by
  have hkeys : ((ClonePairs N T).map Prod.fst).Nodup := by rw [ClonePairs_fst]; exact hT
  have hkN : N ≤ k := ClonePairs_snd_ge T N (c, k) hck
  by_cases hroot : some c = w.GetRootComponent owner
  · have hop : OriginalParent w c = some c := by
      simp only [OriginalParent, ho, hroot, if_true]
    have hfind := TMap.Find_eq_some_of_mem _ c k hkeys hck
    refine ⟨c, ?_, Or.inl ⟨⟨owner, ho, hroot.symm⟩, rfl⟩, ?_⟩
    · simp only [CloneComponents.Reparent, hop, hfind, ne_eq, not_true_eq_false, if_false,
        Option.map]
    · intro e
      rw [e] at hcN
      exact absurd hkN (Nat.not_le_of_lt hcN)
  · obtain ⟨p, hp, hop2, hdp⟩ := hwf c owner ho (fun e => hroot e.symm)
    have hop : OriginalParent w c = some p := by
      simp only [OriginalParent, ho, hroot, if_false, hp]
    have hnotroot : ¬ IsRootComponent w c := by
      rintro ⟨o2, ho2, hr2⟩
      rw [ho] at ho2
      cases ho2
      exact hroot hr2.symm
    cases hfp : TMap.Find (ClonePairs N T) p with
    | some cl =>
      have hmem := TMap.mem_of_Find _ p cl hfp
      have hne : cl ≠ k := by
        intro e
        rw [e] at hmem
        have := ClonePairs_snd_inj T N p c k hmem hck
        rw [this] at hdp
        exact Nat.lt_irrefl _ hdp
      refine ⟨cl, ?_, Or.inr ⟨hnotroot, p, owner, hp, hop2,
        NearestClonedAncestor.cloned p cl hmem⟩, hne⟩
      simp only [CloneComponents.Reparent, hop, hfp, ne_eq, hne, not_false_eq_true, if_true,
        Option.map]
    | none =>
      obtain ⟨t, ht, hsp, hcase⟩ := FindParent_spec w (ClonePairs N T) depth hwf p owner fuel
        p hop2 hfp (by omega)
      refine ⟨t, ?_, Or.inr ⟨hnotroot, p, owner, hp, hop2, hsp⟩, ?_⟩
      · simp only [CloneComponents.Reparent, hop, hfp, hop2, ht, Option.map]
      · rcases hcase with h | ⟨a, ha, hda⟩
        · rw [h]
          intro e
          have := hpN p hp
          rw [e] at this
          exact absurd hkN (Nat.not_le_of_lt this)
        · intro e
          rw [e] at ha
          have := ClonePairs_snd_inj T N a c k ha hck
          rw [this] at hda
          omega

/-- The reparenting phase over the entries of `CcOp` that belong to the pairs `L`. -/
theorem ReparentPhase_spec (w : World) (N : Nat) (T : List USceneComponent)
    (depth : USceneComponent → Nat) (hwf : WellFormedHierarchy w depth) (fuel : Nat)
    (hT : T.Nodup) (L : List (USceneComponent × USceneComponent)) :
    ∀ s : ATransformerPawn,
    (∀ ck ∈ L, ck ∈ ClonePairs N T ∧ (∃ owner, w.GetOwner ck.1 = some owner) ∧ ck.1 < N ∧
      (∀ p, w.GetAttachParent ck.1 = some p → p < N) ∧ depth ck.1 ≤ fuel) →
    ∃ (s1 : ATransformerPawn) (attach : List (USceneComponent × USceneComponent)),
      CloneComponents.ReparentPhase w (ClonePairs N T) fuel s
        (L.map (fun ck => (ck.2, OriginalParent w ck.1))) = some s1 ∧
      s1.Log = s.Log ++ attach.map (fun e => Event.AttachToComponent e.1 e.2) ∧
      List.Forall₂ (fun ck e => e.1 = ck.2 ∧ AttachTarget w (ClonePairs N T) ck.1 e.2 ∧
        e.2 ≠ e.1) L attach := by
  induction L with
  | nil =>
    intro s _
    exact ⟨s, [], rfl, by simp, List.Forall₂.nil⟩
  | cons ck rest ih =>
    intro s hL
    obtain ⟨hmem, ⟨owner, ho⟩, hcN, hpN, hf⟩ := hL ck (List.mem_cons_self _ _)
    obtain ⟨t, hstep, hspec, hne⟩ := Reparent_spec w N T depth hwf fuel hT s ck.1 ck.2 hmem
      owner ho hcN hpN hf
    obtain ⟨s1, attach, hphase, hlog, hall⟩ := ih (s.emit (Event.AttachToComponent ck.2 t))
      (fun x hx => hL x (List.mem_cons_of_mem _ hx))
    refine ⟨s1, (ck.2, t) :: attach, ?_, ?_, List.Forall₂.cons ⟨rfl, hspec, hne⟩ hall⟩
    · simp only [List.map_cons, CloneComponents.ReparentPhase, hstep, hphase]
    · rw [hlog]
      simp only [ATransformerPawn.emit, List.map_cons, List.append_assoc, List.cons_append,
        List.nil_append]


/-- C20, amended. In a well-formed component hierarchy, for every list of components to
clone without a repeated component (those handles, and the attach parents, older than the
clones to come) and with enough fuel for the depth of the components, `CloneComponents`
returns: one clone per valid input component that has an owner and whose duplication
succeeds, in order; and each clone is attached exactly once, to the clone of the nearest
proper ancestor of its original that was also cloned or, when no ancestor was cloned, to the
original parent, the original root for a cloned root. No clone is attached to itself. -/
theorem C20_clone_hierarchy (w : World) (s : ATransformerPawn)
    (Components : List (Option USceneComponent)) (fuel : Nat)
    (depth : USceneComponent → Nat) (hw : w.HasWorld = true)
    (hwf : WellFormedHierarchy w depth) (hnd : (Components.filterMap id).Nodup)
    (hfresh : ∀ c, some c ∈ Components → c < s.SceneState.NextObject ∧
      ∀ p, w.GetAttachParent c = some p → p < s.SceneState.NextObject)
    (hfuel : ∀ c, some c ∈ Components → depth c ≤ fuel) :
    ∃ (s1 : ATransformerPawn) (attach : List (USceneComponent × USceneComponent)),
      CloneComponents w s Components fuel = some (s1,
        (ClonePairs s.SceneState.NextObject (CloneTemplates w Components)).map
          (fun ck => some ck.2)) ∧
      s1.Log = s.Log ++
        (ClonePairs s.SceneState.NextObject (CloneTemplates w Components)).map
          (fun ck => Event.DuplicateObject ck.1 ck.2) ++
        attach.map (fun e => Event.AttachToComponent e.1 e.2) ∧
      List.Forall₂ (fun ck e => e.1 = ck.2 ∧
          AttachTarget w (ClonePairs s.SceneState.NextObject (CloneTemplates w Components))
            ck.1 e.2 ∧ e.2 ≠ e.1)
        (ClonePairs s.SceneState.NextObject (CloneTemplates w Components)) attach := by
  have hT : (CloneTemplates w Components).Nodup := hnd.filter _
  obtain ⟨p1, p2, p3, p4⟩ := ClonePhase_spec w Components s ⟨[], [], []⟩ hT
    (fun _ _ h => by cases h) (fun _ h => by cases h)
  simp only [List.nil_append] at p2 p3 p4
  obtain ⟨s1, attach, hphase, hlog, hall⟩ := ReparentPhase_spec w s.SceneState.NextObject
    (CloneTemplates w Components) depth hwf fuel hT
    (ClonePairs s.SceneState.NextObject (CloneTemplates w Components))
    (CloneComponents.ClonePhase w s ⟨[], [], []⟩ Components).1
    (by
      intro ck hck
      have hc : ck.1 ∈ CloneTemplates w Components := by
        rw [← ClonePairs_fst (CloneTemplates w Components) s.SceneState.NextObject]
        exact List.mem_map.2 ⟨ck, hck, rfl⟩
      obtain ⟨hin, howner⟩ := CloneTemplates_mem w Components ck.1 hc
      exact ⟨hck, howner, (hfresh ck.1 hin).1, (hfresh ck.1 hin).2, hfuel ck.1 hin⟩)
  refine ⟨s1, attach, ?_, ?_, hall⟩
  · simp only [CloneComponents, hw, Bool.not_true, Bool.false_eq_true, if_false, p2, p3, p4,
      hphase, Option.map]
  · rw [hlog, p1]

theorem exampleWorld_WellFormedHierarchy : WellFormedHierarchy exampleWorld (fun c => c % 10) := by
  intro c a h1 h2
  have ha : @Eq Nat (c / 10) a := Option.some.inj h1
  have hr : ¬ @Eq Nat (10 * a) c := fun e => h2 (congrArg some e)
  have hc : ¬ @Eq Nat (c % 10) 0 := by omega
  refine ⟨c - 1, ?_, ?_, ?_⟩
  · show (if c % 10 = 0 then none else some (c - 1)) = some (c - 1)
    simp only [hc, if_false]
  · show some ((c - 1) / 10) = some a
    have : @Eq Nat ((c - 1) / 10) a := by omega
    exact congrArg some this
  · show @LT.lt Nat _ ((c - 1) % 10) (c % 10)
    omega

/-- C20 on the three-level hierarchy `10` (root), `11` (child), `12` (grandchild), all three
selected: three clones `5000`, `5001`, `5002`, the clone of the root attached to the original
root, the clone of the child under the clone of the root and the clone of the grandchild
under the clone of the child. -/
theorem C20_clone_hierarchy_witness :
    exampleWorld.GetAttachParent 12 = some 11 ∧ exampleWorld.GetAttachParent 11 = some 10 ∧
    IsRootComponent exampleWorld 10 ∧
    ∃ s1, CloneComponents exampleWorld partPawn [some 10, some 11, some 12] 3 =
        some (s1, [some 5000, some 5001, some 5002]) ∧
      attachCalls s1.Log = [(5000, 10), (5001, 5000), (5002, 5001)] := by
  obtain ⟨s1, attach, h1, _, _⟩ := C20_clone_hierarchy exampleWorld partPawn
    [some 10, some 11, some 12] 3 (fun c => c % 10) rfl exampleWorld_WellFormedHierarchy
    (by decide)
    (by
      intro c hc
      simp only [List.mem_cons, Option.some.injEq, List.mem_singleton, List.not_mem_nil,
        or_false] at hc
      rcases hc with rfl | rfl | rfl <;> refine ⟨by decide, ?_⟩ <;> intro p hp <;>
        cases hp <;> decide)
    (by
      intro c hc
      simp only [List.mem_cons, Option.some.injEq, List.mem_singleton, List.not_mem_nil,
        or_false] at hc
      rcases hc with rfl | rfl | rfl <;> decide)
  have hev : (CloneComponents exampleWorld partPawn [some 10, some 11, some 12] 3).map
      (fun r => attachCalls r.1.Log) = some [(5000, 10), (5001, 5000), (5002, 5001)] := by
    decide
  rw [h1] at hev
  exact ⟨rfl, rfl, ⟨1, rfl, rfl⟩, s1, h1, Option.some.inj hev⟩

/-- C20 as stated fails for a list that names a component twice: with the root `10` listed
twice, the first clone `5000` is attached to the second clone `5001` of the same component
and not to the original root `10`. -/
theorem C20_duplicate_root_counterexample :
    IsRootComponent exampleWorld 10 ∧
    (CloneComponents exampleWorld partPawn [some 10, some 10] 3).map
        (fun r => (attachCalls r.1.Log, r.2)) =
      some ([(5000, 5001), (5001, 10)], [some 5000, some 5001]) ∧
    ¬ AttachTarget exampleWorld [(10, 5000), (10, 5001)] 10 5001 := by
  refine ⟨⟨1, rfl, rfl⟩, by decide, ?_⟩
  rintro (⟨_, h⟩ | ⟨h, _⟩)
  · exact absurd h (by decide)
  · exact h ⟨1, rfl, rfl⟩


/-! ## The return value of the pointer traces -/

/-- C22. `MouseTraceByChannel` returns `false` for every input and state, also when its trace
succeeds: the pawn then is in the state the successful trace left (a target selected or a
gizmo domain active) and the value returned is still `false`. `MouseTraceByObjectTypes` and
`MouseTraceByProfile` return the success flag of their trace (`false` without a pointer
ray). -/
theorem C22_mouse_trace_return (w : World) (s : ATransformerPawn) (TraceDistance : ℚ)
    (CollisionChannels : List ECollisionChannel) (TraceChannel : ECollisionChannel)
    (ProfileName : FName) (IgnoredActors : List AActor) (bAppendToList : Bool) :
    (MouseTraceByChannel w s TraceDistance TraceChannel IgnoredActors bAppendToList).2 = false ∧
    (∀ start end_, GetMouseStartEndPoints w TraceDistance = some (start, end_) →
      (TraceByChannel w s start end_ TraceChannel IgnoredActors bAppendToList).2 = true →
      (MouseTraceByChannel w s TraceDistance TraceChannel IgnoredActors bAppendToList).1 =
        (TraceByChannel w s start end_ TraceChannel IgnoredActors bAppendToList).1) ∧
    (MouseTraceByObjectTypes w s TraceDistance CollisionChannels IgnoredActors
        bAppendToList).2 =
      (match GetMouseStartEndPoints w TraceDistance with
        | some (start, end_) =>
          (TraceByObjectTypes w s start end_ CollisionChannels IgnoredActors bAppendToList).2
        | none => false) ∧
    (MouseTraceByProfile w s TraceDistance ProfileName IgnoredActors bAppendToList).2 =
      (match GetMouseStartEndPoints w TraceDistance with
        | some (start, end_) =>
          (TraceByProfile w s start end_ ProfileName IgnoredActors bAppendToList).2
        | none => false) := by
  refine ⟨?_, ?_, ?_, ?_⟩
  · unfold MouseTraceByChannel
    cases GetMouseStartEndPoints w TraceDistance with
    | none => rfl
    | some p =>
      simp only
      split <;> rfl
  · intro start end_ hray hok
    unfold MouseTraceByChannel
    simp only [hray, hok, Bool.not_true, Bool.false_and, Bool.false_eq_true, if_false]
  · unfold MouseTraceByObjectTypes
    cases GetMouseStartEndPoints w TraceDistance with
    | none => rfl
    | some p =>
      simp only
      split <;> rfl
  · unfold MouseTraceByProfile
    cases GetMouseStartEndPoints w TraceDistance with
    | none => rfl
    | some p =>
      simp only
      split <;> rfl

/-- C22 on the example scene: the trace by channel succeeds and selects the component `20`,
and `MouseTraceByChannel` returns `false`, while `MouseTraceByObjectTypes` and
`MouseTraceByProfile` return `true` for the same hits. -/
theorem C22_mouse_trace_return_witness :
    (TraceByChannel exampleWorld examplePawn ⟨0, 0, 0⟩
      ((⟨0, 0, 0⟩ : FVector).add (FVector.smul 1000 ⟨1, 0, 0⟩)) 0 [] false).2 = true ∧
    (MouseTraceByChannel exampleWorld examplePawn 1000 0 [] false).1.SelectedComponents =
      [some 20] ∧
    (MouseTraceByChannel exampleWorld examplePawn 1000 0 [] false).1 =
      (TraceByChannel exampleWorld examplePawn ⟨0, 0, 0⟩
        ((⟨0, 0, 0⟩ : FVector).add (FVector.smul 1000 ⟨1, 0, 0⟩)) 0 [] false).1 ∧
    (MouseTraceByChannel exampleWorld examplePawn 1000 0 [] false).2 = false ∧
    (MouseTraceByObjectTypes exampleWorld examplePawn 1000 [0] [] false).2 = true ∧
    (MouseTraceByProfile exampleWorld examplePawn 1000 0 [] false).2 = true :=
  have h := C22_mouse_trace_return exampleWorld examplePawn 1000 [0] 0 0 [] false
  ⟨by decide, by decide, h.2.1 _ _ rfl (by decide), h.1, by decide, by decide⟩


/-! ## Fidelity of the selection broadcast -/

/-- The loop of `SelectMultipleComponents` in append mode on a list of accepted targets that
are new to the selection and pairwise different: the list is appended as it is. -/
theorem SelectMultipleComponents_Loop_fresh (w : World) (L : List (Option USceneComponent)) :
    ∀ (s : ATransformerPawn) (bValid : Bool),
    (∀ x ∈ L, ∃ c, x = some c ∧ w.ShouldSelect (w.GetOwner c) (some c) = true) →
    L.Nodup → (∀ x ∈ L, x ∉ s.SelectedComponents) →
    (SelectMultipleComponents.Loop w s true bValid L).1.SelectedComponents =
      s.SelectedComponents ++ L := by
  induction L with
  | nil => intro s bValid _ _ _; simp [SelectMultipleComponents.Loop]
  | cons x rest ih =>
    intro s bValid hacc hnd hfresh
    obtain ⟨c, rfl, hc⟩ := hacc x (List.mem_cons_self _ _)
    rw [List.nodup_cons] at hnd
    have hx : some c ∉ s.SelectedComponents := hfresh _ (List.mem_cons_self _ _)
    have hadd : (AddComponent_Internal w s (some c)).SelectedComponents =
        s.SelectedComponents ++ [some c] := by
      rw [(AddComponent_Internal_spec w s (some c)).2, toggleList_eq]
      simp only [hx, if_false]
    simp only [SelectMultipleComponents.Loop, hc, if_true, Bool.true_eq_false, if_false]
    rw [ih (AddComponent_Internal w s (some c)) true
      (fun y hy => hacc y (List.mem_cons_of_mem _ hy)) hnd.2
      (by
        intro y hy hmem
        rw [hadd, List.mem_append, List.mem_singleton] at hmem
        rcases hmem with h | h
        · exact hfresh y (List.mem_cons_of_mem _ hy) h
        · rw [h] at hy; exact hnd.1 hy), hadd]
    simp only [List.append_assoc, List.cons_append, List.nil_append]

theorem DeselectAll_false_Gizmo (w : World) (s : ATransformerPawn) :
    (DeselectAll w s false).1.Gizmo = none := by
  unfold DeselectAll
  simp only [Bool.false_eq_true, if_false]
  exact UpdateGizmoPlacement_Gizmo_of_empty w _ rfl

/-- C23. For every prior state and every duplicate-free list of non-null targets accepted by
`ShouldSelect`, after `MulticastSetSelectedComponents(list)` has run on a peer its
`SelectedComponents` is the list itself, in the same order, and `bResyncSelection` is false.
An empty broadcast leaves the peer with an empty selection, no gizmo and no resync; on a peer
whose selection was empty and that had no gizmo it changes nothing but the resync flag, which
is (re)set to false. -/
theorem C23_broadcast_fidelity (w : World) (s : ATransformerPawn)
    (Components : List (Option USceneComponent)) (hnd : Components.Nodup)
    (hacc : ∀ x ∈ Components, ∃ c, x = some c ∧ w.ShouldSelect (w.GetOwner c) (some c) = true) :
    (MulticastSetSelectedComponents_Implementation w s Components).SelectedComponents =
      Components ∧
    (MulticastSetSelectedComponents_Implementation w s Components).bResyncSelection = false ∧
    (MulticastSetSelectedComponents w s Components).SelectedComponents = Components ∧
    (MulticastSetSelectedComponents w s Components).bResyncSelection = false ∧
    (MulticastSetSelectedComponents_Implementation w s []).SelectedComponents = [] ∧
    (MulticastSetSelectedComponents_Implementation w s []).Gizmo = none ∧
    (MulticastSetSelectedComponents_Implementation w s []).bResyncSelection = false ∧
    (s.SelectedComponents = [] → s.Gizmo = none →
      MulticastSetSelectedComponents_Implementation w s [] =
        { s with bResyncSelection := false }) := by
  have hsel : ∀ t : ATransformerPawn,
      (MulticastSetSelectedComponents_Implementation w t Components).SelectedComponents =
        Components := by
    intro t
    rw [MulticastSetSelectedComponents_Implementation_SelectedComponents]
    have hloop := SelectMultipleComponents_Loop_fresh w Components (DeselectAll w t false).1
      false hacc hnd (by
        intro x _
        rw [DeselectAll_SelectedComponents]
        exact List.not_mem_nil x)
    rw [DeselectAll_SelectedComponents, List.nil_append] at hloop
    unfold SelectMultipleComponents
    simp only
    split
    · rw [UpdateGizmoPlacement_SelectedComponents]; exact hloop
    · exact hloop
  have hres : ∀ t : ATransformerPawn,
      (MulticastSetSelectedComponents_Implementation w t Components).bResyncSelection =
        false := by
    intro t
    rw [MulticastSetSelectedComponents_Implementation_bResyncSelection, hsel t]
    simp
  have hempty : MulticastSetSelectedComponents_Implementation w s [] =
      { (DeselectAll w s false).1 with bResyncSelection := false } := by
    simp [MulticastSetSelectedComponents_Implementation, SelectMultipleComponents,
      SelectMultipleComponents.Loop, DeselectAll_SelectedComponents]
  refine ⟨hsel s, hres s, hsel _, hres _, ?_, ?_, ?_, ?_⟩
  · rw [hempty]; exact DeselectAll_SelectedComponents w s false
  · rw [hempty]; exact DeselectAll_false_Gizmo w s
  · rw [hempty]
  · intro h1 h2
    rw [hempty]
    have hd : (DeselectAll w s false).1 = s := by
      unfold DeselectAll
      simp only [h1, List.foldl_nil, Bool.false_eq_true, if_false]
      have hs : ({ s with SelectedComponents := [] } : ATransformerPawn) = s := by
        rw [← h1]
      rw [hs]
      simp only [UpdateGizmoPlacement, SetGizmo, h1, List.length_nil, gt_iff_lt,
        Nat.lt_irrefl, if_false, h2]
    rw [hd]

/-- C23 on the example scene: the list `[30, 10]` broadcast to a peer that had `10` and `20`
selected, and the empty list broadcast to the pawn as constructed. -/
theorem C23_broadcast_fidelity_witness :
    (selectedPawn true).SelectedComponents = [some 10, some 20] ∧
    (MulticastSetSelectedComponents_Implementation exampleWorld (selectedPawn true)
      [some 30, some 10]).SelectedComponents = [some 30, some 10] ∧
    (MulticastSetSelectedComponents_Implementation exampleWorld (selectedPawn true)
      [some 30, some 10]).bResyncSelection = false ∧
    MulticastSetSelectedComponents_Implementation exampleWorld examplePawn [] =
      { examplePawn with bResyncSelection := false } := by
  have hacc : ∀ x ∈ [some 30, some 10], ∃ c, x = some c ∧
      exampleWorld.ShouldSelect (exampleWorld.GetOwner c) (some c) = true := by
    intro x hx
    simp only [List.mem_cons, List.mem_singleton, List.not_mem_nil, or_false] at hx
    rcases hx with rfl | rfl
    · exact ⟨30, rfl, by decide⟩
    · exact ⟨10, rfl, by decide⟩
  have h := C23_broadcast_fidelity exampleWorld (selectedPawn true) [some 30, some 10]
    (by decide) hacc
  have h0 := C23_broadcast_fidelity exampleWorld examplePawn [] (by decide)
    (fun x hx => absurd hx (List.not_mem_nil x))
  exact ⟨by decide, h.1, h.2.1, h0.2.2.2.2.2.2.2 rfl rfl⟩


/-! ## Switching the selection mode -/

theorem SetComponentBased.Actors_of_valid (w : World) (L : List (Option USceneComponent))
    (h : ∀ x ∈ L, x ≠ none) : SetComponentBased.Actors w L = some (SelectionOwners w L) := by
  induction L with
  | nil => rfl
  | cons x rest ih =>
    cases x with
    | none => exact absurd rfl (h none (List.mem_cons_self _ _))
    | some c =>
      simp only [SetComponentBased.Actors, ih (fun y hy => h y (List.mem_cons_of_mem _ hy)),
        Option.map, SelectionOwners, List.filterMap_cons]

theorem AcceptedRoots_none (w : World) (rest : List (Option AActor)) :
    AcceptedRoots w (none :: rest) = AcceptedRoots w rest := rfl

theorem AcceptedRoots_some (w : World) (a : AActor) (rest : List (Option AActor)) :
    AcceptedRoots w (some a :: rest) =
      if w.ShouldSelect (some a) (w.GetRootComponent a) = true then
        w.GetRootComponent a :: AcceptedRoots w rest
      else AcceptedRoots w rest := by
  simp only [AcceptedRoots, List.filterMap_cons, id, List.filter_cons]
  split <;> rfl

/-- The loop of `SelectMultipleActors` in append mode: the roots of the accepted actors are
passed to `AddComponent_Internal` one after the other. -/
theorem SelectMultipleActors_Loop_append (w : World) (A : List (Option AActor)) :
    ∀ (s : ATransformerPawn) (bValid : Bool),
    LocalStep s (SelectMultipleActors.Loop w s true bValid A).1 ∧
    (SelectMultipleActors.Loop w s true bValid A).1.SelectedComponents =
      (AcceptedRoots w A).foldl (toggleList s.bToggleSelectedInMultiSelection)
        s.SelectedComponents := by
  induction A with
  | nil => intro s bValid; exact ⟨LocalStep.refl s, rfl⟩
  | cons x rest ih =>
    intro s bValid
    cases x with
    | none =>
      rw [AcceptedRoots_none]
      exact ih s bValid
    | some a =>
      rw [AcceptedRoots_some]
      by_cases ha : w.ShouldSelect (some a) (w.GetRootComponent a) = true
      · simp only [SelectMultipleActors.Loop, ha, if_true, Bool.true_eq_false, if_false,
          List.foldl_cons]
        obtain ⟨h1, h2⟩ := AddComponent_Internal_spec w s (w.GetRootComponent a)
        obtain ⟨i1, i2⟩ := ih (AddComponent_Internal w s (w.GetRootComponent a)) true
        refine ⟨h1.trans i1, ?_⟩
        rw [i2, h2, LocalStep.bToggle h1]
      · simp only [SelectMultipleActors.Loop, ha, Bool.false_eq_true, if_false]
        exact ih s bValid

/-- The loop of `SelectMultipleActors` in replace mode, started on an empty selection. -/
theorem SelectMultipleActors_Loop_replace (w : World) (A : List (Option AActor)) :
    ∀ (s : ATransformerPawn) (bValid : Bool), s.SelectedComponents = [] →
    LocalStep s (SelectMultipleActors.Loop w s false bValid A).1 ∧
    (SelectMultipleActors.Loop w s false bValid A).1.SelectedComponents =
      (AcceptedRoots w A).foldl (toggleList s.bToggleSelectedInMultiSelection) [] := by
  induction A with
  | nil => intro s bValid h; exact ⟨LocalStep.refl s, h⟩
  | cons x rest ih =>
    intro s bValid h
    cases x with
    | none =>
      rw [AcceptedRoots_none]
      exact ih s bValid h
    | some a =>
      rw [AcceptedRoots_some]
      by_cases ha : w.ShouldSelect (some a) (w.GetRootComponent a) = true
      · simp only [SelectMultipleActors.Loop, ha, if_true, List.foldl_cons]
        have hd := DeselectAll_false_LocalStep w s
        obtain ⟨h1, h2⟩ := AddComponent_Internal_spec w (DeselectAll w s false).1
          (w.GetRootComponent a)
        obtain ⟨i1, i2⟩ := SelectMultipleActors_Loop_append w rest
          (AddComponent_Internal w (DeselectAll w s false).1 (w.GetRootComponent a)) true
        refine ⟨(hd.trans h1).trans i1, ?_⟩
        rw [i2, h2, LocalStep.bToggle h1, LocalStep.bToggle hd,
          DeselectAll_SelectedComponents]
      · simp only [SelectMultipleActors.Loop, ha, Bool.false_eq_true, if_false]
        exact ih s bValid h

theorem foldl_toggleList_fresh {α : Type} [DecidableEq α] (b : Bool) (L : List α) :
    ∀ l : List α, (l ++ L).Nodup → L.foldl (toggleList b) l = l ++ L := by
  induction L with
  | nil => intro l _; simp
  | cons x rest ih =>
    intro l h
    have hx : x ∉ l := by
      intro hm
      rw [List.nodup_append] at h
      exact h.2.2 hm (List.mem_cons_self _ _)
    have ht : toggleList b l x = l ++ [x] := by
      rw [toggleList_eq]; simp only [hx, if_false]
    rw [List.foldl_cons, ht, ih (l ++ [x]) (by simpa using h)]
    simp


theorem toggleList_twice {α : Type} [DecidableEq α] (x : α) :
    [x, x].foldl (toggleList true) [] = [] := by
  simp [toggleList]

/-- C24. `SetComponentBased(false)` on a selection without null entry completes and leaves the
pawn in whole-object mode with the selection that results from passing, to
`AddComponent_Internal` on an empty selection, the root component of the owner of each
previously selected component, one after the other (owners that are null or refused by
`ShouldSelect` are passed over). When these roots are pairwise different the selection is the
list of these roots. When they are not, the toggle applies: with the toggle flag on, two
selected components of the same accepted actor leave the selection empty, the object drops
out. -/
theorem C24_component_based_switch (w : World) (s : ATransformerPawn)
    (hvalid : ∀ x ∈ s.SelectedComponents, x ≠ none) :
    ∃ s1, SetComponentBased w s false = some s1 ∧ s1.bComponentBased = false ∧
      s1.SelectedComponents =
        (AcceptedRoots w (SelectionOwners w s.SelectedComponents)).foldl
          (toggleList s.bToggleSelectedInMultiSelection) [] ∧
      ((AcceptedRoots w (SelectionOwners w s.SelectedComponents)).Nodup →
        s1.SelectedComponents = AcceptedRoots w (SelectionOwners w s.SelectedComponents)) ∧
      (s.bToggleSelectedInMultiSelection = true → ∀ c1 c2 a,
        s.SelectedComponents = [some c1, some c2] → w.GetOwner c1 = some a →
        w.GetOwner c2 = some a → w.ShouldSelect (some a) (w.GetRootComponent a) = true →
        s1.SelectedComponents = []) := by
  have hd := DeselectAll_false_LocalStep w s
  have hloop := SelectMultipleActors_Loop_replace w (SelectionOwners w s.SelectedComponents)
    { (DeselectAll w s false).1 with bComponentBased := false } false
    (DeselectAll_SelectedComponents w s false)
  have htog : ({ (DeselectAll w s false).1 with bComponentBased := false } :
      ATransformerPawn).bToggleSelectedInMultiSelection =
      s.bToggleSelectedInMultiSelection := by
    show (DeselectAll w s false).1.bToggleSelectedInMultiSelection = _
    exact LocalStep.bToggle hd
  rw [htog] at hloop
  have hstep : LocalStep { (DeselectAll w s false).1 with bComponentBased := false }
      (SelectMultipleActors w { (DeselectAll w s false).1 with bComponentBased := false }
        (SelectionOwners w s.SelectedComponents) false) := by
    unfold SelectMultipleActors
    simp only
    split
    · exact hloop.1.trans (LocalStep.UpdateGizmoPlacement w _)
    · exact hloop.1
  have hsel : (SelectMultipleActors w
      { (DeselectAll w s false).1 with bComponentBased := false }
      (SelectionOwners w s.SelectedComponents) false).SelectedComponents =
      (AcceptedRoots w (SelectionOwners w s.SelectedComponents)).foldl
        (toggleList s.bToggleSelectedInMultiSelection) [] := by
    unfold SelectMultipleActors
    simp only
    split
    · rw [UpdateGizmoPlacement_SelectedComponents]; exact hloop.2
    · exact hloop.2
  refine ⟨SelectMultipleActors w { (DeselectAll w s false).1 with bComponentBased := false }
    (SelectionOwners w s.SelectedComponents) false, ?_, ?_, hsel, ?_, ?_⟩
  · have hact : SetComponentBased.Actors w (DeselectAll w s false).2 =
        some (SelectionOwners w s.SelectedComponents) :=
      SetComponentBased.Actors_of_valid w s.SelectedComponents hvalid
    simp only [SetComponentBased, Bool.false_eq_true, if_false, hact, Option.map]
  · rw [LocalStep.bComponentBased hstep]
  · intro hnd
    rw [hsel, foldl_toggleList_fresh _ _ [] (by simpa using hnd), List.nil_append]
  · intro ht c1 c2 a hs h1 h2 ha
    have hroots : AcceptedRoots w (SelectionOwners w [some c1, some c2]) =
        [w.GetRootComponent a, w.GetRootComponent a] := by
      have ho : SelectionOwners w [some c1, some c2] = [some a, some a] := by
        simp only [SelectionOwners, List.filterMap_cons, List.filterMap_nil, Option.map, h1, h2]
      rw [ho, AcceptedRoots_some, AcceptedRoots_some]
      simp only [ha, if_true]
      rfl
    rw [hsel, hs, ht, hroots]
    exact toggleList_twice (w.GetRootComponent a)

/-- C24 on the example scene: with the components `10` and `11` of the actor `1` selected,
the switch to whole-object mode leaves the selection empty; with the components `11` and `21`
of two actors selected, it selects their roots `10` and `20`. -/
theorem C24_component_based_switch_witness :
    sameActorPawn.SelectedComponents = [some 10, some 11] ∧
    sameActorPawn.bToggleSelectedInMultiSelection = true ∧
    exampleWorld.GetOwner 10 = some 1 ∧ exampleWorld.GetOwner 11 = some 1 ∧
    exampleWorld.GetRootComponent 1 = some 10 ∧
    (∃ s1, SetComponentBased exampleWorld sameActorPawn false = some s1 ∧
      s1.SelectedComponents = []) ∧
    (∃ s1, SetComponentBased exampleWorld
        (SelectMultipleComponents exampleWorld partPawn [some 11, some 21] false) false =
        some s1 ∧
      s1.SelectedComponents = [some 10, some 20]) := by
  obtain ⟨s1, h1, _, _, _, h5⟩ := C24_component_based_switch exampleWorld sameActorPawn
    (by decide)
  obtain ⟨s2, k1, _, _, k4, _⟩ := C24_component_based_switch exampleWorld
    (SelectMultipleComponents exampleWorld partPawn [some 11, some 21] false) (by decide)
  refine ⟨by decide, by decide, rfl, rfl, rfl,
    ⟨s1, h1, h5 (by decide) 10 11 1 (by decide) rfl rfl (by decide)⟩, s2, k1, ?_⟩
  rw [k4 (by decide)]
  decide


/-! ## The requests of a remote peer after a local trace -/

theorem serverCalls_map_Server (calls : List ServerCall) :
    serverCalls (calls.map Event.Server) = calls := by
  induction calls with
  | nil => rfl
  | cons c rest ih =>
    simp only [serverCalls, List.map_cons, List.filterMap_cons] at ih ⊢
    rw [ih]

/-- After a step that records local calls only, followed by the requests `calls`, the
requests since the start are `calls`. -/
theorem requestsSince_of_LocalLog {s t t2 : ATransformerPawn} (h : LocalLog s t)
    (calls : List ServerCall) (h2 : t2.Log = t.Log ++ calls.map Event.Server) :
    requestsSince s t2 = calls := by
  obtain ⟨l, hl, hlocal⟩ := h
  unfold requestsSince
  rw [h2, hl, List.append_assoc, List.drop_left, serverCalls_append,
    serverCalls_of_local l hlocal, serverCalls_map_Server, List.nil_append]

theorem ServerDeselectAll_remote (w : World) (t : ATransformerPawn) (b : Bool)
    (ha : w.IsAuthority = false) :
    ServerDeselectAll w t b = t.emit (Event.Server (ServerCall.ServerDeselectAll b)) := by
  simp only [ServerDeselectAll, ha, Bool.false_and, Bool.false_eq_true, if_false]

theorem ServerSetDomain_remote (w : World) (t : ATransformerPawn) (d : ETransformationDomain)
    (ha : w.IsAuthority = false) :
    ServerSetDomain w t d = t.emit (Event.Server (ServerCall.ServerSetDomain d)) := by
  simp only [ServerSetDomain, ha, Bool.false_and, Bool.false_eq_true, if_false]

theorem ServerTraceByObjectTypes_remote (w : World) (t : ATransformerPawn) (a e : FVector)
    (cc : List ECollisionChannel) (b : Bool) (ha : w.IsAuthority = false) :
    ServerTraceByObjectTypes w t a e cc b =
      t.emit (Event.Server (ServerCall.ServerTraceByObjectTypes a e cc b)) := by
  simp only [ServerTraceByObjectTypes, ha, Bool.false_and, Bool.false_eq_true, if_false]

theorem ServerTraceByChannel_remote (w : World) (t : ATransformerPawn) (a e : FVector)
    (ch : ECollisionChannel) (b : Bool) (ha : w.IsAuthority = false) :
    ServerTraceByChannel w t a e ch b =
      t.emit (Event.Server (ServerCall.ServerTraceByChannel a e ch b)) := by
  simp only [ServerTraceByChannel, ha, Bool.false_and, Bool.false_eq_true, if_false]

theorem ServerTraceByProfile_remote (w : World) (t : ATransformerPawn) (a e : FVector)
    (pn : FName) (b : Bool) (ha : w.IsAuthority = false) :
    ServerTraceByProfile w t a e pn b =
      t.emit (Event.Server (ServerCall.ServerTraceByProfile a e pn b)) := by
  simp only [ServerTraceByProfile, ha, Bool.false_and, Bool.false_eq_true, if_false]

/-- The requests of `ReplicatedMouseTraceByObjectTypes` on a remote peer: the request to
deselect alone after a miss without the append flag, else the domain when one is active, else
the ray. -/
theorem ReplicatedMouseTraceByObjectTypes_remote (w : World) (s : ATransformerPawn)
    (TraceDistance : ℚ) (cc : List ECollisionChannel) (b : Bool) (start end_ : FVector)
    (ha : w.IsAuthority = false)
    (hray : GetMouseStartEndPoints w TraceDistance = some (start, end_)) :
    requestsSince s (ReplicatedMouseTraceByObjectTypes w s TraceDistance cc b) =
      if (!(TraceByObjectTypes w s start end_ cc [] b).2 && !b) = true then
        [ServerCall.ServerDeselectAll false]
      else if (TraceByObjectTypes w s start end_ cc [] b).1.CurrentDomain =
          ETransformationDomain.TD_None then
        [ServerCall.ServerTraceByObjectTypes start end_ cc b]
      else [ServerCall.ServerSetDomain (TraceByObjectTypes w s start end_ cc [] b).1.CurrentDomain] := by
  have hl := TraceByObjectTypes_LocalLog w s start end_ cc [] b
  unfold ReplicatedMouseTraceByObjectTypes
  simp only [hray, ha, Bool.false_eq_true, if_false]
  split_ifs with h1 h2
  · rw [ServerDeselectAll_remote w _ _ ha]
    exact requestsSince_of_LocalLog hl _ rfl
  · rw [ServerTraceByObjectTypes_remote w _ _ _ _ _ ha]
    exact requestsSince_of_LocalLog hl _ rfl
  · rw [ServerSetDomain_remote w _ _ ha]
    exact requestsSince_of_LocalLog hl _ rfl

/-- The requests of `ReplicatedMouseTraceByChannel` on a remote peer: the request to deselect
after a miss without the append flag, and then in every case the domain when one is active,
else the ray. -/
theorem ReplicatedMouseTraceByChannel_remote (w : World) (s : ATransformerPawn)
    (TraceDistance : ℚ) (ch : ECollisionChannel) (b : Bool) (start end_ : FVector)
    (ha : w.IsAuthority = false)
    (hray : GetMouseStartEndPoints w TraceDistance = some (start, end_)) :
    requestsSince s (ReplicatedMouseTraceByChannel w s TraceDistance ch b) =
      (if (!(TraceByChannel w s start end_ ch [] b).2 && !b) = true then
        [ServerCall.ServerDeselectAll false] else []) ++
      [if (TraceByChannel w s start end_ ch [] b).1.CurrentDomain =
          ETransformationDomain.TD_None then
        ServerCall.ServerTraceByChannel start end_ ch b
      else ServerCall.ServerSetDomain (TraceByChannel w s start end_ ch [] b).1.CurrentDomain] := by
  have hl := TraceByChannel_LocalLog w s start end_ ch [] b
  unfold ReplicatedMouseTraceByChannel
  simp only [hray, ha, Bool.false_eq_true, if_false]
  generalize TraceByChannel w s start end_ ch [] b = r at hl
  obtain ⟨t, ok⟩ := r
  simp only at hl ⊢
  by_cases h1 : (!ok && !b) = true
  · have hd : (t.emit (Event.Server (ServerCall.ServerDeselectAll false))).CurrentDomain =
        t.CurrentDomain := rfl
    simp only [h1, if_true, ServerDeselectAll_remote w _ _ ha, hd]
    by_cases h2 : t.CurrentDomain = ETransformationDomain.TD_None
    · simp only [h2, if_true, ServerTraceByChannel_remote w _ _ _ _ _ ha]
      exact requestsSince_of_LocalLog hl [_, _] (by simp [ATransformerPawn.emit])
    · simp only [h2, if_false, ServerSetDomain_remote w _ _ ha]
      exact requestsSince_of_LocalLog hl [_, _] (by simp [ATransformerPawn.emit])
  · simp only [h1, Bool.false_eq_true, if_false, List.nil_append]
    by_cases h2 : t.CurrentDomain = ETransformationDomain.TD_None
    · simp only [h2, if_true, ServerTraceByChannel_remote w _ _ _ _ _ ha]
      exact requestsSince_of_LocalLog hl [_] rfl
    · simp only [h2, if_false, ServerSetDomain_remote w _ _ ha]
      exact requestsSince_of_LocalLog hl [_] rfl

/-- The requests of `ReplicatedMouseTraceByProfile` on a remote peer: the request to deselect
after a miss without the append flag, and then in every case the domain when one is active,
else the ray. -/
theorem ReplicatedMouseTraceByProfile_remote (w : World) (s : ATransformerPawn)
    (TraceDistance : ℚ) (pn : FName) (b : Bool) (start end_ : FVector)
    (ha : w.IsAuthority = false)
    (hray : GetMouseStartEndPoints w TraceDistance = some (start, end_)) :
    requestsSince s (ReplicatedMouseTraceByProfile w s TraceDistance pn b) =
      (if (!(TraceByProfile w s start end_ pn [] b).2 && !b) = true then
        [ServerCall.ServerDeselectAll false] else []) ++
      [if (TraceByProfile w s start end_ pn [] b).1.CurrentDomain =
          ETransformationDomain.TD_None then
        ServerCall.ServerTraceByProfile start end_ pn b
      else ServerCall.ServerSetDomain (TraceByProfile w s start end_ pn [] b).1.CurrentDomain] := by
  have hl := TraceByProfile_LocalLog w s start end_ pn [] b
  unfold ReplicatedMouseTraceByProfile
  simp only [hray, ha, Bool.false_eq_true, if_false]
  generalize TraceByProfile w s start end_ pn [] b = r at hl
  obtain ⟨t, ok⟩ := r
  simp only at hl ⊢
  by_cases h1 : (!ok && !b) = true
  · have hd : (t.emit (Event.Server (ServerCall.ServerDeselectAll false))).CurrentDomain =
        t.CurrentDomain := rfl
    simp only [h1, if_true, ServerDeselectAll_remote w _ _ ha, hd]
    by_cases h2 : t.CurrentDomain = ETransformationDomain.TD_None
    · simp only [h2, if_true, ServerTraceByProfile_remote w _ _ _ _ _ ha]
      exact requestsSince_of_LocalLog hl [_, _] (by simp [ATransformerPawn.emit])
    · simp only [h2, if_false, ServerSetDomain_remote w _ _ ha]
      exact requestsSince_of_LocalLog hl [_, _] (by simp [ATransformerPawn.emit])
  · simp only [h1, Bool.false_eq_true, if_false, List.nil_append]
    by_cases h2 : t.CurrentDomain = ETransformationDomain.TD_None
    · simp only [h2, if_true, ServerTraceByProfile_remote w _ _ _ _ _ ha]
      exact requestsSince_of_LocalLog hl [_] rfl
    · simp only [h2, if_false, ServerSetDomain_remote w _ _ ha]
      exact requestsSince_of_LocalLog hl [_] rfl


/-- C25. On a peer that is not the authority, with the ray of the mouse available and the same
local trace outcome (success flag and resulting `CurrentDomain`) for the three kinds of trace
and the same append flag: `ReplicatedMouseTraceByChannel` and `ReplicatedMouseTraceByProfile`
always issue the same requests up to the kind of trace request;
`ReplicatedMouseTraceByObjectTypes` issues the same requests as these two when the trace
succeeded or the append flag is on; after a miss with the append flag off it issues
`ServerDeselectAll(false)` alone, while the other two go on with a second request (the domain
when one is active, else the ray), so the sequences differ. -/
theorem C25_replicated_trace_variants (w : World) (s : ATransformerPawn) (TraceDistance : ℚ)
    (CollisionChannels : List ECollisionChannel) (CollisionChannel : ECollisionChannel)
    (ProfileName : FName) (bAppendToList : Bool) (start end_ : FVector)
    (hremote : w.IsAuthority = false)
    (hray : GetMouseStartEndPoints w TraceDistance = some (start, end_))
    (hokC : (TraceByChannel w s start end_ CollisionChannel [] bAppendToList).2 =
      (TraceByObjectTypes w s start end_ CollisionChannels [] bAppendToList).2)
    (hdomC : (TraceByChannel w s start end_ CollisionChannel [] bAppendToList).1.CurrentDomain =
      (TraceByObjectTypes w s start end_ CollisionChannels [] bAppendToList).1.CurrentDomain)
    (hokP : (TraceByProfile w s start end_ ProfileName [] bAppendToList).2 =
      (TraceByObjectTypes w s start end_ CollisionChannels [] bAppendToList).2)
    (hdomP : (TraceByProfile w s start end_ ProfileName [] bAppendToList).1.CurrentDomain =
      (TraceByObjectTypes w s start end_ CollisionChannels [] bAppendToList).1.CurrentDomain) :
    (requestsSince s
        (ReplicatedMouseTraceByChannel w s TraceDistance CollisionChannel
          bAppendToList)).map ServerCall.ForgetTraceKind =
      (requestsSince s
        (ReplicatedMouseTraceByProfile w s TraceDistance ProfileName
          bAppendToList)).map ServerCall.ForgetTraceKind ∧
    (((TraceByObjectTypes w s start end_ CollisionChannels [] bAppendToList).2 = true ∨
        bAppendToList = true) →
      (requestsSince s
          (ReplicatedMouseTraceByObjectTypes w s TraceDistance CollisionChannels
            bAppendToList)).map ServerCall.ForgetTraceKind =
        (requestsSince s
          (ReplicatedMouseTraceByChannel w s TraceDistance CollisionChannel
            bAppendToList)).map ServerCall.ForgetTraceKind) ∧
    ((TraceByObjectTypes w s start end_ CollisionChannels [] bAppendToList).2 = false →
      bAppendToList = false →
      requestsSince s
          (ReplicatedMouseTraceByObjectTypes w s TraceDistance CollisionChannels
            bAppendToList) =
        [ServerCall.ServerDeselectAll false] ∧
      (requestsSince s
          (ReplicatedMouseTraceByChannel w s TraceDistance CollisionChannel
            bAppendToList)).map ServerCall.ForgetTraceKind =
        [ServerCall.ServerDeselectAll false,
          if (TraceByObjectTypes w s start end_ CollisionChannels []
              bAppendToList).1.CurrentDomain = ETransformationDomain.TD_None then
            ServerCall.ServerTraceByObjectTypes start end_ [] false
          else ServerCall.ServerSetDomain
            (TraceByObjectTypes w s start end_ CollisionChannels []
              bAppendToList).1.CurrentDomain] ∧
      (requestsSince s
          (ReplicatedMouseTraceByObjectTypes w s TraceDistance CollisionChannels
            bAppendToList)).map ServerCall.ForgetTraceKind ≠
        (requestsSince s
          (ReplicatedMouseTraceByChannel w s TraceDistance CollisionChannel
            bAppendToList)).map ServerCall.ForgetTraceKind) := by
  have hO := ReplicatedMouseTraceByObjectTypes_remote w s TraceDistance CollisionChannels
    bAppendToList start end_ hremote hray
  have hC := ReplicatedMouseTraceByChannel_remote w s TraceDistance CollisionChannel
    bAppendToList start end_ hremote hray
  have hP := ReplicatedMouseTraceByProfile_remote w s TraceDistance ProfileName
    bAppendToList start end_ hremote hray
  rw [hokC, hdomC] at hC
  rw [hokP, hdomP] at hP
  rw [hO, hC, hP]
  generalize (TraceByObjectTypes w s start end_ CollisionChannels [] bAppendToList).2 = ok
  generalize (TraceByObjectTypes w s start end_ CollisionChannels []
    bAppendToList).1.CurrentDomain = dom
  refine ⟨?_, ?_, ?_⟩
  · by_cases hd : dom = ETransformationDomain.TD_None
    · simp only [hd, if_true, List.map_append, List.map_cons, List.map_nil,
        ServerCall.ForgetTraceKind]
    · simp only [hd, if_false, List.map_append, List.map_cons, List.map_nil,
        ServerCall.ForgetTraceKind]
  · intro hor
    have hmiss : ¬ ((!ok && !bAppendToList) = true) := by
      rcases hor with h | h <;> simp [h]
    by_cases hd : dom = ETransformationDomain.TD_None
    · rw [if_neg hmiss, if_neg hmiss, if_pos hd, if_pos hd]
      rfl
    · rw [if_neg hmiss, if_neg hmiss, if_neg hd, if_neg hd]
      rfl
  · intro hok hb
    subst hok hb
    by_cases hd : dom = ETransformationDomain.TD_None
    · simp [hd, ServerCall.ForgetTraceKind]
    · simp [hd, ServerCall.ForgetTraceKind]

/-- C25 on the example scene, seen from a remote peer, with a ray that misses everything,
nothing selected, no domain active and the append flag off: the three traces have the same
outcome, `ReplicatedMouseTraceByObjectTypes` sends `ServerDeselectAll(false)` alone, and
`ReplicatedMouseTraceByChannel` sends `ServerDeselectAll(false)` and then forwards the ray. -/
theorem C25_replicated_trace_variants_witness :
    remoteEmptyWorld.IsAuthority = false ∧
    requestsSince examplePawn
        (ReplicatedMouseTraceByObjectTypes remoteEmptyWorld examplePawn 1000 [0] false) =
      [ServerCall.ServerDeselectAll false] ∧
    (requestsSince examplePawn
        (ReplicatedMouseTraceByChannel remoteEmptyWorld examplePawn 1000 0
          false)).map ServerCall.ForgetTraceKind =
      [ServerCall.ServerDeselectAll false,
        ServerCall.ServerTraceByObjectTypes ⟨0, 0, 0⟩
          ((⟨0, 0, 0⟩ : FVector).add (FVector.smul 1000 ⟨1, 0, 0⟩)) [] false] ∧
    (requestsSince examplePawn
        (ReplicatedMouseTraceByObjectTypes remoteEmptyWorld examplePawn 1000 [0]
          false)).map ServerCall.ForgetTraceKind ≠
      (requestsSince examplePawn
        (ReplicatedMouseTraceByChannel remoteEmptyWorld examplePawn 1000 0
          false)).map ServerCall.ForgetTraceKind :=
  have h := (C25_replicated_trace_variants remoteEmptyWorld examplePawn 1000 [0] 0 0 false
    ⟨0, 0, 0⟩ ((⟨0, 0, 0⟩ : FVector).add (FVector.smul 1000 ⟨1, 0, 0⟩)) rfl rfl
    (by decide) (by decide) (by decide) (by decide)).2.2 (by decide) rfl
  ⟨rfl, h.1, h.2.1, h.2.2⟩


end RuntimeTransformer
